import Mathlib

/-!
# notmuch search: rendering of search results

A shallow embedding of `notmuch-search.c`: the reconstruction of the thread
queries, the thread renderer, the address flattening, the message renderer,
the tag collector and the search command.  The mail index, the structured
printer, the address parser and the time/text helpers are external
collaborators.  Engine cursors are forward-only finite sequences and are
embedded as lists; a renderer is embedded as a function returning the
sequence of printer calls (and raw writes) it performs, its return code and
the options structure it leaves behind (`opt` is passed by pointer and the
offset is updated in place).

C `int` values are embedded as `Int`; every arithmetic operation whose result
is stored in an `int` is wrapped by `wrap32` (two's complement, 32 bits).
-/

set_option autoImplicit false

namespace NotmuchSearch

/-! ## Machine integers -/

/-- Reduction of a mathematical integer to the range of a 32-bit C `int`. -/
def wrap32 (x : Int) : Int := (x + 2147483648) % 4294967296 - 2147483648

/-- Largest value of a C `int`. -/
def INT_MAX : Int := 2147483647

/-- Smallest value of a C `int`. -/
def INT_MIN : Int := -2147483648

/-- The predicate "x is representable as a C int". -/
def isInt32 (x : Int) : Prop := INT_MIN ≤ x ∧ x ≤ INT_MAX

instance (x : Int) : Decidable (isInt32 x) := by
  unfold isInt32; exact inferInstance

/-! ## Output selection (`output_t`) -/

def OUTPUT_SUMMARY : Nat := 1 <<< 0
def OUTPUT_THREADS : Nat := 1 <<< 1
def OUTPUT_MESSAGES : Nat := 1 <<< 2
def OUTPUT_FILES : Nat := 1 <<< 3
def OUTPUT_TAGS : Nat := 1 <<< 4
def OUTPUT_SENDER : Nat := 1 <<< 5
def OUTPUT_RECIPIENTS : Nat := 1 <<< 6

def OUTPUT_ADDRESS_FLAGS : Nat := OUTPUT_SENDER ||| OUTPUT_RECIPIENTS

/-! ## Data model -/

inductive notmuch_sort_t where
  | NOTMUCH_SORT_OLDEST_FIRST
  | NOTMUCH_SORT_NEWEST_FIRST
  deriving DecidableEq, Repr

inductive notmuch_exclude_t where
  | NOTMUCH_EXCLUDE_FLAG
  | NOTMUCH_EXCLUDE_TRUE
  | NOTMUCH_EXCLUDE_FALSE
  | NOTMUCH_EXCLUDE_ALL
  deriving DecidableEq, Repr

/-- The part of a structured printer the renderers read: the family flag. -/
structure sprinter_t where
  is_text_printer : Bool
  deriving DecidableEq, Repr

/-- A query handle: the query string and the settings applied to it. -/
structure notmuch_query_t where
  query_string : String
  sort : notmuch_sort_t
  exclude_tags : List String
  omit_excluded : Option notmuch_exclude_t
  deriving DecidableEq, Repr

/-- The options of one search, `search_options_t`. -/
structure search_options_t where
  format : sprinter_t
  query : notmuch_query_t
  sort : notmuch_sort_t
  output : Nat
  offset : Int
  limit : Int
  dupe : Int
  deriving DecidableEq, Repr

/-- A message as seen through the engine accessors used by the renderers. -/
structure notmuch_message_t where
  message_id : String
  flag_match : Bool
  filenames : List String
  header : String → Option String

/-- A thread as seen through the engine accessors used by the renderers. -/
structure notmuch_thread_t where
  thread_id : String
  authors : String
  subject : String
  oldest_date : Int
  newest_date : Int
  matched_messages : Int
  total_messages : Int
  tags : List String
  messages : List notmuch_message_t

/-- A parsed address: a mailbox, or a group whose member list may be absent
(`internet_address_group_get_members` returning NULL) or empty. -/
inductive InternetAddress where
  | mailbox (name : Option String) (addr : String)
  | group (name : Option String) (members : Option (List InternetAddress))

/-- A name and address pair, `mailbox_t`. -/
structure mailbox_t where
  name : Option String
  addr : String
  deriving DecidableEq, Repr

/-- One observable action of a renderer: a call of a printer primitive, or a
raw write to standard output or to the error channel. -/
inductive Call where
  | begin_list
  | begin_map
  | end_
  | map_key (name : String)
  | string (v : Option String)
  | integer (v : Int)
  | null
  | separator
  | set_prefix (label : String)
  | stdout (text : String)
  | stderr (text : String)
  deriving DecidableEq, Repr

/-- What a renderer leaves behind: its calls, its return code and `*opt`. -/
structure search_result where
  calls : List Call
  ret : Int
  opt : search_options_t
  deriving DecidableEq, Repr

/-- The external collaborators of the renderers. -/
structure Collaborators where
  /-- The escaping of a term value; `none` when the buffer cannot grow. -/
  escape : String → Option String
  /-- Whether a talloc string allocation with this content succeeds. -/
  talloc_ok : String → Bool
  notmuch_time_relative_date : Int → String
  sanitize_string : String → String
  internet_address_list_parse_string : String → Option (List InternetAddress)
  /-- The display string of `internet_address_mailbox_new (name, addr)`. -/
  internet_address_to_string : Option String → String → String
  notmuch_query_count_threads : notmuch_query_t → Nat
  notmuch_query_search_threads : notmuch_query_t → Option (List notmuch_thread_t)
  notmuch_query_count_messages : notmuch_query_t → Nat
  notmuch_query_search_messages : notmuch_query_t → Option (List notmuch_message_t)
  notmuch_database_get_all_tags : Option (List String)
  notmuch_messages_collect_tags : List notmuch_message_t → Option (List String)
  /-- The exit status with which `notmuch_exit_if_unsupported_format` ends the
  process for this format version, if it does. -/
  notmuch_exit_if_unsupported_format : Int → Option Int
  /-- Whether `notmuch_database_open` reports an error. -/
  notmuch_database_open_fails : Bool
  /-- Whether `notmuch_query_create` returns a query for this string. -/
  notmuch_query_create_ok : String → Bool
  /-- The configured exclude tags, `notmuch_config_get_search_exclude_tags`. -/
  search_exclude_tags : List String

/-! ## Thread query reconstruction -/

/-- Modelled from the spec: `make_boolean_term` (string-util.c, not part of
this file) builds the boolean term made of the field name, a colon and the
escaped value; it fails when the escaping cannot be stored. -/
def make_boolean_term (w : Collaborators) (pfx : String) (term : String) : Option String :=
  match w.escape term with
  | none => none
  | some escaped => some (pfx ++ ":" ++ escaped)

/-- A talloc string allocation: the string, or NULL. -/
def talloc_string (w : Collaborators) (s : String) : Option String :=
  if w.talloc_ok s then some s else none

/-- The loop of `get_thread_query` over the messages of the thread; the two
accumulators are `*matched_out` and `*unmatched_out`.  `none` is the return
of -1. -/
def get_thread_query_loop (w : Collaborators) :
    List notmuch_message_t → Option String → Option String →
      Option (Option String × Option String)
  | [], matched_out, unmatched_out => some (matched_out, unmatched_out)
  | message :: rest, matched_out, unmatched_out =>
    let mid := message.message_id
    let buf := if message.flag_match then matched_out else unmatched_out
    match make_boolean_term w "id" mid with
    | none => none
    | some escaped =>
      let buf' :=
        match buf with
        | some b => talloc_string w (b ++ " " ++ escaped)
        | none => talloc_string w escaped
      match buf' with
      | none => none
      | some b =>
        if message.flag_match then get_thread_query_loop w rest (some b) unmatched_out
        else get_thread_query_loop w rest matched_out (some b)

/-- The two query strings identifying the matched and the unmatched messages
of a thread; `none` is the return of -1, a `none` component is a NULL buffer. -/
def get_thread_query (w : Collaborators) (thread : notmuch_thread_t) :
    Option (Option String × Option String) :=
  get_thread_query_loop w thread.messages none none

/-! ## Thread renderer -/

/-- The conversion `%12s` of printf: the string right-justified in a field of
twelve bytes. -/
def printf_12s (s : String) : String :=
  String.mk (List.replicate (12 - s.utf8ByteSize) ' ') ++ s

/-- The loop over the tags of a thread in summary mode (lines 198-214);
the flag is `first_tag`. -/
def do_search_threads_tags (format : sprinter_t) : List String → Bool → List Call
  | [], _ => []
  | tag :: rest, first_tag =>
    if format.is_text_printer then
      (if first_tag then [] else [Call.stdout " "]) ++ [Call.stdout tag]
        ++ do_search_threads_tags format rest false
    else
      Call.string (some tag) :: do_search_threads_tags format rest first_tag

/-- The fields of a summary record that precede the tags (lines 148-191).
The flag is true when the function returns 1 from there. -/
def do_search_threads_fields (w : Collaborators) (notmuch_format_version : Int)
    (opt : search_options_t) (thread : notmuch_thread_t) : List Call × Bool :=
  let authors := thread.authors
  let subject := thread.subject
  let thread_id := thread.thread_id
  let matched := thread.matched_messages
  let total := thread.total_messages
  let date :=
    if opt.sort = notmuch_sort_t.NOTMUCH_SORT_OLDEST_FIRST then thread.oldest_date
    else thread.newest_date
  let relative_date := w.notmuch_time_relative_date date
  if opt.format.is_text_printer then
    ([Call.stdout ("thread:" ++ thread_id ++ " " ++ printf_12s relative_date ++ " ["
        ++ toString matched ++ "/" ++ toString total ++ "] "
        ++ w.sanitize_string authors ++ "; " ++ w.sanitize_string subject ++ " (")], false)
  else
    let scalars : List Call :=
      [Call.map_key "thread", Call.string (some thread_id),
       Call.map_key "timestamp", Call.integer date,
       Call.map_key "date_relative", Call.string (some relative_date),
       Call.map_key "matched", Call.integer matched,
       Call.map_key "total", Call.integer total,
       Call.map_key "authors", Call.string (some authors),
       Call.map_key "subject", Call.string (some subject)]
    if notmuch_format_version ≥ 2 then
      match get_thread_query w thread with
      | none => (scalars ++ [Call.stderr "Out of memory\n"], true)
      | some (matched_query, unmatched_query) =>
        (scalars ++
          [Call.map_key "query", Call.begin_list,
           (match matched_query with
            | some q => Call.string (some q)
            | none => Call.null),
           (match unmatched_query with
            | some q => Call.string (some q)
            | none => Call.null),
           Call.end_], false)
    else (scalars, false)

/-- The body of the loop of `do_search_threads` for a thread that is not
skipped (lines 124-222).  The flag is true when the function returns 1 from
inside the body. -/
def do_search_threads_body (w : Collaborators) (notmuch_format_version : Int)
    (opt : search_options_t) (thread : notmuch_thread_t) : List Call × Bool :=
  if opt.output = OUTPUT_THREADS then
    ([ Call.set_prefix "thread", Call.string (some thread.thread_id), Call.separator], false)
  else
    match do_search_threads_fields w notmuch_format_version opt thread with
    | (calls, true) => (Call.begin_map :: calls, true)
    | (calls, false) =>
      (Call.begin_map :: calls
        ++ [Call.map_key "tags", Call.begin_list]
        ++ do_search_threads_tags opt.format thread.tags true
        ++ (if opt.format.is_text_printer then [Call.stdout ")"] else [])
        ++ [Call.end_, Call.end_, Call.separator], false)

/-- The loop of `do_search_threads` from index `i` on, followed by the closing
`end` call and the return (lines 113-229). -/
def do_search_threads_loop (w : Collaborators) (notmuch_format_version : Int)
    (opt : search_options_t) : List notmuch_thread_t → Int → List Call × Int
  | [], _ => ([Call.end_], 0)
  | thread :: rest, i =>
    if opt.limit < 0 ∨ i < wrap32 (opt.offset + opt.limit) then
      if i < opt.offset then
        do_search_threads_loop w notmuch_format_version opt rest (wrap32 (i + 1))
      else
        match do_search_threads_body w notmuch_format_version opt thread with
        | (calls, true) => (calls, 1)
        | (calls, false) =>
          let r := do_search_threads_loop w notmuch_format_version opt rest (wrap32 (i + 1))
          (calls ++ r.1, r.2)
    else ([Call.end_], 0)

/-- The renderer of thread summaries and thread ids. -/
def do_search_threads (w : Collaborators) (notmuch_format_version : Int)
    (opt : search_options_t) : search_result :=
  let opt :=
    if opt.offset < 0 then
      let opt1 := { opt with
        offset := wrap32 (opt.offset + (w.notmuch_query_count_threads opt.query : Int)) }
      if opt1.offset < 0 then { opt1 with offset := 0 } else opt1
    else opt
  match w.notmuch_query_search_threads opt.query with
  | none => { calls := [], ret := 1, opt := opt }
  | some threads =>
    let r := do_search_threads_loop w notmuch_format_version opt threads 0
    { calls := Call.begin_list :: r.1, ret := r.2, opt := opt }

/-! ## Address flattening -/

/-- The emission of one mailbox. -/
def print_mailbox (w : Collaborators) (opt : search_options_t) (mailbox : mailbox_t) :
    List Call :=
  let name := mailbox.name
  let addr := mailbox.addr
  let name_addr := w.internet_address_to_string name addr
  if opt.format.is_text_printer then
    [Call.string (some name_addr), Call.separator]
  else
    [Call.begin_map,
     Call.map_key "name", Call.string name,
     Call.map_key "address", Call.string (some addr),
     Call.map_key "name-addr", Call.string (some name_addr),
     Call.end_, Call.separator]

mutual
/-- The body of the loop of `process_address_list` for one entry. -/
def process_address_list_entry (w : Collaborators) (opt : search_options_t) :
    InternetAddress → List Call
  | InternetAddress.group _ none => []
  | InternetAddress.group _ (some group_list) => process_address_list w opt group_list
  | InternetAddress.mailbox name addr => print_mailbox w opt { name := name, addr := addr }
/-- Print the addresses of an address list. -/
def process_address_list (w : Collaborators) (opt : search_options_t) :
    List InternetAddress → List Call
  | [] => []
  | address :: rest =>
    process_address_list_entry w opt address ++ process_address_list w opt rest
end

/-- Print the addresses of a message header; the value may be NULL. -/
def process_address_header (w : Collaborators) (opt : search_options_t)
    (value : Option String) : List Call :=
  match value with
  | none => []
  | some v =>
    match w.internet_address_list_parse_string v with
    | none => []
    | some list => process_address_list w opt list

/-! ## Message renderer -/

/-- The counting loop of `_count_filenames`; `i` is the counter. -/
def _count_filenames_loop : List String → Int → Int
  | [], i => i
  | _ :: rest, i => _count_filenames_loop rest (wrap32 (i + 1))

/-- The number of file names of a message, as counted by the program. -/
def _count_filenames (message : notmuch_message_t) : Int :=
  _count_filenames_loop message.filenames 0

/-- The loop over the file names of a message in file-path mode
(lines 365-373); `j` is the one-based index. -/
def do_search_messages_files (opt : search_options_t) : List String → Int → List Call
  | [], _ => []
  | filename :: rest, j =>
    (if opt.dupe < 0 ∨ opt.dupe = j then
       [Call.string (some filename), Call.separator]
     else [])
      ++ do_search_messages_files opt rest (wrap32 (j + 1))

/-- The body of the loop of `do_search_messages` for a message that is not
skipped (lines 359-403). -/
def do_search_messages_body (w : Collaborators) (opt : search_options_t)
    (message : notmuch_message_t) : List Call :=
  if opt.output = OUTPUT_FILES then
    do_search_messages_files opt message.filenames 1
  else if opt.output = OUTPUT_MESSAGES then
    if opt.dupe ≤ 1 ∨ opt.dupe ≤ _count_filenames message then
      [ Call.set_prefix "id", Call.string (some message.message_id), Call.separator]
    else []
  else
    (if opt.output &&& OUTPUT_SENDER ≠ 0 then
       process_address_header w opt (message.header "from")
     else [])
      ++
    (if opt.output &&& OUTPUT_RECIPIENTS ≠ 0 then
       ["to", "cc", "bcc"].flatMap (fun hdr => process_address_header w opt (message.header hdr))
     else [])

/-- The loop of `do_search_messages` from index `i` on (lines 352-406). -/
def do_search_messages_loop (w : Collaborators) (opt : search_options_t) :
    List notmuch_message_t → Int → List Call
  | [], _ => []
  | message :: rest, i =>
    if opt.limit < 0 ∨ i < wrap32 (opt.offset + opt.limit) then
      (if i < opt.offset then [] else do_search_messages_body w opt message)
        ++ do_search_messages_loop w opt rest (wrap32 (i + 1))
    else []

/-- The renderer of message ids, file paths and addresses. -/
def do_search_messages (w : Collaborators) (opt : search_options_t) : search_result :=
  let opt :=
    if opt.offset < 0 then
      let opt1 := { opt with
        offset := wrap32 (opt.offset + (w.notmuch_query_count_messages opt.query : Int)) }
      if opt1.offset < 0 then { opt1 with offset := 0 } else opt1
    else opt
  match w.notmuch_query_search_messages opt.query with
  | none => { calls := [], ret := 1, opt := opt }
  | some messages =>
    { calls := Call.begin_list :: do_search_messages_loop w opt messages 0 ++ [Call.end_],
      ret := 0, opt := opt }

/-! ## Tag collector -/

/-- The loop over the tags in `do_search_tags` (lines 443-452). -/
def do_search_tags_loop : List String → List Call
  | [] => []
  | tag :: rest => Call.string (some tag) :: Call.separator :: do_search_tags_loop rest

/-- The renderer of the tags of the matched messages. -/
def do_search_tags (w : Collaborators) (opt : search_options_t) : List Call × Int :=
  let tags : Option (Option (List String)) :=
    if opt.query.query_string = "*" then
      some w.notmuch_database_get_all_tags
    else
      match w.notmuch_query_search_messages opt.query with
      | none => none
      | some messages => some (w.notmuch_messages_collect_tags messages)
  match tags with
  | none => ([], 1)
  | some none => ([], 1)
  | some (some tags) => (Call.begin_list :: do_search_tags_loop tags ++ [Call.end_], 0)


/-! ## The search command -/

def EXIT_SUCCESS : Int := 0
def EXIT_FAILURE : Int := 1

/-- The output encodings selectable on the command line. -/
inductive format_sel_t where
  | NOTMUCH_FORMAT_JSON
  | NOTMUCH_FORMAT_TEXT
  | NOTMUCH_FORMAT_TEXT0
  | NOTMUCH_FORMAT_SEXP
  deriving DecidableEq, Repr

/-- What the argument parsing leaves behind: the value returned by
`parse_arguments`, the option values it stored, and the string assembled from
the remaining arguments by `query_string_from_args` (NULL when that fails). -/
structure search_arguments where
  opt_index : Int
  sort : notmuch_sort_t
  format_sel : format_sel_t
  notmuch_format_version : Int
  output : Nat
  exclude : notmuch_exclude_t
  offset : Int
  limit : Int
  dupe : Int
  query_str : Option String
  deriving DecidableEq, Repr

/-- What one run of the command does: the operations on the mail index that
the command performs itself, in order (the counts and searches are performed
by the renderers), the printer calls and raw writes, and the exit status. -/
structure command_result where
  engine : List String
  calls : List Call
  status : Int
  deriving DecidableEq, Repr

/-- Modelled from the spec: the printer constructors (sprinter-text.c,
sprinter-json.c, sprinter-sexp.c, not part of this file); the plain and the
null-delimited text encodings belong to the text family, the two tree
encodings to the structured family. -/
def sprinter_create (format_sel : format_sel_t) : sprinter_t :=
  match format_sel with
  | format_sel_t.NOTMUCH_FORMAT_TEXT => { is_text_printer := true }
  | format_sel_t.NOTMUCH_FORMAT_TEXT0 => { is_text_printer := true }
  | format_sel_t.NOTMUCH_FORMAT_JSON => { is_text_printer := false }
  | format_sel_t.NOTMUCH_FORMAT_SEXP => { is_text_printer := false }

/-- The last part of `notmuch_search_command` (lines 577-617): the settings of
the query, the choice of the renderer and the release of the handles. -/
def notmuch_search_command_dispatch (w : Collaborators) (args : search_arguments)
    (output : Nat) (format : sprinter_t) (query_str : String) : command_result :=
  let warn : Bool :=
    args.exclude = notmuch_exclude_t.NOTMUCH_EXCLUDE_FLAG ∧ output ≠ OUTPUT_SUMMARY
  let exclude := if warn then notmuch_exclude_t.NOTMUCH_EXCLUDE_FALSE else args.exclude
  let excluding : Bool := exclude ≠ notmuch_exclude_t.NOTMUCH_EXCLUDE_FALSE
  let query : notmuch_query_t :=
    { query_string := query_str, sort := args.sort,
      exclude_tags := if excluding then w.search_exclude_tags else [],
      omit_excluded := if excluding then some exclude else none }
  let opt : search_options_t :=
    { format := format, query := query, sort := args.sort, output := output,
      offset := args.offset, limit := args.limit, dupe := args.dupe }
  let before : List String :=
    ["notmuch_database_open", "notmuch_query_create", "notmuch_query_set_sort"]
      ++ (if excluding then
            w.search_exclude_tags.map (fun _ => "notmuch_query_add_tag_exclude")
              ++ ["notmuch_query_set_omit_excluded"]
          else [])
  let warning : List Call :=
    if warn then [Call.stderr "Warning: this output format cannot flag excluded messages.\n"]
    else []
  let rendered : List Call × Int :=
    if output = OUTPUT_SUMMARY ∨ output = OUTPUT_THREADS then
      let r := do_search_threads w args.notmuch_format_version opt
      (r.calls, r.ret)
    else if output = OUTPUT_MESSAGES ∨ output = OUTPUT_FILES ∨
        (output &&& OUTPUT_ADDRESS_FLAGS ≠ 0 ∧
          ¬ (output &&& (4294967295 - OUTPUT_ADDRESS_FLAGS) ≠ 0)) then
      let r := do_search_messages w opt
      (r.calls, r.ret)
    else if output = OUTPUT_TAGS then
      do_search_tags w opt
    else
      ([Call.stderr "Error: the combination of outputs is not supported.\n"], 1)
  { engine := before ++ ["notmuch_query_destroy", "notmuch_database_destroy"],
    calls := warning ++ rendered.1,
    status := if rendered.2 ≠ 0 then EXIT_FAILURE else EXIT_SUCCESS }

/-- The search command, from the values left by the argument parsing on. -/
def notmuch_search_command (w : Collaborators) (args : search_arguments) : command_result :=
  if args.opt_index < 0 then
    { engine := [], calls := [], status := EXIT_FAILURE }
  else
    let output := if args.output = 0 then OUTPUT_SUMMARY else args.output
    if output ≠ OUTPUT_FILES ∧ output ≠ OUTPUT_MESSAGES ∧ args.dupe ≠ -1 then
      { engine := [],
        calls := [Call.stderr
          "Error: --duplicate=N is only supported with --output=files and --output=messages.\n"],
        status := EXIT_FAILURE }
    else if args.format_sel = format_sel_t.NOTMUCH_FORMAT_TEXT0 ∧ output = OUTPUT_SUMMARY then
      { engine := [],
        calls := [Call.stderr
          "Error: --format=text0 is not compatible with --output=summary.\n"],
        status := EXIT_FAILURE }
    else
      let format := sprinter_create args.format_sel
      match w.notmuch_exit_if_unsupported_format args.notmuch_format_version with
      | some status => { engine := [], calls := [], status := status }
      | none =>
        if w.notmuch_database_open_fails then
          { engine := ["notmuch_database_open"], calls := [], status := EXIT_FAILURE }
        else
          match args.query_str with
          | none =>
            { engine := ["notmuch_database_open"],
              calls := [Call.stderr "Out of memory.\n"], status := EXIT_FAILURE }
          | some query_str =>
            if query_str = "" then
              { engine := ["notmuch_database_open"],
                calls := [Call.stderr
                  "Error: notmuch search requires at least one search term.\n"],
                status := EXIT_FAILURE }
            else if w.notmuch_query_create_ok query_str = false then
              { engine := ["notmuch_database_open", "notmuch_query_create"],
                calls := [Call.stderr "Out of memory\n"], status := EXIT_FAILURE }
            else
              notmuch_search_command_dispatch w args output format query_str
/-! ## Specification-side vocabulary -/

/-- The slice of a sequence selected by a resolved offset and a limit; a
negative limit is unlimited. -/
def window {α : Type} (l : List α) (offset limit : Int) : List α :=
  if limit < 0 then l.drop offset.toNat else (l.drop offset.toNat).take limit.toNat

/-- The arithmetic of a windowed loop over `n` items stays inside `int`:
the index of an unlimited loop and the upper end of a limited window. -/
def no_overflow (offset limit : Int) (n : Nat) : Prop :=
  (limit < 0 → (n : Int) ≤ INT_MAX) ∧ (0 ≤ limit → offset + limit ≤ INT_MAX)

/-- The slice seen from index `k`: what a windowed loop standing at index `k`
still has to render of the remaining items. -/
def window_from {α : Type} (l : List α) (offset limit : Int) (k : Nat) : List α :=
  if limit < 0 then l.drop (offset.toNat - k)
  else (l.take ((offset + limit).toNat - k)).drop (offset.toNat - k)


instance (offset limit : Int) (n : Nat) : Decidable (no_overflow offset limit n) := by
  unfold no_overflow; exact inferInstance

/-- The terms of a list joined by single spaces; NULL when there is no term. -/
def joined_terms (terms : List String) : Option String :=
  match terms with
  | [] => none
  | _ :: _ => some (" ".intercalate terms)

/-- A query buffer after further terms have been appended to it, each after a
single space. -/
def extend_joined (buf : Option String) (terms : List String) : Option String :=
  match buf, terms with
  | none, [] => none
  | none, a :: rest => some (String.intercalate.go a " " rest)
  | some b, rest => some (String.intercalate.go b " " rest)

/-- The id terms of the messages of a list whose match flag has the given
value, in order, for an escaping function `esc`. -/
def id_terms (esc : String → String) (flag : Bool) (messages : List notmuch_message_t) :
    List String :=
  (messages.filter (fun m => m.flag_match == flag)).map (fun m => "id:" ++ esc m.message_id)

/-- The file names selected by a duplicate selector among the file names of a
message, numbered from one: all of them when the selector is negative, else
the one whose number is the selector. -/
def selected_paths (dupe : Int) (filenames : List String) : List String :=
  ((List.enumFrom 1 filenames).filter
    (fun p => decide (dupe < 0 ∨ dupe = (p.1 : Int)))).map Prod.snd

/-- The printer calls of a sequence of bare string records: each value,
followed by one separator call. -/
def string_records (values : List String) : List Call :=
  values.flatMap (fun v => [Call.string (some v), Call.separator])

/-- The printer calls of a sequence of message id records. -/
def id_records (ids : List String) : List Call :=
  ids.flatMap (fun v => [ Call.set_prefix "id", Call.string (some v), Call.separator])

mutual
/-- The mailbox leaves below one entry of an address list, depth first and
from left to right. -/
def mailboxes_of_entry : InternetAddress → List mailbox_t
  | InternetAddress.mailbox name addr => [{ name := name, addr := addr }]
  | InternetAddress.group _ none => []
  | InternetAddress.group _ (some members) => mailboxes_of_list members
/-- The mailbox leaves of an address list, depth first and from left to
right. -/
def mailboxes_of_list : List InternetAddress → List mailbox_t
  | [] => []
  | address :: rest => mailboxes_of_entry address ++ mailboxes_of_list rest
end

/-- The mailbox leaves of one header of a message: those of its parsed value,
none when the header is missing or its value cannot be parsed. -/
def header_mailboxes (w : Collaborators) (message : notmuch_message_t) (hdr : String) :
    List mailbox_t :=
  match message.header hdr with
  | none => []
  | some v =>
    match w.internet_address_list_parse_string v with
    | none => []
    | some list => mailboxes_of_list list

/-- The mailbox leaves of a message for a choice of the sender and recipients
flags: those of `from`, then those of `to`, `cc` and `bcc`. -/
def address_mailboxes (w : Collaborators) (sender recipients : Bool)
    (message : notmuch_message_t) : List mailbox_t :=
  (if sender then header_mailboxes w message "from" else [])
    ++ (if recipients then
          header_mailboxes w message "to" ++ header_mailboxes w message "cc"
            ++ header_mailboxes w message "bcc"
        else [])

/-- The output selection made of the sender and recipients flags. -/
def address_output (sender recipients : Bool) : Nat :=
  (if sender then OUTPUT_SENDER else 0) ||| (if recipients then OUTPUT_RECIPIENTS else 0)

/-- Whether an observable action is a call of a printer primitive (and not a
raw write to standard output or to the error channel). -/
def is_printer_call : Call → Bool
  | Call.stdout _ => false
  | Call.stderr _ => false
  | _ => true

/-- The output mode of a run: the selection made on the command line, an
empty selection being defaulted to summary. -/
def effective_output (args : search_arguments) : Nat :=
  if args.output = 0 then OUTPUT_SUMMARY else args.output

/-- The run gets as far as the choice of the renderer once its configuration
is accepted: the arguments were parsed, the format version is supported, the
database opens, and the query string is there, not empty, and gives a
query. -/
def engine_ready (w : Collaborators) (args : search_arguments) (query_str : String) : Prop :=
  0 ≤ args.opt_index
    ∧ w.notmuch_exit_if_unsupported_format args.notmuch_format_version = none
    ∧ w.notmuch_database_open_fails = false
    ∧ args.query_str = some query_str
    ∧ query_str ≠ ""
    ∧ w.notmuch_query_create_ok query_str = true

/-- Whether the exclude policy `flag` is replaced by `false` with a warning:
it is when the output mode is not summary. -/
def command_warns (args : search_arguments) : Bool :=
  args.exclude = notmuch_exclude_t.NOTMUCH_EXCLUDE_FLAG ∧ effective_output args ≠ OUTPUT_SUMMARY

/-- The exclude policy in force after the replacement. -/
def command_exclude (args : search_arguments) : notmuch_exclude_t :=
  if command_warns args then notmuch_exclude_t.NOTMUCH_EXCLUDE_FALSE else args.exclude

/-- Whether the command hands the configured exclude tags to the query. -/
def command_excluding (args : search_arguments) : Bool :=
  command_exclude args ≠ notmuch_exclude_t.NOTMUCH_EXCLUDE_FALSE

/-- The options that the command hands to the renderer it chooses. -/
def command_options (w : Collaborators) (args : search_arguments) (query_str : String) :
    search_options_t :=
  { format := sprinter_create args.format_sel,
    query :=
      { query_string := query_str, sort := args.sort,
        exclude_tags := if command_excluding args then w.search_exclude_tags else [],
        omit_excluded := if command_excluding args then some (command_exclude args) else none },
    sort := args.sort, output := effective_output args,
    offset := args.offset, limit := args.limit, dupe := args.dupe }

/-- The warning written when the exclude policy `flag` is replaced. -/
def command_warning (args : search_arguments) : List Call :=
  if command_warns args then
    [Call.stderr "Warning: this output format cannot flag excluded messages.\n"]
  else []

/-- The operations on the mail index that the command performs itself when it
gets as far as the choice of the renderer. -/
def command_engine (w : Collaborators) (args : search_arguments) : List String :=
  ["notmuch_database_open", "notmuch_query_create", "notmuch_query_set_sort"]
    ++ (if command_excluding args then
          w.search_exclude_tags.map (fun _ => "notmuch_query_add_tag_exclude")
            ++ ["notmuch_query_set_omit_excluded"]
        else [])
    ++ ["notmuch_query_destroy", "notmuch_database_destroy"]

/-- The exit status made of the return code of a renderer. -/
def exit_status (ret : Int) : Int :=
  if ret ≠ 0 then EXIT_FAILURE else EXIT_SUCCESS

/-- An output selection that the command hands to the thread renderer. -/
def thread_output (output : Nat) : Prop :=
  output = OUTPUT_SUMMARY ∨ output = OUTPUT_THREADS

/-- An output selection that the command hands to the message renderer: a
single one of messages and files, or a non-empty subset of sender and
recipients. -/
def message_output (output : Nat) : Prop :=
  output = OUTPUT_MESSAGES ∨ output = OUTPUT_FILES ∨ output = OUTPUT_SENDER
    ∨ output = OUTPUT_RECIPIENTS ∨ output = OUTPUT_SENDER ||| OUTPUT_RECIPIENTS

/-- The result of a run that is rejected before the database is opened, with
the given message on the error channel. -/
def rejected (message : String) : command_result :=
  { engine := [], calls := [Call.stderr message], status := EXIT_FAILURE }

/-- The date of a thread shown in its summary: the oldest date when the sort
order is oldest first, else the newest. -/
def thread_date (opt : search_options_t) (thread : notmuch_thread_t) : Int :=
  if opt.sort = notmuch_sort_t.NOTMUCH_SORT_OLDEST_FIRST then thread.oldest_date
  else thread.newest_date

/-- An element of the query list of a summary record: the string, or null. -/
def query_element (q : Option String) : Call :=
  match q with
  | some s => Call.string (some s)
  | none => Call.null

/-- The calls of the summary record of a thread with a structured printer:
the keys thread, timestamp, date_relative, matched, total, authors and
subject with their values, then, from format version 2 on, the key query with
the list of the matched and the unmatched query, then the key tags with the
list of the tags, all inside one map and followed by a separator. -/
def structured_record (w : Collaborators) (ver : Int) (opt : search_options_t)
    (thread : notmuch_thread_t) (queries : Option String × Option String) : List Call :=
  [Call.begin_map,
   Call.map_key "thread", Call.string (some thread.thread_id),
   Call.map_key "timestamp", Call.integer (thread_date opt thread),
   Call.map_key "date_relative",
   Call.string (some (w.notmuch_time_relative_date (thread_date opt thread))),
   Call.map_key "matched", Call.integer thread.matched_messages,
   Call.map_key "total", Call.integer thread.total_messages,
   Call.map_key "authors", Call.string (some thread.authors),
   Call.map_key "subject", Call.string (some thread.subject)]
    ++ (if 2 ≤ ver then
          [Call.map_key "query", Call.begin_list,
           query_element queries.1, query_element queries.2, Call.end_]
        else [])
    ++ [Call.map_key "tags", Call.begin_list]
    ++ thread.tags.map (fun tag => Call.string (some tag))
    ++ [Call.end_, Call.end_, Call.separator]

/-- The text of the summary line of a thread up to the opening parenthesis,
as written by the renderer. -/
def summary_line_head (w : Collaborators) (opt : search_options_t)
    (thread : notmuch_thread_t) : String :=
  "thread:" ++ thread.thread_id ++ " "
    ++ printf_12s (w.notmuch_time_relative_date (thread_date opt thread)) ++ " ["
    ++ toString thread.matched_messages ++ "/" ++ toString thread.total_messages ++ "] "
    ++ w.sanitize_string thread.authors ++ "; " ++ w.sanitize_string thread.subject ++ " ("

/-- The raw writes of the tags of a summary line: the tags, each but the
first (when `first` is set) after a space. -/
def text_tags : List String → Bool → List Call
  | [], _ => []
  | tag :: rest, first =>
    (if first then [] else [Call.stdout " "]) ++ [Call.stdout tag] ++ text_tags rest false

/-- The calls of the summary record of a thread with a text printer: the map
structure around the raw writes of the line. -/
def text_record (w : Collaborators) (opt : search_options_t) (thread : notmuch_thread_t) :
    List Call :=
  [Call.begin_map, Call.stdout (summary_line_head w opt thread),
   Call.map_key "tags", Call.begin_list]
    ++ text_tags thread.tags true
    ++ [Call.stdout ")", Call.end_, Call.end_, Call.separator]

/-- Modelled from the spec: the text printer (sprinter-text.c, not part of
this file) as the text it writes for a sequence of calls: `string` writes the
bare value, after the label and a colon when `set_prefix` came before it;
`separator` writes the record terminator; the calls that describe structure
(`begin_list`, `begin_map`, `end`, `map_key`, `null`) write nothing.  Raw
writes to standard output appear as they are, writes to the error channel do
not appear.  The second argument is the label set for the next string. -/
def text_printer_output (terminator : String) : List Call → Option String → String
  | [], _ => ""
  | Call.begin_list :: rest, label => text_printer_output terminator rest label
  | Call.begin_map :: rest, label => text_printer_output terminator rest label
  | Call.end_ :: rest, label => text_printer_output terminator rest label
  | Call.map_key _ :: rest, label => text_printer_output terminator rest label
  | Call.null :: rest, label => text_printer_output terminator rest label
  | Call.integer v :: rest, label => toString v ++ text_printer_output terminator rest label
  | Call.set_prefix l :: rest, _ => text_printer_output terminator rest (some l)
  | Call.string v :: rest, label =>
    (match label with
     | some l => l ++ ":"
     | none => "")
      ++ v.getD "" ++ text_printer_output terminator rest none
  | Call.separator :: rest, label => terminator ++ text_printer_output terminator rest label
  | Call.stdout text :: rest, label => text ++ text_printer_output terminator rest label
  | Call.stderr _ :: rest, label => text_printer_output terminator rest label

/-- The text of the tags of a summary line: the tags, each but the first
(when `first` is set) after a space. -/
def tags_text : List String → Bool → String
  | [], _ => ""
  | tag :: rest, first => (if first then "" else " ") ++ tag ++ tags_text rest false

/-- The summary line of a thread as the renderer writes it: the relative date
is right-justified in a field of twelve bytes. -/
def summary_line (w : Collaborators) (opt : search_options_t) (thread : notmuch_thread_t) :
    String :=
  summary_line_head w opt thread ++ " ".intercalate thread.tags ++ ")"

/-- The summary line of a thread in the words of the specification: the
relative date stands as it is between two single spaces. -/
def specified_summary_line (w : Collaborators) (opt : search_options_t)
    (thread : notmuch_thread_t) : String :=
  "thread:" ++ thread.thread_id ++ " "
    ++ w.notmuch_time_relative_date (thread_date opt thread) ++ " ["
    ++ toString thread.matched_messages ++ "/" ++ toString thread.total_messages ++ "] "
    ++ w.sanitize_string thread.authors ++ "; " ++ w.sanitize_string thread.subject ++ " ("
    ++ " ".intercalate thread.tags ++ ")"

/-- The concatenation of a sequence of texts. -/
def concat_texts : List String → String
  | [] => ""
  | text :: rest => text ++ concat_texts rest

/-- The tag sequence that the engine yields to the tag collector: the tags of
the database for the query string `*`, else the tags collected over the
messages found by the search; none when the engine yields no sequence. -/
def tag_sequence (w : Collaborators) (opt : search_options_t) : Option (List String) :=
  if opt.query.query_string = "*" then w.notmuch_database_get_all_tags
  else
    match w.notmuch_query_search_messages opt.query with
    | none => none
    | some messages => w.notmuch_messages_collect_tags messages

/-- The number of calls of a sequence that open a list or a map. -/
def opens (calls : List Call) : Nat :=
  List.count Call.begin_list calls + List.count Call.begin_map calls

/-- The number of calls of a sequence that close a list or a map. -/
def closes (calls : List Call) : Nat :=
  List.count Call.end_ calls

/-- The stack discipline of a sequence of printer calls: the first call opens
the outer list and the last call closes; no prefix closes more than it opens,
and the whole sequence closes as much as it opens; every prefix that is
neither empty nor the whole sequence leaves something open, so that the last
call closes what the first call opened; and at every separator call only the
outer list is open. -/
def stack_discipline (calls : List Call) : Prop :=
  calls.head? = some Call.begin_list
    ∧ calls.getLast? = some Call.end_
    ∧ (∀ n : Nat, closes (calls.take n) ≤ opens (calls.take n))
    ∧ closes calls = opens calls
    ∧ (∀ n : Nat, 0 < n → n < calls.length → closes (calls.take n) < opens (calls.take n))
    ∧ (∀ n : Nat, calls[n]? = some Call.separator →
        opens (calls.take n) = closes (calls.take n) + 1)

/-- The nesting depth reached by a sequence of calls started at a depth, as
long as no call closes at depth zero and every separator call stands at depth
zero; none otherwise. -/
def nesting_run : List Call → Nat → Option Nat
  | [], d => some d
  | Call.begin_list :: rest, d => nesting_run rest (d + 1)
  | Call.begin_map :: rest, d => nesting_run rest (d + 1)
  | Call.end_ :: rest, d =>
    match d with
    | 0 => none
    | d + 1 => nesting_run rest d
  | Call.separator :: rest, d => if d = 0 then nesting_run rest 0 else none
  | Call.map_key _ :: rest, d => nesting_run rest d
  | Call.string _ :: rest, d => nesting_run rest d
  | Call.integer _ :: rest, d => nesting_run rest d
  | Call.null :: rest, d => nesting_run rest d
  | Call.set_prefix _ :: rest, d => nesting_run rest d
  | Call.stdout _ :: rest, d => nesting_run rest d
  | Call.stderr _ :: rest, d => nesting_run rest d

/-! ## Concrete inputs -/

/-- A message with the given id, match flag and file names, without headers. -/
def sample_message (id : String) (flag : Bool) (files : List String) : notmuch_message_t :=
  { message_id := id, flag_match := flag, filenames := files, header := fun _ => none }

/-- A thread with the given id, tags and messages, two of three messages
matched. -/
def sample_thread (id : String) (tags : List String) (messages : List notmuch_message_t) :
    notmuch_thread_t :=
  { thread_id := id, authors := "Ann, Bob", subject := "Hello",
    oldest_date := 1000, newest_date := 2000,
    matched_messages := 2, total_messages := 3,
    tags := tags, messages := messages }

/-- A world whose engine yields the given threads and messages for every
query, counts them truthfully, and whose helpers are the identity. -/
def sample_world (threads : List notmuch_thread_t) (messages : List notmuch_message_t)
    (parse : String → Option (List InternetAddress)) : Collaborators :=
  { escape := fun s => some s
    talloc_ok := fun _ => true
    notmuch_time_relative_date := fun _ => "today"
    sanitize_string := fun s => s
    internet_address_list_parse_string := parse
    internet_address_to_string := fun name addr =>
      match name with
      | some n => n ++ " <" ++ addr ++ ">"
      | none => addr
    notmuch_query_count_threads := fun _ => threads.length
    notmuch_query_search_threads := fun _ => some threads
    notmuch_query_count_messages := fun _ => messages.length
    notmuch_query_search_messages := fun _ => some messages
    notmuch_database_get_all_tags := some []
    notmuch_messages_collect_tags := fun _ => some []
    notmuch_exit_if_unsupported_format := fun _ => none
    notmuch_database_open_fails := false
    notmuch_query_create_ok := fun _ => true
    search_exclude_tags := [] }

def sample_query : notmuch_query_t :=
  { query_string := "tag:inbox", sort := notmuch_sort_t.NOTMUCH_SORT_NEWEST_FIRST,
    exclude_tags := [], omit_excluded := none }

/-- Options with the defaults of the command and the given output, offset,
limit and duplicate selector; the printer is of the given family. -/
def sample_options (text : Bool) (output : Nat) (offset limit dupe : Int) : search_options_t :=
  { format := { is_text_printer := text }, query := sample_query,
    sort := notmuch_sort_t.NOTMUCH_SORT_NEWEST_FIRST,
    output := output, offset := offset, limit := limit, dupe := dupe }

def sample_messages : List notmuch_message_t :=
  [sample_message "m1" true ["/a/1", "/b/1"],
   sample_message "m2" false ["/a/2"],
   sample_message "m3" true ["/a/3", "/b/3", "/c/3"]]

def sample_threads : List notmuch_thread_t :=
  [sample_thread "t1" ["inbox", "work"] sample_messages,
   sample_thread "t2" [] [],
   sample_thread "t3" ["inbox"] [sample_message "m4" true ["/a/4"]]]

/-- The values left by the argument parsing of a command line that selects
text output and the given output mode, offset, limit and duplicate selector
for the query `tag:inbox`. -/
def sample_arguments (output : Nat) (offset limit dupe : Int) : search_arguments :=
  { opt_index := 1, sort := notmuch_sort_t.NOTMUCH_SORT_NEWEST_FIRST,
    format_sel := format_sel_t.NOTMUCH_FORMAT_TEXT, notmuch_format_version := 2,
    output := output, exclude := notmuch_exclude_t.NOTMUCH_EXCLUDE_TRUE,
    offset := offset, limit := limit, dupe := dupe, query_str := some "tag:inbox" }

/-- An address list made of an empty group and of a group of two mailboxes. -/
def sample_address_list : List InternetAddress :=
  [InternetAddress.group (some "nobody") (some []),
   InternetAddress.group (some "team")
     (some [InternetAddress.mailbox (some "Ann") "ann@example.org",
            InternetAddress.mailbox none "bob@example.org"])]

/-- A message with the given id whose headers are given by a table. -/
def sample_message_with_headers (id : String) (headers : List (String × String)) :
    notmuch_message_t :=
  { message_id := id, flag_match := true, filenames := [],
    header := fun name => (headers.find? (fun p => p.1 == name)).map Prod.snd }

/-- An address parser that knows three header values. -/
def sample_parse (value : String) : Option (List InternetAddress) :=
  if value = "team" then some sample_address_list
  else if value = "ann" then some [InternetAddress.mailbox (some "Ann") "ann@example.org"]
  else if value = "bob" then some [InternetAddress.mailbox none "bob@example.org"]
  else none

/-- The sample world with the given answers of the engine about tags. -/
def sample_tag_world (messages : List notmuch_message_t) (all_tags : Option (List String))
    (collected : Option (List String)) : Collaborators :=
  { sample_world [] messages (fun _ => none) with
    notmuch_database_get_all_tags := all_tags
    notmuch_messages_collect_tags := fun _ => collected }

/-! ## A mail index in the words of the specification -/

/-- Modelled from the spec: the mail index (lib/, not part of this file) as
far as the tag collector consults it: the messages it holds, the tags each of
them carries, and which messages a query string matches. -/
structure mail_index where
  messages : List notmuch_message_t
  tags_of : notmuch_message_t → List String
  query_matches : String → notmuch_message_t → Bool

/-- Modelled from the spec: whether the engine drops a message from the
results of a query: it does when the exclude policy of the query is to omit
(`true` or `all`) and the message carries one of the excluded tags of the
query. -/
def mail_index.omits (index : mail_index) (query : notmuch_query_t)
    (message : notmuch_message_t) : Bool :=
  (query.omit_excluded = some notmuch_exclude_t.NOTMUCH_EXCLUDE_TRUE
      ∨ query.omit_excluded = some notmuch_exclude_t.NOTMUCH_EXCLUDE_ALL)
    ∧ ∃ tag ∈ index.tags_of message, tag ∈ query.exclude_tags

/-- Modelled from the spec: the message search of the engine, the messages
that the query string matches and that the exclude policy does not drop, in
index order. -/
def mail_index.search_messages (index : mail_index) (query : notmuch_query_t) :
    List notmuch_message_t :=
  index.messages.filter (fun m => index.query_matches query.query_string m && !index.omits query m)

/-- Modelled from the spec: the union of the tags of a sequence of messages,
each tag once. -/
def mail_index.collect_tags (index : mail_index) (messages : List notmuch_message_t) :
    List String :=
  (messages.flatMap index.tags_of).dedup

/-- Modelled from the spec: the global tag vocabulary of the index, the tags
carried by its messages, each once. -/
def mail_index.all_tags (index : mail_index) : List String :=
  index.collect_tags index.messages

/-- The collaborators of a run over a mail index with the given configured
exclude tags. -/
def index_world (index : mail_index) (exclude_tags : List String) : Collaborators :=
  { sample_world [] [] (fun _ => none) with
    notmuch_query_count_messages := fun q => (index.search_messages q).length
    notmuch_query_search_messages := fun q => some (index.search_messages q)
    notmuch_database_get_all_tags := some index.all_tags
    notmuch_messages_collect_tags := fun messages => some (index.collect_tags messages)
    search_exclude_tags := exclude_tags }

/-- An index of two messages, the first tagged inbox and the second tagged
spam, in which the query string `*` and the query string `path:**` match
every message. -/
def sample_index : mail_index :=
  { messages := [sample_message "m1" true ["/a/1"], sample_message "m2" true ["/a/2"]],
    tags_of := fun m => if m.message_id = "m1" then ["inbox"] else ["spam"],
    query_matches := fun _ _ => true }

/-- The values left by the argument parsing of a tag listing for the given
query string, with the default exclude policy. -/
def sample_tag_arguments (query_str : String) : search_arguments :=
  { sample_arguments OUTPUT_TAGS 0 (-1) (-1) with query_str := some query_str }
/-! ## Arithmetic and loop lemmas -/

theorem wrap32_of_isInt32 {x : Int} (h : isInt32 x) : wrap32 x = x := by
  unfold isInt32 INT_MIN INT_MAX at h
  unfold wrap32
  omega

theorem window_from_zero {α : Type} (l : List α) (offset limit : Int)
    (ho : 0 ≤ offset) : window_from l offset limit 0 = window l offset limit := by
  unfold window_from window
  by_cases hl : limit < 0
  · simp [hl]
  · simp only [hl, if_false, Nat.sub_zero]
    rw [List.drop_take]
    congr 1
    omega

theorem do_search_messages_loop_eq (w : Collaborators) (opt : search_options_t)
    (ho : 0 ≤ opt.offset) (hlim : 0 ≤ opt.limit → opt.offset + opt.limit ≤ INT_MAX) :
    ∀ (l : List notmuch_message_t) (k : Nat),
      (opt.limit < 0 → ((k + l.length : Nat) : Int) ≤ INT_MAX) →
      do_search_messages_loop w opt l (k : Int)
        = (window_from l opt.offset opt.limit k).flatMap (do_search_messages_body w opt) := by
  intro l
  induction l with
  | nil => intro k _; simp [do_search_messages_loop, window_from]
  | cons m ms ih =>
    intro k hk
    unfold do_search_messages_loop
    by_cases hl : opt.limit < 0
    · have hk1 : ((k : Int) + 1) ≤ INT_MAX := by
        have := hk hl
        simp only [List.length_cons] at this
        omega
      have hw : wrap32 ((k : Int) + 1) = ((k + 1 : Nat) : Int) := by
        rw [wrap32_of_isInt32]
        · push_cast; rfl
        · unfold isInt32 INT_MIN; unfold INT_MAX at *; omega
      have ih1 := ih (k + 1) (by
        intro h; have := hk h; simp only [List.length_cons] at this
        have e : k + 1 + ms.length = k + (ms.length + 1) := by omega
        rw [e]; exact this)
      rw [hw, ih1]
      simp only [hl, true_or, if_true, window_from]
      by_cases hlt : (k : Int) < opt.offset
      · have e : opt.offset.toNat - k = (opt.offset.toNat - (k + 1)) + 1 := by omega
        rw [if_pos hlt, e, List.drop_succ_cons]
        simp
      · have e : opt.offset.toNat - k = 0 := by omega
        have e1 : opt.offset.toNat - (k + 1) = 0 := by omega
        rw [if_neg hlt, e, e1]
        simp
    · have hl0 : 0 ≤ opt.limit := by omega
      have hsum := hlim hl0
      have hws : wrap32 (opt.offset + opt.limit) = opt.offset + opt.limit := by
        apply wrap32_of_isInt32
        unfold isInt32 INT_MIN; unfold INT_MAX at *; omega
      rw [hws]
      by_cases hc : (k : Int) < opt.offset + opt.limit
      · have hw : wrap32 ((k : Int) + 1) = ((k + 1 : Nat) : Int) := by
          rw [wrap32_of_isInt32]
          · push_cast; rfl
          · unfold isInt32 INT_MIN; unfold INT_MAX at *; omega
        have ih1 := ih (k + 1) (by intro h; omega)
        rw [hw, ih1]
        simp only [hl, hc, false_or, if_true, if_false, window_from]
        have et : (opt.offset + opt.limit).toNat - k
            = ((opt.offset + opt.limit).toNat - (k + 1)) + 1 := by omega
        rw [et, List.take_succ_cons]
        by_cases hlt : (k : Int) < opt.offset
        · have e : opt.offset.toNat - k = (opt.offset.toNat - (k + 1)) + 1 := by omega
          rw [if_pos hlt, e, List.drop_succ_cons]
          simp
        · have e : opt.offset.toNat - k = 0 := by omega
          have e1 : opt.offset.toNat - (k + 1) = 0 := by omega
          rw [if_neg hlt, e, e1]
          simp
      · have et : (opt.offset + opt.limit).toNat - k = 0 := by omega
        simp [hl, hc, window_from, et]


theorem do_search_threads_loop_eq (w : Collaborators) (ver : Int) (opt : search_options_t)
    (ho : 0 ≤ opt.offset) (hlim : 0 ≤ opt.limit → opt.offset + opt.limit ≤ INT_MAX) :
    ∀ (l : List notmuch_thread_t) (k : Nat),
      (opt.limit < 0 → ((k + l.length : Nat) : Int) ≤ INT_MAX) →
      (∀ t ∈ window_from l opt.offset opt.limit k,
        (do_search_threads_body w ver opt t).2 = false) →
      do_search_threads_loop w ver opt l (k : Int)
        = ((window_from l opt.offset opt.limit k).flatMap
            (fun t => (do_search_threads_body w ver opt t).1) ++ [Call.end_], 0) := by
  intro l
  induction l with
  | nil => intro k _ _; simp [do_search_threads_loop, window_from]
  | cons m ms ih =>
    intro k hk hok
    unfold do_search_threads_loop
    by_cases hl : opt.limit < 0
    · have hk1 : ((k : Int) + 1) ≤ INT_MAX := by
        have := hk hl
        simp only [List.length_cons] at this
        omega
      have hw : wrap32 ((k : Int) + 1) = ((k + 1 : Nat) : Int) := by
        rw [wrap32_of_isInt32]
        · push_cast; rfl
        · unfold isInt32 INT_MIN; unfold INT_MAX at *; omega
      have hk' : opt.limit < 0 → ((k + 1 + ms.length : Nat) : Int) ≤ INT_MAX := by
        intro h; have := hk h; simp only [List.length_cons] at this
        have e : k + 1 + ms.length = k + (ms.length + 1) := by omega
        rw [e]; exact this
      rw [hw]
      simp only [hl, true_or, if_true]
      by_cases hlt : (k : Int) < opt.offset
      · have e : opt.offset.toNat - k = (opt.offset.toNat - (k + 1)) + 1 := by omega
        have hwf : window_from (m :: ms) opt.offset opt.limit k
            = window_from ms opt.offset opt.limit (k + 1) := by
          simp only [window_from, hl, if_true]
          rw [e, List.drop_succ_cons]
        rw [hwf] at hok ⊢
        rw [if_pos hlt, ih (k + 1) hk' hok]
      · have e : opt.offset.toNat - k = 0 := by omega
        have e1 : opt.offset.toNat - (k + 1) = 0 := by omega
        have hwf : window_from (m :: ms) opt.offset opt.limit k
            = m :: window_from ms opt.offset opt.limit (k + 1) := by
          simp only [window_from, hl, if_true]
          rw [e, e1]; rfl
        rw [hwf] at hok ⊢
        have hm := hok m (List.mem_cons_self _ _)
        have hrest := ih (k + 1) hk' (fun t ht => hok t (List.mem_cons_of_mem _ ht))
        rw [if_neg hlt, hrest]
        rcases hb : do_search_threads_body w ver opt m with ⟨calls, flag⟩
        rw [hb] at hm
        simp only at hm
        subst hm
        simp [List.flatMap_cons, hb]
    · have hl0 : 0 ≤ opt.limit := by omega
      have hsum := hlim hl0
      have hws : wrap32 (opt.offset + opt.limit) = opt.offset + opt.limit := by
        apply wrap32_of_isInt32
        unfold isInt32 INT_MIN; unfold INT_MAX at *; omega
      rw [hws]
      by_cases hc : (k : Int) < opt.offset + opt.limit
      · have hw : wrap32 ((k : Int) + 1) = ((k + 1 : Nat) : Int) := by
          rw [wrap32_of_isInt32]
          · push_cast; rfl
          · unfold isInt32 INT_MIN; unfold INT_MAX at *; omega
        have hk' : opt.limit < 0 → ((k + 1 + ms.length : Nat) : Int) ≤ INT_MAX := by
          intro h; omega
        rw [hw]
        simp only [hl, hc, false_or, if_true]
        have et : (opt.offset + opt.limit).toNat - k
            = ((opt.offset + opt.limit).toNat - (k + 1)) + 1 := by omega
        by_cases hlt : (k : Int) < opt.offset
        · have e : opt.offset.toNat - k = (opt.offset.toNat - (k + 1)) + 1 := by omega
          have hwf : window_from (m :: ms) opt.offset opt.limit k
              = window_from ms opt.offset opt.limit (k + 1) := by
            simp only [window_from, hl, if_false]
            rw [et, List.take_succ_cons, e, List.drop_succ_cons]
          rw [hwf] at hok ⊢
          rw [if_pos hlt, ih (k + 1) hk' hok]
        · have e : opt.offset.toNat - k = 0 := by omega
          have e1 : opt.offset.toNat - (k + 1) = 0 := by omega
          have hwf : window_from (m :: ms) opt.offset opt.limit k
              = m :: window_from ms opt.offset opt.limit (k + 1) := by
            simp only [window_from, hl, if_false]
            rw [et, List.take_succ_cons, e, e1]; rfl
          rw [hwf] at hok ⊢
          have hm := hok m (List.mem_cons_self _ _)
          have hrest := ih (k + 1) hk' (fun t ht => hok t (List.mem_cons_of_mem _ ht))
          rw [if_neg hlt, hrest]
          rcases hb : do_search_threads_body w ver opt m with ⟨calls, flag⟩
          rw [hb] at hm
          simp only at hm
          subst hm
          simp [List.flatMap_cons, hb]
      · have et : (opt.offset + opt.limit).toNat - k = 0 := by omega
        simp [hl, hc, window_from, et]

theorem do_search_messages_eq (w : Collaborators) (opt : search_options_t) :
    do_search_messages w opt =
      (match w.notmuch_query_search_messages opt.query with
       | none =>
         { calls := [], ret := 1,
           opt := { opt with offset := (do_search_messages w opt).opt.offset } }
       | some messages =>
         { calls := Call.begin_list ::
             do_search_messages_loop w
               { opt with offset := (do_search_messages w opt).opt.offset } messages 0
             ++ [Call.end_],
           ret := 0,
           opt := { opt with offset := (do_search_messages w opt).opt.offset } }) := by
  unfold do_search_messages
  by_cases h : opt.offset < 0
  · by_cases h2 : wrap32 (opt.offset + (w.notmuch_query_count_messages opt.query : Int)) < 0
    · simp only [h, h2, if_true]
      cases w.notmuch_query_search_messages opt.query <;> rfl
    · simp only [h, h2, if_true, if_false]
      cases w.notmuch_query_search_messages opt.query <;> rfl
  · simp only [h, if_false]
    cases w.notmuch_query_search_messages opt.query <;> rfl

theorem do_search_threads_eq (w : Collaborators) (ver : Int) (opt : search_options_t) :
    do_search_threads w ver opt =
      (match w.notmuch_query_search_threads opt.query with
       | none =>
         { calls := [], ret := 1,
           opt := { opt with offset := (do_search_threads w ver opt).opt.offset } }
       | some threads =>
         { calls := Call.begin_list ::
             (do_search_threads_loop w ver
               { opt with offset := (do_search_threads w ver opt).opt.offset } threads 0).1,
           ret :=
             (do_search_threads_loop w ver
               { opt with offset := (do_search_threads w ver opt).opt.offset } threads 0).2,
           opt := { opt with offset := (do_search_threads w ver opt).opt.offset } }) := by
  unfold do_search_threads
  by_cases h : opt.offset < 0
  · by_cases h2 : wrap32 (opt.offset + (w.notmuch_query_count_threads opt.query : Int)) < 0
    · simp only [h, h2, if_true]
      cases w.notmuch_query_search_threads opt.query <;> rfl
    · simp only [h, h2, if_true, if_false]
      cases w.notmuch_query_search_threads opt.query <;> rfl
  · simp only [h, if_false]
    cases w.notmuch_query_search_threads opt.query <;> rfl

theorem do_search_messages_offset (w : Collaborators) (opt : search_options_t) :
    (do_search_messages w opt).opt.offset =
      if opt.offset < 0 then
        (if wrap32 (opt.offset + (w.notmuch_query_count_messages opt.query : Int)) < 0 then 0
         else wrap32 (opt.offset + (w.notmuch_query_count_messages opt.query : Int)))
      else opt.offset := by
  unfold do_search_messages
  by_cases h : opt.offset < 0
  · by_cases h2 : wrap32 (opt.offset + (w.notmuch_query_count_messages opt.query : Int)) < 0
    · simp only [h, h2, if_true]
      split <;> rfl
    · simp only [h, h2, if_true, if_false]
      split <;> rfl
  · simp only [h, if_false]
    split <;> rfl

theorem do_search_threads_offset (w : Collaborators) (ver : Int) (opt : search_options_t) :
    (do_search_threads w ver opt).opt.offset =
      if opt.offset < 0 then
        (if wrap32 (opt.offset + (w.notmuch_query_count_threads opt.query : Int)) < 0 then 0
         else wrap32 (opt.offset + (w.notmuch_query_count_threads opt.query : Int)))
      else opt.offset := by
  unfold do_search_threads
  by_cases h : opt.offset < 0
  · by_cases h2 : wrap32 (opt.offset + (w.notmuch_query_count_threads opt.query : Int)) < 0
    · simp only [h, h2, if_true]
      split <;> rfl
    · simp only [h, h2, if_true, if_false]
      split <;> rfl
  · simp only [h, if_false]
    split <;> rfl

theorem do_search_messages_offset_nonneg (w : Collaborators) (opt : search_options_t) :
    0 ≤ (do_search_messages w opt).opt.offset := by
  rw [do_search_messages_offset]
  split
  · split <;> omega
  · omega

theorem do_search_threads_offset_nonneg (w : Collaborators) (ver : Int)
    (opt : search_options_t) : 0 ≤ (do_search_threads w ver opt).opt.offset := by
  rw [do_search_threads_offset]
  split
  · split <;> omega
  · omega

theorem do_search_messages_opt (w : Collaborators) (opt : search_options_t) :
    (do_search_messages w opt).opt
      = { opt with offset := (do_search_messages w opt).opt.offset } := by
  conv => lhs; rw [do_search_messages_eq]
  cases w.notmuch_query_search_messages opt.query <;> rfl

theorem do_search_threads_opt (w : Collaborators) (ver : Int) (opt : search_options_t) :
    (do_search_threads w ver opt).opt
      = { opt with offset := (do_search_threads w ver opt).opt.offset } := by
  conv => lhs; rw [do_search_threads_eq]
  cases w.notmuch_query_search_threads opt.query <;> rfl

/-- The calls of the message renderer: the bodies of the messages of the
window, in order, between the opening and the closing of the list. -/
theorem do_search_messages_calls (w : Collaborators) (opt : search_options_t)
    (messages : List notmuch_message_t)
    (hs : w.notmuch_query_search_messages opt.query = some messages)
    (hno : no_overflow (do_search_messages w opt).opt.offset opt.limit messages.length) :
    (do_search_messages w opt).calls
        = Call.begin_list ::
            (window messages (do_search_messages w opt).opt.offset opt.limit).flatMap
              (do_search_messages_body w (do_search_messages w opt).opt)
            ++ [Call.end_]
      ∧ (do_search_messages w opt).ret = 0 := by
  have hnn := do_search_messages_offset_nonneg w opt
  have hloop := do_search_messages_loop_eq w
    { opt with offset := (do_search_messages w opt).opt.offset } hnn hno.2 messages 0
    (by intro h; simpa using hno.1 h)
  have hopt := do_search_messages_opt w opt
  constructor
  · conv => lhs; rw [do_search_messages_eq]
    rw [hs]
    simp only
    rw [show ((0 : Nat) : Int) = 0 from rfl] at hloop
    rw [hloop, window_from_zero _ _ _ hnn, ← hopt]
    have hl : (do_search_messages w opt).opt.limit = opt.limit := by rw [hopt]
    rw [hl]
  · rw [do_search_messages_eq, hs]

/-- The calls of the thread renderer when no body of the window fails. -/
theorem do_search_threads_calls (w : Collaborators) (ver : Int) (opt : search_options_t)
    (threads : List notmuch_thread_t)
    (hs : w.notmuch_query_search_threads opt.query = some threads)
    (hno : no_overflow (do_search_threads w ver opt).opt.offset opt.limit threads.length)
    (hok : ∀ t ∈ window threads (do_search_threads w ver opt).opt.offset opt.limit,
      (do_search_threads_body w ver (do_search_threads w ver opt).opt t).2 = false) :
    (do_search_threads w ver opt).calls
        = Call.begin_list ::
            (window threads (do_search_threads w ver opt).opt.offset opt.limit).flatMap
              (fun t => (do_search_threads_body w ver (do_search_threads w ver opt).opt t).1)
            ++ [Call.end_]
      ∧ (do_search_threads w ver opt).ret = 0 := by
  have hnn := do_search_threads_offset_nonneg w ver opt
  have hopt := do_search_threads_opt w ver opt
  have hloop := do_search_threads_loop_eq w ver
    { opt with offset := (do_search_threads w ver opt).opt.offset } hnn hno.2 threads 0
    (by intro h; simpa using hno.1 h)
    (by
      intro t ht
      rw [show ((0 : Nat)) = 0 from rfl] at ht
      simp only [window_from_zero _ _ _ hnn] at ht
      rw [← hopt]
      exact hok t ht)
  rw [show ((0 : Nat) : Int) = 0 from rfl] at hloop
  constructor
  · conv => lhs; rw [do_search_threads_eq]
    rw [hs]
    simp only
    rw [hloop]
    simp only [window_from_zero _ _ _ hnn, ← hopt, List.cons_append]
  · conv => lhs; rw [do_search_threads_eq]
    rw [hs]
    simp only
    rw [hloop]

theorem window_getElem? {α : Type} (l : List α) (offset limit : Int) (j : Nat) :
    (window l offset limit)[j]?
      = if limit < 0 ∨ (j : Int) < limit then l[offset.toNat + j]? else none := by
  unfold window
  by_cases hl : limit < 0
  · simp [hl]
  · by_cases hj : (j : Int) < limit
    · have : j < limit.toNat := by omega
      simp [hl, hj, List.getElem?_take, this]
    · have : ¬ j < limit.toNat := by omega
      simp [hl, hj, List.getElem?_take, this]

theorem intercalate_go_length (s : String) :
    ∀ (l : List String) (acc : String),
      acc.length ≤ (String.intercalate.go acc s l).length := by
  intro l
  induction l with
  | nil => intro acc; simp [String.intercalate.go]
  | cons a rest ih =>
    intro acc
    simp only [String.intercalate.go]
    have := ih (acc ++ s ++ a)
    simp only [String.length_append] at this
    omega

theorem get_thread_query_loop_eq (w : Collaborators) (esc : String → String)
    (halloc : ∀ s, w.talloc_ok s = true) :
    ∀ (messages : List notmuch_message_t) (matched_out unmatched_out : Option String),
      (∀ m ∈ messages, w.escape m.message_id = some (esc m.message_id)) →
      get_thread_query_loop w messages matched_out unmatched_out
        = some (extend_joined matched_out (id_terms esc true messages),
                extend_joined unmatched_out (id_terms esc false messages)) := by
  intro messages
  induction messages with
  | nil =>
    intro mo uo _
    cases mo <;> cases uo <;>
      simp [get_thread_query_loop, id_terms, extend_joined, String.intercalate.go]
  | cons m rest ih =>
    intro mo uo hesc
    have hm := hesc m (List.mem_cons_self _ _)
    have hrest : ∀ x ∈ rest, w.escape x.message_id = some (esc x.message_id) :=
      fun x hx => hesc x (List.mem_cons_of_mem _ hx)
    have hterm : make_boolean_term w "id" m.message_id = some ("id:" ++ esc m.message_id) := by
      unfold make_boolean_term
      rw [hm]
      rfl
    unfold get_thread_query_loop
    simp only [hterm, talloc_string, halloc, if_true]
    by_cases hf : m.flag_match = true
    · simp only [hf, if_true]
      cases mo with
      | none =>
        simp only
        rw [ih _ _ hrest]
        simp [id_terms, hf, extend_joined]
      | some b =>
        simp only
        rw [ih _ _ hrest]
        simp [id_terms, hf, extend_joined, String.intercalate.go]
    · have hf' : m.flag_match = false := by simpa using hf
      simp only [hf', Bool.false_eq_true, if_false]
      cases uo with
      | none =>
        simp only
        rw [ih _ _ hrest]
        simp [id_terms, hf', extend_joined]
      | some b =>
        simp only
        rw [ih _ _ hrest]
        simp [id_terms, hf', extend_joined, String.intercalate.go]

theorem extend_joined_none (terms : List String) :
    extend_joined none terms = joined_terms terms := by
  cases terms <;> rfl

theorem joined_terms_eq_none (terms : List String) :
    joined_terms terms = none ↔ terms = [] := by
  cases terms <;> simp [joined_terms]

theorem joined_id_terms_ne_empty (esc : String → String) (flag : Bool)
    (messages : List notmuch_message_t) :
    joined_terms (id_terms esc flag messages) ≠ some "" := by
  unfold id_terms
  cases h : messages.filter (fun m => m.flag_match == flag) with
  | nil => simp [joined_terms]
  | cons m rest =>
    simp only [List.map_cons, joined_terms, String.intercalate]
    intro hcontra
    have hlen := intercalate_go_length " "
      (rest.map (fun m => "id:" ++ esc m.message_id)) ("id:" ++ esc m.message_id)
    rw [Option.some.inj hcontra] at hlen
    simp only [String.length_append] at hlen
    have h3 : "id:".length = 3 := by decide
    have h0 : "".length = 0 := by decide
    omega

theorem do_search_messages_files_eq (opt : search_options_t) :
    ∀ (fs : List String) (k : Nat),
      (0 ≤ opt.dupe → ((k + fs.length : Nat) : Int) ≤ INT_MAX) →
      do_search_messages_files opt fs (k : Int)
        = string_records
            (((List.enumFrom k fs).filter
              (fun p => decide (opt.dupe < 0 ∨ opt.dupe = (p.1 : Int)))).map Prod.snd) := by
  intro fs
  induction fs with
  | nil => intro k _; simp [do_search_messages_files, string_records]
  | cons f rest ih =>
    intro k hk
    unfold do_search_messages_files
    by_cases hd : opt.dupe < 0
    · have hrec : ∀ (l : List String) (a b : Int),
          do_search_messages_files opt l a = do_search_messages_files opt l b := by
        intro l
        induction l with
        | nil => intro a b; simp [do_search_messages_files]
        | cons x xs ihx =>
          intro a b
          simp only [do_search_messages_files, hd, true_or, if_true]
          rw [ihx (wrap32 (a + 1)) (wrap32 (b + 1))]
      rw [hrec rest (wrap32 ((k : Int) + 1)) ((k + 1 : Nat) : Int),
        ih (k + 1) (by intro h; omega)]
      simp [hd, string_records, List.enumFrom_cons]
    · have hd0 : 0 ≤ opt.dupe := by omega
      have hb := hk hd0
      simp only [List.length_cons] at hb
      have hw : wrap32 ((k : Int) + 1) = ((k + 1 : Nat) : Int) := by
        rw [wrap32_of_isInt32]
        · push_cast; rfl
        · unfold isInt32 INT_MIN; unfold INT_MAX at *; omega
      rw [hw, ih (k + 1) (by
        intro _
        have e : k + 1 + rest.length = k + (rest.length + 1) := by omega
        rw [e]; exact hb)]
      by_cases he : opt.dupe = (k : Int)
      · simp [hd, he, string_records, List.enumFrom_cons]
      · simp [hd, he, string_records, List.enumFrom_cons]

/-- The body of the message loop in file-path mode. -/
theorem do_search_messages_body_files (w : Collaborators) (opt : search_options_t)
    (m : notmuch_message_t) (hout : opt.output = OUTPUT_FILES)
    (hlen : 0 ≤ opt.dupe → (m.filenames.length : Int) < INT_MAX) :
    do_search_messages_body w opt m = string_records (selected_paths opt.dupe m.filenames) := by
  unfold do_search_messages_body selected_paths
  rw [if_pos hout]
  have h := do_search_messages_files_eq opt m.filenames 1 (by
    intro h0
    have := hlen h0
    push_cast
    omega)
  rw [show ((1 : Nat) : Int) = 1 from rfl] at h
  exact h

theorem mem_of_mem_window {α : Type} {l : List α} {offset limit : Int} {x : α}
    (h : x ∈ window l offset limit) : x ∈ l := by
  unfold window at h
  split at h
  · exact List.mem_of_mem_drop h
  · exact List.mem_of_mem_drop (List.mem_of_mem_take h)

theorem do_search_messages_opt_output (w : Collaborators) (opt : search_options_t) :
    (do_search_messages w opt).opt.output = opt.output := by
  rw [do_search_messages_opt]

theorem do_search_messages_opt_dupe (w : Collaborators) (opt : search_options_t) :
    (do_search_messages w opt).opt.dupe = opt.dupe := by
  rw [do_search_messages_opt]

theorem do_search_messages_opt_format (w : Collaborators) (opt : search_options_t) :
    (do_search_messages w opt).opt.format = opt.format := by
  rw [do_search_messages_opt]

theorem selected_paths_of_neg (dupe : Int) (fs : List String) (h : dupe < 0) :
    selected_paths dupe fs = fs := by
  unfold selected_paths
  have : (List.enumFrom 1 fs).filter (fun p => decide (dupe < 0 ∨ dupe = (p.1 : Int)))
      = List.enumFrom 1 fs := by
    rw [List.filter_eq_self]
    intro a _
    simp [h]
  rw [this, List.enumFrom_map_snd]

theorem enumFrom_filter_index (d : Nat) :
    ∀ (fs : List String) (k : Nat), k ≤ d →
      ((List.enumFrom k fs).filter (fun p => decide (p.1 = d))).map Prod.snd
        = (fs[d - k]?).toList := by
  intro fs
  induction fs with
  | nil => intro k _; simp
  | cons f rest ih =>
    intro k hk
    rw [List.enumFrom_cons]
    by_cases he : k = d
    · subst he
      have hnone : (List.enumFrom (k + 1) rest).filter (fun p => decide (p.1 = k)) = [] := by
        rw [List.filter_eq_nil_iff]
        intro a ha
        have := List.le_fst_of_mem_enumFrom ha
        simp only [decide_eq_true_eq]
        omega
      simp [List.filter_cons, hnone]
    · have hlt : k + 1 ≤ d := by omega
      have e : d - k = (d - (k + 1)) + 1 := by omega
      rw [List.filter_cons]
      simp only [he, decide_False, Bool.false_eq_true, if_false]
      rw [ih (k + 1) hlt, e, List.getElem?_cons_succ]

theorem selected_paths_of_pos (dupe : Int) (fs : List String) (h : 1 ≤ dupe) :
    selected_paths dupe fs = (fs[(dupe - 1).toNat]?).toList := by
  unfold selected_paths
  have hd : dupe = ((dupe.toNat : Nat) : Int) := by omega
  have hf : (fun p : Nat × String => decide (dupe < 0 ∨ dupe = (p.1 : Int)))
      = (fun p : Nat × String => decide (p.1 = dupe.toNat)) := by
    funext p
    congr 1
    apply propext
    constructor
    · intro hp; omega
    · intro hp; right; omega
  rw [hf, enumFrom_filter_index dupe.toNat fs 1 (by omega)]
  congr 2
  omega

theorem _count_filenames_loop_eq :
    ∀ (fs : List String) (k : Nat), ((k + fs.length : Nat) : Int) ≤ INT_MAX →
      _count_filenames_loop fs (k : Int) = ((k + fs.length : Nat) : Int) := by
  intro fs
  induction fs with
  | nil => intro k _; simp [_count_filenames_loop]
  | cons f rest ih =>
    intro k hk
    simp only [List.length_cons] at hk
    unfold _count_filenames_loop
    have hw : wrap32 ((k : Int) + 1) = ((k + 1 : Nat) : Int) := by
      rw [wrap32_of_isInt32]
      · push_cast; rfl
      · unfold isInt32 INT_MIN; unfold INT_MAX at *; omega
    have e : k + 1 + rest.length = k + (rest.length + 1) := by omega
    rw [hw, ih (k + 1) (by rw [e]; exact hk), e]
    rfl

theorem _count_filenames_eq (m : notmuch_message_t)
    (h : (m.filenames.length : Int) ≤ INT_MAX) :
    _count_filenames m = (m.filenames.length : Int) := by
  unfold _count_filenames
  have := _count_filenames_loop_eq m.filenames 0 (by simpa using h)
  simpa using this

theorem count_separator_string_records (values : List String) :
    List.count Call.separator (string_records values) = values.length := by
  unfold string_records
  induction values with
  | nil => simp
  | cons v rest ih =>
    rw [List.flatMap_cons, List.count_append, ih]
    simp [List.count_cons]
    omega

/-- The body of the message loop in message-id mode. -/
theorem do_search_messages_body_messages (w : Collaborators) (opt : search_options_t)
    (m : notmuch_message_t) (hout : opt.output = OUTPUT_MESSAGES)
    (hlen : 1 < opt.dupe → (m.filenames.length : Int) ≤ INT_MAX) :
    do_search_messages_body w opt m
      = if opt.dupe ≤ 1 ∨ opt.dupe ≤ (m.filenames.length : Int) then
          id_records [m.message_id]
        else [] := by
  unfold do_search_messages_body
  have hne : opt.output ≠ OUTPUT_FILES := by rw [hout]; decide
  rw [if_neg hne, if_pos hout]
  by_cases h1 : opt.dupe ≤ 1
  · simp [h1, id_records]
  · rw [_count_filenames_eq m (hlen (by omega))]
    simp [id_records]

theorem flatMap_if_eq_filter {α β : Type} (p : α → Prop) [DecidablePred p]
    (f : α → List β) (l : List α) :
    l.flatMap (fun x => if p x then f x else [])
      = (l.filter (fun x => decide (p x))).flatMap f := by
  induction l with
  | nil => simp
  | cons x xs ih =>
    by_cases hp : p x
    · simp [List.flatMap_cons, List.filter_cons, hp, ih]
    · simp [List.flatMap_cons, List.filter_cons, hp, ih]

mutual
theorem process_address_list_entry_eq (w : Collaborators) (opt : search_options_t) :
    ∀ address : InternetAddress,
      process_address_list_entry w opt address
        = (mailboxes_of_entry address).flatMap (print_mailbox w opt)
  | InternetAddress.mailbox name addr => by
    simp [process_address_list_entry, mailboxes_of_entry]
  | InternetAddress.group _ none => by
    simp [process_address_list_entry, mailboxes_of_entry]
  | InternetAddress.group _ (some members) => by
    simp only [process_address_list_entry, mailboxes_of_entry]
    exact process_address_list_eq w opt members
theorem process_address_list_eq (w : Collaborators) (opt : search_options_t) :
    ∀ list : List InternetAddress,
      process_address_list w opt list
        = (mailboxes_of_list list).flatMap (print_mailbox w opt)
  | [] => by simp [process_address_list, mailboxes_of_list]
  | address :: rest => by
    simp only [process_address_list, mailboxes_of_list, List.flatMap_append]
    rw [process_address_list_entry_eq w opt address, process_address_list_eq w opt rest]
end

theorem count_separator_print_mailbox (w : Collaborators) (opt : search_options_t)
    (mailbox : mailbox_t) :
    List.count Call.separator (print_mailbox w opt mailbox) = 1 := by
  unfold print_mailbox
  cases opt.format.is_text_printer <;> simp [List.count_cons]

theorem count_separator_mailboxes (w : Collaborators) (opt : search_options_t)
    (mailboxes : List mailbox_t) :
    List.count Call.separator (mailboxes.flatMap (print_mailbox w opt)) = mailboxes.length := by
  induction mailboxes with
  | nil => simp
  | cons m rest ih =>
    rw [List.flatMap_cons, List.count_append, ih, count_separator_print_mailbox]
    simp
    omega

theorem print_mailbox_congr (w : Collaborators) (opt1 opt2 : search_options_t)
    (h : opt1.format = opt2.format) (mailbox : mailbox_t) :
    print_mailbox w opt1 mailbox = print_mailbox w opt2 mailbox := by
  unfold print_mailbox
  rw [h]

theorem process_address_header_eq (w : Collaborators) (opt : search_options_t)
    (message : notmuch_message_t) (hdr : String) :
    process_address_header w opt (message.header hdr)
      = (header_mailboxes w message hdr).flatMap (print_mailbox w opt) := by
  unfold process_address_header header_mailboxes
  cases message.header hdr with
  | none => simp
  | some v =>
    simp only
    cases w.internet_address_list_parse_string v with
    | none => simp
    | some list => simp only; exact process_address_list_eq w opt list

/-- The body of the message loop in address-extraction mode. -/
theorem do_search_messages_body_addresses (w : Collaborators) (opt : search_options_t)
    (m : notmuch_message_t) (sender recipients : Bool)
    (hne : sender = true ∨ recipients = true)
    (hout : opt.output = address_output sender recipients) :
    do_search_messages_body w opt m
      = (address_mailboxes w sender recipients m).flatMap (print_mailbox w opt) := by
  unfold do_search_messages_body address_mailboxes
  rw [hout]
  cases sender <;> cases recipients
  · simp at hne
  · have h1 : address_output false true ≠ OUTPUT_FILES := by decide
    have h2 : address_output false true ≠ OUTPUT_MESSAGES := by decide
    have h3 : ¬ (address_output false true &&& OUTPUT_SENDER ≠ 0) := by decide
    have h4 : address_output false true &&& OUTPUT_RECIPIENTS ≠ 0 := by decide
    rw [if_neg h1, if_neg h2, if_neg h3, if_pos h4]
    simp [List.flatMap_cons, List.flatMap_append, process_address_header_eq]
  · have h1 : address_output true false ≠ OUTPUT_FILES := by decide
    have h2 : address_output true false ≠ OUTPUT_MESSAGES := by decide
    have h3 : address_output true false &&& OUTPUT_SENDER ≠ 0 := by decide
    have h4 : ¬ (address_output true false &&& OUTPUT_RECIPIENTS ≠ 0) := by decide
    rw [if_neg h1, if_neg h2, if_pos h3, if_neg h4]
    simp [process_address_header_eq]
  · have h1 : address_output true true ≠ OUTPUT_FILES := by decide
    have h2 : address_output true true ≠ OUTPUT_MESSAGES := by decide
    have h3 : address_output true true &&& OUTPUT_SENDER ≠ 0 := by decide
    have h4 : address_output true true &&& OUTPUT_RECIPIENTS ≠ 0 := by decide
    rw [if_neg h1, if_neg h2, if_pos h3, if_pos h4]
    simp [List.flatMap_cons, List.flatMap_append, process_address_header_eq]

/-- The command, once its configuration is accepted and the engine is ready,
is its last part. -/
theorem notmuch_search_command_ready (w : Collaborators) (args : search_arguments)
    (query_str : String) (hready : engine_ready w args query_str)
    (hdupe : ¬ (effective_output args ≠ OUTPUT_FILES ∧ effective_output args ≠ OUTPUT_MESSAGES
      ∧ args.dupe ≠ -1))
    (hfmt : ¬ (args.format_sel = format_sel_t.NOTMUCH_FORMAT_TEXT0
      ∧ effective_output args = OUTPUT_SUMMARY)) :
    notmuch_search_command w args
      = notmuch_search_command_dispatch w args (effective_output args)
          (sprinter_create args.format_sel) query_str := by
  obtain ⟨h1, h2, h3, h4, h5, h6⟩ := hready
  unfold notmuch_search_command
  have h1' : ¬ args.opt_index < 0 := by omega
  unfold effective_output at hdupe hfmt
  rw [if_neg h1']
  simp only [hdupe, hfmt, if_false, h2, h3, h4, h5, h6, Bool.false_eq_true,
    Bool.true_eq_false]
  rfl

/-- The last part of the command in terms of the options it builds. -/
theorem notmuch_search_command_dispatch_eq (w : Collaborators) (args : search_arguments)
    (query_str : String) :
    notmuch_search_command_dispatch w args (effective_output args)
        (sprinter_create args.format_sel) query_str
      = { engine := command_engine w args,
          calls := command_warning args ++
            (if effective_output args = OUTPUT_SUMMARY ∨ effective_output args = OUTPUT_THREADS
              then
                (do_search_threads w args.notmuch_format_version
                  (command_options w args query_str)).calls
             else if effective_output args = OUTPUT_MESSAGES
                 ∨ effective_output args = OUTPUT_FILES
                 ∨ (effective_output args &&& OUTPUT_ADDRESS_FLAGS ≠ 0
                    ∧ ¬ (effective_output args &&& (4294967295 - OUTPUT_ADDRESS_FLAGS) ≠ 0))
              then (do_search_messages w (command_options w args query_str)).calls
             else if effective_output args = OUTPUT_TAGS then
               (do_search_tags w (command_options w args query_str)).1
             else [Call.stderr "Error: the combination of outputs is not supported.\n"]),
          status := exit_status
            (if effective_output args = OUTPUT_SUMMARY ∨ effective_output args = OUTPUT_THREADS
              then
                (do_search_threads w args.notmuch_format_version
                  (command_options w args query_str)).ret
             else if effective_output args = OUTPUT_MESSAGES
                 ∨ effective_output args = OUTPUT_FILES
                 ∨ (effective_output args &&& OUTPUT_ADDRESS_FLAGS ≠ 0
                    ∧ ¬ (effective_output args &&& (4294967295 - OUTPUT_ADDRESS_FLAGS) ≠ 0))
              then (do_search_messages w (command_options w args query_str)).ret
             else if effective_output args = OUTPUT_TAGS then
               (do_search_tags w (command_options w args query_str)).2
             else 1) } := by
  unfold notmuch_search_command_dispatch
  by_cases h1 : effective_output args = OUTPUT_SUMMARY ∨ effective_output args = OUTPUT_THREADS
  · simp only [if_pos h1]; rfl
  · by_cases h2 : effective_output args = OUTPUT_MESSAGES
        ∨ effective_output args = OUTPUT_FILES
        ∨ (effective_output args &&& OUTPUT_ADDRESS_FLAGS ≠ 0
          ∧ ¬ (effective_output args &&& (4294967295 - OUTPUT_ADDRESS_FLAGS) ≠ 0))
    · simp only [if_neg h1, if_pos h2]; rfl
    · by_cases h3 : effective_output args = OUTPUT_TAGS
      · simp only [if_neg h1, if_neg h2, if_pos h3]; rfl
      · simp only [if_neg h1, if_neg h2, if_neg h3]; rfl

set_option maxRecDepth 100000 in
theorem address_flags_iff :
    ∀ o : Nat, o < 128 →
      ((o &&& OUTPUT_ADDRESS_FLAGS ≠ 0 ∧ ¬ (o &&& (4294967295 - OUTPUT_ADDRESS_FLAGS) ≠ 0))
        ↔ (o = OUTPUT_SENDER ∨ o = OUTPUT_RECIPIENTS ∨ o = OUTPUT_SENDER ||| OUTPUT_RECIPIENTS)) := by
  decide

theorem effective_output_of_ne_zero (args : search_arguments) (h : args.output ≠ 0) :
    effective_output args = args.output := by
  unfold effective_output
  rw [if_neg h]

theorem message_output_iff (o : Nat) (h : o < 128) :
    (o = OUTPUT_MESSAGES ∨ o = OUTPUT_FILES
      ∨ (o &&& OUTPUT_ADDRESS_FLAGS ≠ 0 ∧ ¬ (o &&& (4294967295 - OUTPUT_ADDRESS_FLAGS) ≠ 0)))
      ↔ message_output o := by
  unfold message_output
  rw [address_flags_iff o h]

theorem not_thread_output_of_message_output (o : Nat) (h : message_output o) :
    ¬ thread_output o := by
  unfold message_output at h
  unfold thread_output
  rcases h with h | h | h | h | h <;> (rw [h]; decide)

/-- The command result when the dispatch reaches the thread renderer, the
message renderer, the tag collector, or none of them. -/
theorem notmuch_search_command_dispatch_cases (w : Collaborators) (args : search_arguments)
    (query_str : String) (hlt : effective_output args < 128) :
    (thread_output (effective_output args) →
      notmuch_search_command_dispatch w args (effective_output args)
          (sprinter_create args.format_sel) query_str
        = { engine := command_engine w args,
            calls := command_warning args ++
              (do_search_threads w args.notmuch_format_version
                (command_options w args query_str)).calls,
            status := exit_status
              (do_search_threads w args.notmuch_format_version
                (command_options w args query_str)).ret })
    ∧ (message_output (effective_output args) →
      notmuch_search_command_dispatch w args (effective_output args)
          (sprinter_create args.format_sel) query_str
        = { engine := command_engine w args,
            calls := command_warning args ++
              (do_search_messages w (command_options w args query_str)).calls,
            status := exit_status
              (do_search_messages w (command_options w args query_str)).ret })
    ∧ (effective_output args = OUTPUT_TAGS →
      notmuch_search_command_dispatch w args (effective_output args)
          (sprinter_create args.format_sel) query_str
        = { engine := command_engine w args,
            calls := command_warning args ++
              (do_search_tags w (command_options w args query_str)).1,
            status := exit_status (do_search_tags w (command_options w args query_str)).2 })
    ∧ (¬ thread_output (effective_output args) → ¬ message_output (effective_output args) →
        effective_output args ≠ OUTPUT_TAGS →
      notmuch_search_command_dispatch w args (effective_output args)
          (sprinter_create args.format_sel) query_str
        = { engine := command_engine w args,
            calls := command_warning args ++
              [Call.stderr "Error: the combination of outputs is not supported.\n"],
            status := EXIT_FAILURE }) := by
  have hm := message_output_iff (effective_output args) hlt
  refine ⟨?_, ?_, ?_, ?_⟩
  · intro h
    rw [notmuch_search_command_dispatch_eq]
    unfold thread_output at h
    simp only [if_pos h]
  · intro h
    have hnt := not_thread_output_of_message_output _ h
    unfold thread_output at hnt
    rw [notmuch_search_command_dispatch_eq]
    simp only [if_neg hnt, if_pos (hm.mpr h)]
  · intro h
    have hnt : ¬ (effective_output args = OUTPUT_SUMMARY
        ∨ effective_output args = OUTPUT_THREADS) := by rw [h]; decide
    have hnm : ¬ (effective_output args = OUTPUT_MESSAGES ∨ effective_output args = OUTPUT_FILES
        ∨ (effective_output args &&& OUTPUT_ADDRESS_FLAGS ≠ 0
          ∧ ¬ (effective_output args &&& (4294967295 - OUTPUT_ADDRESS_FLAGS) ≠ 0))) := by
      rw [h]; decide
    rw [notmuch_search_command_dispatch_eq]
    simp only [if_neg hnt, if_neg hnm, if_pos h]
  · intro hnt hnm h
    unfold thread_output at hnt
    rw [notmuch_search_command_dispatch_eq]
    simp only [if_neg hnt, if_neg (fun x => hnm (hm.mp x)), if_neg h]
    rfl

theorem do_search_threads_opt_output (w : Collaborators) (ver : Int) (opt : search_options_t) :
    (do_search_threads w ver opt).opt.output = opt.output := by
  rw [do_search_threads_opt]

theorem do_search_threads_opt_format (w : Collaborators) (ver : Int) (opt : search_options_t) :
    (do_search_threads w ver opt).opt.format = opt.format := by
  rw [do_search_threads_opt]

theorem do_search_threads_opt_sort (w : Collaborators) (ver : Int) (opt : search_options_t) :
    (do_search_threads w ver opt).opt.sort = opt.sort := by
  rw [do_search_threads_opt]

/-- The body of the thread loop in thread-id mode. -/
theorem do_search_threads_body_threads (w : Collaborators) (ver : Int)
    (opt : search_options_t) (t : notmuch_thread_t) (hout : opt.output = OUTPUT_THREADS) :
    do_search_threads_body w ver opt t
      = ([ Call.set_prefix "thread", Call.string (some t.thread_id), Call.separator], false) := by
  unfold do_search_threads_body
  rw [if_pos hout]

theorem do_search_threads_tags_structured (format : sprinter_t)
    (h : format.is_text_printer = false) :
    ∀ (tags : List String) (first_tag : Bool),
      do_search_threads_tags format tags first_tag
        = tags.map (fun tag => Call.string (some tag)) := by
  intro tags
  induction tags with
  | nil => intro _; simp [do_search_threads_tags]
  | cons t rest ih =>
    intro b
    simp [do_search_threads_tags, h, ih]

theorem do_search_threads_tags_text (format : sprinter_t)
    (h : format.is_text_printer = true) :
    ∀ (tags : List String) (first_tag : Bool),
      do_search_threads_tags format tags first_tag = text_tags tags first_tag := by
  intro tags
  induction tags with
  | nil => intro _; simp [do_search_threads_tags, text_tags]
  | cons t rest ih =>
    intro b
    simp [do_search_threads_tags, text_tags, h, ih]

/-- The body of the thread loop in summary mode with a structured printer. -/
theorem do_search_threads_body_structured (w : Collaborators) (ver : Int)
    (opt : search_options_t) (t : notmuch_thread_t) (q : Option String × Option String)
    (hout : opt.output ≠ OUTPUT_THREADS) (hfmt : opt.format.is_text_printer = false)
    (hq : 2 ≤ ver → get_thread_query w t = some q) :
    do_search_threads_body w ver opt t = (structured_record w ver opt t q, false) := by
  unfold do_search_threads_body do_search_threads_fields structured_record thread_date
  rw [if_neg hout]
  simp only [hfmt, Bool.false_eq_true, if_false]
  by_cases hv : 2 ≤ ver
  · have hv' : ver ≥ 2 := hv
    rw [if_pos hv', hq hv, if_pos hv]
    simp only [do_search_threads_tags_structured opt.format hfmt]
    obtain ⟨q1, q2⟩ := q
    cases q1 <;> cases q2 <;> simp [query_element]
  · have hv' : ¬ ver ≥ 2 := hv
    rw [if_neg hv', if_neg hv]
    simp only [do_search_threads_tags_structured opt.format hfmt]
    simp

/-- The body of the thread loop in summary mode with a text printer. -/
theorem do_search_threads_body_text (w : Collaborators) (ver : Int)
    (opt : search_options_t) (t : notmuch_thread_t)
    (hout : opt.output ≠ OUTPUT_THREADS) (hfmt : opt.format.is_text_printer = true) :
    do_search_threads_body w ver opt t = (text_record w opt t, false) := by
  unfold do_search_threads_body do_search_threads_fields text_record summary_line_head
    thread_date
  rw [if_neg hout]
  simp only [hfmt, if_true]
  simp only [do_search_threads_tags_text opt.format hfmt]
  simp

theorem structured_record_congr (w : Collaborators) (ver : Int) (opt1 opt2 : search_options_t)
    (h : opt1.sort = opt2.sort) (t : notmuch_thread_t) (q : Option String × Option String) :
    structured_record w ver opt1 t q = structured_record w ver opt2 t q := by
  unfold structured_record thread_date
  rw [h]

theorem text_record_congr (w : Collaborators) (opt1 opt2 : search_options_t)
    (h : opt1.sort = opt2.sort) (t : notmuch_thread_t) :
    text_record w opt1 t = text_record w opt2 t := by
  unfold text_record summary_line_head thread_date
  rw [h]

theorem text_tags_stdout :
    ∀ (tags : List String) (first : Bool), ∀ c ∈ text_tags tags first, ∃ s, c = Call.stdout s := by
  intro tags
  induction tags with
  | nil => intro _ c hc; simp [text_tags] at hc
  | cons t rest ih =>
    intro b c hc
    simp only [text_tags, List.mem_append, List.mem_singleton] at hc
    rcases hc with (hc | hc) | hc
    · split at hc
      · simp at hc
      · rw [List.mem_singleton] at hc; exact ⟨" ", hc⟩
    · exact ⟨t, hc⟩
    · exact ih false c hc

theorem query_key_mem_structured_record (w : Collaborators) (ver : Int)
    (opt : search_options_t) (t : notmuch_thread_t) (q : Option String × Option String) :
    Call.map_key "query" ∈ structured_record w ver opt t q ↔ 2 ≤ ver := by
  unfold structured_record
  by_cases hv : 2 ≤ ver
  · simp [hv]
  · simp [hv]

theorem query_key_not_mem_text_record (w : Collaborators) (opt : search_options_t)
    (t : notmuch_thread_t) : Call.map_key "query" ∉ text_record w opt t := by
  unfold text_record
  intro h
  simp only [List.mem_append, List.mem_cons, List.mem_singleton, List.mem_nil_iff] at h
  rcases h with (h | h) | h
  · simp at h
  · obtain ⟨s, hs⟩ := text_tags_stdout _ _ _ h
    simp at hs
  · simp at h

theorem text_printer_output_text_tags (terminator : String) :
    ∀ (tags : List String) (first : Bool) (rest : List Call) (label : Option String),
      text_printer_output terminator (text_tags tags first ++ rest) label
        = tags_text tags first ++ text_printer_output terminator rest label := by
  intro tags
  induction tags with
  | nil => intro _ rest label; simp [text_tags, tags_text]
  | cons t r ih =>
    intro first rest label
    cases first
    · simp [text_tags, tags_text, text_printer_output, ih, String.append_assoc]
    · simp [text_tags, tags_text, text_printer_output, ih, String.append_assoc]

theorem intercalate_go_eq :
    ∀ (tags : List String) (acc : String),
      String.intercalate.go acc " " tags = acc ++ tags_text tags false := by
  intro tags
  induction tags with
  | nil => intro acc; simp [String.intercalate.go, tags_text]
  | cons t r ih =>
    intro acc
    simp [String.intercalate.go, tags_text, ih, String.append_assoc]

theorem tags_text_eq_intercalate (tags : List String) :
    tags_text tags true = " ".intercalate tags := by
  cases tags with
  | nil => rfl
  | cons t r =>
    simp [tags_text, String.intercalate, intercalate_go_eq]

/-- The text written by the text printer for the summary record of a thread,
followed by further calls. -/
theorem text_printer_output_text_record (terminator : String) (w : Collaborators)
    (opt : search_options_t) (t : notmuch_thread_t) (rest : List Call) :
    text_printer_output terminator (text_record w opt t ++ rest) none
      = summary_line w opt t ++ terminator ++ text_printer_output terminator rest none := by
  have hl : text_record w opt t ++ rest
      = Call.begin_map :: Call.stdout (summary_line_head w opt t) :: Call.map_key "tags"
          :: Call.begin_list :: (text_tags t.tags true
            ++ (Call.stdout ")" :: Call.end_ :: Call.end_ :: Call.separator :: rest)) := by
    simp [text_record]
  rw [hl]
  unfold summary_line
  simp only [text_printer_output]
  rw [text_printer_output_text_tags]
  simp only [text_printer_output, tags_text_eq_intercalate, String.append_assoc]

theorem text_printer_output_text_records (terminator : String) (w : Collaborators)
    (opt : search_options_t) :
    ∀ (threads : List notmuch_thread_t) (rest : List Call),
      text_printer_output terminator (threads.flatMap (text_record w opt) ++ rest) none
        = concat_texts (threads.map (fun t => summary_line w opt t ++ terminator))
            ++ text_printer_output terminator rest none := by
  intro threads
  induction threads with
  | nil => intro rest; simp [concat_texts]
  | cons t r ih =>
    intro rest
    rw [List.flatMap_cons, List.append_assoc, text_printer_output_text_record, ih]
    simp [concat_texts, String.append_assoc]

theorem printf_12s_of_wide (s : String) (h : 12 ≤ s.utf8ByteSize) : printf_12s s = s := by
  unfold printf_12s
  have : 12 - s.utf8ByteSize = 0 := by omega
  rw [this]
  simp

theorem do_search_tags_loop_eq (tags : List String) :
    do_search_tags_loop tags = string_records tags := by
  unfold string_records
  induction tags with
  | nil => rfl
  | cons t rest ih => simp [do_search_tags_loop, ih]

theorem do_search_tags_eq (w : Collaborators) (opt : search_options_t) :
    do_search_tags w opt
      = match tag_sequence w opt with
        | none => ([], 1)
        | some tags => (Call.begin_list :: string_records tags ++ [Call.end_], 0) := by
  unfold do_search_tags tag_sequence
  by_cases hq : opt.query.query_string = "*"
  · simp only [if_pos hq]
    cases w.notmuch_database_get_all_tags with
    | none => rfl
    | some tags => simp only [do_search_tags_loop_eq]
  · simp only [if_neg hq]
    cases w.notmuch_query_search_messages opt.query with
    | none => rfl
    | some messages =>
      simp only
      cases w.notmuch_messages_collect_tags messages with
      | none => rfl
      | some tags => simp only [do_search_tags_loop_eq]

theorem count_separator_do_search_threads_tags (format : sprinter_t) :
    ∀ (tags : List String) (first_tag : Bool),
      List.count Call.separator (do_search_threads_tags format tags first_tag) = 0 := by
  intro tags
  induction tags with
  | nil => intro _; simp [do_search_threads_tags]
  | cons t rest ih =>
    intro b
    unfold do_search_threads_tags
    cases hf : format.is_text_printer
    · simp [List.count_cons, ih]
    · cases b <;> simp [List.count_cons, List.count_append, ih]

theorem count_separator_do_search_threads_fields (w : Collaborators) (ver : Int)
    (opt : search_options_t) (t : notmuch_thread_t) :
    List.count Call.separator (do_search_threads_fields w ver opt t).1 = 0 := by
  unfold do_search_threads_fields
  simp only
  cases hf : opt.format.is_text_printer
  · simp only [Bool.false_eq_true, if_false]
    by_cases hv : ver ≥ 2
    · rw [if_pos hv]
      cases hq : get_thread_query w t with
      | none => simp [List.count_cons, List.count_append]
      | some q =>
        obtain ⟨q1, q2⟩ := q
        cases q1 <;> cases q2 <;> simp [List.count_cons, List.count_append]
    · rw [if_neg hv]
      simp [List.count_cons]
  · simp [List.count_cons]

theorem count_separator_do_search_threads_body (w : Collaborators) (ver : Int)
    (opt : search_options_t) (t : notmuch_thread_t) :
    List.count Call.separator (do_search_threads_body w ver opt t).1 ≤ 1 := by
  unfold do_search_threads_body
  by_cases hout : opt.output = OUTPUT_THREADS
  · rw [if_pos hout]
    simp [List.count_cons]
  · rw [if_neg hout]
    have hfields := count_separator_do_search_threads_fields w ver opt t
    rcases hb : do_search_threads_fields w ver opt t with ⟨calls, flag⟩
    rw [hb] at hfields
    simp only at hfields
    cases flag
    · simp only [List.count_append, List.count_cons, hfields,
        count_separator_do_search_threads_tags]
      cases opt.format.is_text_printer <;> simp
    · simp only [List.count_cons, hfields]
      simp

theorem window_from_cons_skip {α : Type} (x : α) (xs : List α) (offset limit : Int) (k : Nat)
    (hin : limit < 0 ∨ (k : Int) < offset + limit) (hlt : (k : Int) < offset) :
    window_from (x :: xs) offset limit k = window_from xs offset limit (k + 1) := by
  have e : offset.toNat - k = (offset.toNat - (k + 1)) + 1 := by omega
  unfold window_from
  by_cases hl : limit < 0
  · simp only [hl, if_true]
    rw [e, List.drop_succ_cons]
  · have hc : (k : Int) < offset + limit := by
      rcases hin with h | h
      · exact absurd h hl
      · exact h
    have et : (offset + limit).toNat - k = ((offset + limit).toNat - (k + 1)) + 1 := by omega
    simp only [hl, if_false]
    rw [et, List.take_succ_cons, e, List.drop_succ_cons]

theorem window_from_cons_render {α : Type} (x : α) (xs : List α) (offset limit : Int) (k : Nat)
    (hin : limit < 0 ∨ (k : Int) < offset + limit) (hge : ¬ (k : Int) < offset) :
    window_from (x :: xs) offset limit k = x :: window_from xs offset limit (k + 1) := by
  have e : offset.toNat - k = 0 := by omega
  have e1 : offset.toNat - (k + 1) = 0 := by omega
  unfold window_from
  by_cases hl : limit < 0
  · simp only [hl, if_true]
    rw [e, e1]; rfl
  · have hc : (k : Int) < offset + limit := by
      rcases hin with h | h
      · exact absurd h hl
      · exact h
    have et : (offset + limit).toNat - k = ((offset + limit).toNat - (k + 1)) + 1 := by omega
    simp only [hl, if_false]
    rw [et, List.take_succ_cons, e, e1]; rfl

/-- The number of separator calls of the thread loop is at most the number of
threads of the rest of the window, whether the loop is abandoned or not. -/
theorem count_separator_do_search_threads_loop (w : Collaborators) (ver : Int)
    (opt : search_options_t)
    (hlim : 0 ≤ opt.limit → opt.offset + opt.limit ≤ INT_MAX)
    (ho : 0 ≤ opt.offset) :
    ∀ (l : List notmuch_thread_t) (k : Nat),
      (opt.limit < 0 → ((k + l.length : Nat) : Int) ≤ INT_MAX) →
      List.count Call.separator (do_search_threads_loop w ver opt l (k : Int)).1
        ≤ (window_from l opt.offset opt.limit k).length := by
  intro l
  induction l with
  | nil => intro k _; simp [do_search_threads_loop, List.count_cons]
  | cons m ms ih =>
    intro k hk
    unfold do_search_threads_loop
    by_cases hin : opt.limit < 0 ∨ (k : Int) < opt.offset + opt.limit
    · have hsum : opt.limit < 0 ∨ (k : Int) < wrap32 (opt.offset + opt.limit) := by
        by_cases hl : opt.limit < 0
        · exact Or.inl hl
        · rcases hin with h | h
          · exact Or.inl h
          · right
            rw [wrap32_of_isInt32]
            · exact h
            · have := hlim (by omega)
              unfold isInt32 INT_MIN; unfold INT_MAX at *; omega
      have hk1 : ((k : Int) + 1) ≤ INT_MAX := by
        by_cases hl : opt.limit < 0
        · have := hk hl
          simp only [List.length_cons] at this
          omega
        · rcases hin with h | h
          · exact absurd h hl
          · have := hlim (by omega)
            omega
      have hw : wrap32 ((k : Int) + 1) = ((k + 1 : Nat) : Int) := by
        rw [wrap32_of_isInt32]
        · push_cast; rfl
        · unfold isInt32 INT_MIN; unfold INT_MAX at *; omega
      have hk' : opt.limit < 0 → ((k + 1 + ms.length : Nat) : Int) ≤ INT_MAX := by
        intro h; have := hk h; simp only [List.length_cons] at this
        have e : k + 1 + ms.length = k + (ms.length + 1) := by omega
        rw [e]; exact this
      have ih1 := ih (k + 1) hk'
      rw [if_pos hsum, hw]
      by_cases hlt : (k : Int) < opt.offset
      · rw [if_pos hlt, window_from_cons_skip m ms _ _ k hin hlt]
        exact ih1
      · rw [if_neg hlt, window_from_cons_render m ms _ _ k hin hlt]
        have hb := count_separator_do_search_threads_body w ver opt m
        rcases hbody : do_search_threads_body w ver opt m with ⟨calls, flag⟩
        rw [hbody] at hb
        simp only at hb
        cases flag
        · simp only [List.count_append, List.length_cons]
          omega
        · simp only [List.length_cons]
          omega
    · have hl : ¬ opt.limit < 0 := fun h => hin (Or.inl h)
      have hc : ¬ (k : Int) < opt.offset + opt.limit := fun h => hin (Or.inr h)
      have hws : wrap32 (opt.offset + opt.limit) = opt.offset + opt.limit := by
        apply wrap32_of_isInt32
        have := hlim (by omega)
        unfold isInt32 INT_MIN; unfold INT_MAX at *; omega
      rw [hws, if_neg hin]
      simp [List.count_cons]

theorem window_length_le {α : Type} (l : List α) (offset limit : Int) (h : 0 ≤ limit) :
    ((window l offset limit).length : Int) ≤ limit := by
  unfold window
  have hl : ¬ limit < 0 := by omega
  rw [if_neg hl]
  have := List.length_take_le limit.toNat (l.drop offset.toNat)
  omega

theorem count_separator_flatMap_le {α : Type} (f : α → List Call) (l : List α)
    (h : ∀ x ∈ l, List.count Call.separator (f x) ≤ 1) :
    List.count Call.separator (l.flatMap f) ≤ l.length := by
  induction l with
  | nil => simp
  | cons x xs ih =>
    rw [List.flatMap_cons, List.count_append, List.length_cons]
    have h1 := h x (List.mem_cons_self _ _)
    have h2 := ih (fun y hy => h y (List.mem_cons_of_mem _ hy))
    omega

theorem nesting_run_append :
    ∀ (a b : List Call) (d : Nat),
      nesting_run (a ++ b) d = (nesting_run a d).bind (nesting_run b) := by
  intro a
  induction a with
  | nil => intro b d; simp [nesting_run]
  | cons c rest ih =>
    intro b d
    cases c with
    | end_ =>
      cases d with
      | zero => simp [nesting_run]
      | succ d => simp [nesting_run, ih]
    | separator =>
      by_cases hd : d = 0
      · simp [nesting_run, hd, ih]
      · simp [nesting_run, hd]
    | _ => simp [nesting_run, ih]

theorem nesting_run_flatMap {α : Type} (f : α → List Call) :
    ∀ l : List α, (∀ x ∈ l, nesting_run (f x) 0 = some 0) →
      nesting_run (l.flatMap f) 0 = some 0 := by
  intro l
  induction l with
  | nil => intro _; simp [nesting_run]
  | cons x xs ih =>
    intro h
    rw [List.flatMap_cons, nesting_run_append, h x (List.mem_cons_self _ _)]
    exact ih (fun y hy => h y (List.mem_cons_of_mem _ hy))

/-- What a successful run of the nesting check says about the counts of the
opening and closing calls of the prefixes. -/
theorem nesting_run_counts :
    ∀ (l : List Call) (d d' : Nat), nesting_run l d = some d' →
      (∀ n : Nat, closes (l.take n) ≤ d + opens (l.take n))
        ∧ d' + closes l = d + opens l
        ∧ (∀ n : Nat, l[n]? = some Call.separator →
            d + opens (l.take n) = closes (l.take n)) := by
  intro l
  induction l with
  | nil =>
    intro d d' h
    simp only [nesting_run, Option.some.injEq] at h
    subst h
    simp [opens, closes]
  | cons c rest ih =>
    intro d d' h
    have step : ∀ (e : Nat) (o k : Nat), nesting_run rest e = some d' →
        (∀ m, opens (c :: m) = opens m + o) → (∀ m, closes (c :: m) = closes m + k) →
        e + k = d + o → (c = Call.separator → d = 0) →
        (∀ n : Nat, closes ((c :: rest).take n) ≤ d + opens ((c :: rest).take n))
          ∧ d' + closes (c :: rest) = d + opens (c :: rest)
          ∧ (∀ n : Nat, (c :: rest)[n]? = some Call.separator →
              d + opens ((c :: rest).take n) = closes ((c :: rest).take n)) := by
      intro e o k hrun ho hc hek hsep
      obtain ⟨h1, h2, h3⟩ := ih e d' hrun
      refine ⟨?_, ?_, ?_⟩
      · intro n
        cases n with
        | zero => simp [opens, closes]
        | succ n =>
          rw [List.take_succ_cons, ho, hc]
          have := h1 n
          omega
      · rw [ho, hc]; omega
      · intro n hn
        cases n with
        | zero =>
          simp only [List.getElem?_cons_zero, Option.some.injEq] at hn
          have := hsep hn
          simp [opens, closes, this]
        | succ n =>
          rw [List.getElem?_cons_succ] at hn
          rw [List.take_succ_cons, ho, hc]
          have := h3 n hn
          omega
    cases c with
    | begin_list =>
      exact step (d + 1) 1 0 (by simpa [nesting_run] using h)
        (by intro m; simp [opens, List.count_cons]; omega)
        (by intro m; simp [closes, List.count_cons]) (by omega) (by intro hc; cases hc)
    | begin_map =>
      exact step (d + 1) 1 0 (by simpa [nesting_run] using h)
        (by intro m; simp [opens, List.count_cons]; omega)
        (by intro m; simp [closes, List.count_cons]) (by omega) (by intro hc; cases hc)
    | end_ =>
      cases d with
      | zero => simp [nesting_run] at h
      | succ d =>
        exact step d 0 1 (by simpa [nesting_run] using h)
          (by intro m; simp [opens, List.count_cons])
          (by intro m; simp [closes, List.count_cons]) (by omega) (by intro hc; cases hc)
    | separator =>
      by_cases hd : d = 0
      · subst hd
        exact step 0 0 0 (by simpa [nesting_run] using h)
          (by intro m; simp [opens, List.count_cons])
          (by intro m; simp [closes, List.count_cons]) (by omega) (fun _ => rfl)
      · simp [nesting_run, hd] at h
    | map_key s =>
      exact step d 0 0 (by simpa [nesting_run] using h)
        (by intro m; simp [opens, List.count_cons])
        (by intro m; simp [closes, List.count_cons]) (by omega) (by intro hc; cases hc)
    | string s =>
      exact step d 0 0 (by simpa [nesting_run] using h)
        (by intro m; simp [opens, List.count_cons])
        (by intro m; simp [closes, List.count_cons]) (by omega) (by intro hc; cases hc)
    | integer s =>
      exact step d 0 0 (by simpa [nesting_run] using h)
        (by intro m; simp [opens, List.count_cons])
        (by intro m; simp [closes, List.count_cons]) (by omega) (by intro hc; cases hc)
    | null =>
      exact step d 0 0 (by simpa [nesting_run] using h)
        (by intro m; simp [opens, List.count_cons])
        (by intro m; simp [closes, List.count_cons]) (by omega) (by intro hc; cases hc)
    | set_prefix s =>
      exact step d 0 0 (by simpa [nesting_run] using h)
        (by intro m; simp [opens, List.count_cons])
        (by intro m; simp [closes, List.count_cons]) (by omega) (by intro hc; cases hc)
    | stdout s =>
      exact step d 0 0 (by simpa [nesting_run] using h)
        (by intro m; simp [opens, List.count_cons])
        (by intro m; simp [closes, List.count_cons]) (by omega) (by intro hc; cases hc)
    | stderr s =>
      exact step d 0 0 (by simpa [nesting_run] using h)
        (by intro m; simp [opens, List.count_cons])
        (by intro m; simp [closes, List.count_cons]) (by omega) (by intro hc; cases hc)

theorem opens_append (a b : List Call) : opens (a ++ b) = opens a + opens b := by
  simp only [opens, List.count_append]; omega

theorem closes_append (a b : List Call) : closes (a ++ b) = closes a + closes b := by
  simp only [closes, List.count_append]

theorem opens_begin_list_cons (l : List Call) : opens (Call.begin_list :: l) = opens l + 1 := by
  simp [opens, List.count_cons]; omega

theorem closes_begin_list_cons (l : List Call) : closes (Call.begin_list :: l) = closes l := by
  simp [closes, List.count_cons]

theorem closes_take_end_le (k : Nat) : closes ([Call.end_].take k) ≤ 1 := by
  cases k <;> simp [closes, List.count_cons]

/-- A sequence of calls made of the opening of a list, of calls that pass the
nesting check, and of a closing call obeys the stack discipline. -/
theorem stack_discipline_of_nesting_run (inner : List Call)
    (h : nesting_run inner 0 = some 0) :
    stack_discipline (Call.begin_list :: inner ++ [Call.end_]) := by
  obtain ⟨h1, h2, h3⟩ := nesting_run_counts inner 0 0 h
  have hshape : Call.begin_list :: inner ++ [Call.end_]
      = Call.begin_list :: (inner ++ [Call.end_]) := rfl
  rw [hshape]
  refine ⟨rfl, ?_, ?_, ?_, ?_, ?_⟩
  · rw [show Call.begin_list :: (inner ++ [Call.end_])
        = (Call.begin_list :: inner) ++ [Call.end_] from rfl, List.getLast?_concat]
  · intro n
    cases n with
    | zero => simp [opens, closes]
    | succ m =>
      rw [List.take_succ_cons, opens_begin_list_cons, closes_begin_list_cons,
        List.take_append_eq_append_take, opens_append, closes_append]
      have := h1 m
      have := closes_take_end_le (m - inner.length)
      omega
  · rw [opens_begin_list_cons, closes_begin_list_cons, opens_append, closes_append]
    have he : closes [Call.end_] = 1 := by simp [closes, List.count_cons]
    have ho : opens [Call.end_] = 0 := by simp [opens, List.count_cons]
    omega
  · intro n hn hlen
    cases n with
    | zero => omega
    | succ m =>
      have hm : m ≤ inner.length := by
        simp only [List.length_cons, List.length_append, List.length_nil] at hlen
        omega
      rw [List.take_succ_cons, opens_begin_list_cons, closes_begin_list_cons,
        List.take_append_of_le_length hm]
      have := h1 m
      omega
  · intro n hn
    cases n with
    | zero => simp at hn
    | succ m =>
      rw [List.getElem?_cons_succ] at hn
      by_cases hm : m < inner.length
      · rw [List.getElem?_append_left hm] at hn
        rw [List.take_succ_cons, opens_begin_list_cons, closes_begin_list_cons,
          List.take_append_of_le_length (Nat.le_of_lt hm)]
        have := h3 m hn
        omega
      · rw [List.getElem?_append_right (by omega)] at hn
        cases hk : m - inner.length with
        | zero => rw [hk] at hn; simp at hn
        | succ k => rw [hk] at hn; simp at hn

theorem nesting_run_print_mailbox (w : Collaborators) (opt : search_options_t)
    (mailbox : mailbox_t) : nesting_run (print_mailbox w opt mailbox) 0 = some 0 := by
  unfold print_mailbox
  cases opt.format.is_text_printer <;> simp [nesting_run]

theorem nesting_run_string_records (values : List String) :
    nesting_run (string_records values) 0 = some 0 := by
  unfold string_records
  apply nesting_run_flatMap
  intro v _
  simp [nesting_run]

theorem nesting_run_do_search_messages_files (opt : search_options_t) :
    ∀ (fs : List String) (j : Int), nesting_run (do_search_messages_files opt fs j) 0 = some 0 := by
  intro fs
  induction fs with
  | nil => intro j; simp [do_search_messages_files, nesting_run]
  | cons f rest ih =>
    intro j
    unfold do_search_messages_files
    rw [nesting_run_append]
    split
    · simp [nesting_run, ih]
    · simp [nesting_run, ih]

theorem nesting_run_process_address_header (w : Collaborators) (opt : search_options_t)
    (message : notmuch_message_t) (hdr : String) :
    nesting_run (process_address_header w opt (message.header hdr)) 0 = some 0 := by
  rw [process_address_header_eq]
  apply nesting_run_flatMap
  intro mb _
  exact nesting_run_print_mailbox w opt mb

theorem nesting_run_do_search_messages_body (w : Collaborators) (opt : search_options_t)
    (message : notmuch_message_t) :
    nesting_run (do_search_messages_body w opt message) 0 = some 0 := by
  unfold do_search_messages_body
  split
  · exact nesting_run_do_search_messages_files opt _ _
  · split
    · split <;> simp [nesting_run]
    · rw [nesting_run_append]
      have h1 : nesting_run
          (if opt.output &&& OUTPUT_SENDER ≠ 0 then
            process_address_header w opt (message.header "from") else []) 0 = some 0 := by
        split
        · exact nesting_run_process_address_header w opt message "from"
        · simp [nesting_run]
      rw [h1]
      simp only [Option.some_bind]
      split
      · apply nesting_run_flatMap
        intro hdr _
        exact nesting_run_process_address_header w opt message hdr
      · simp [nesting_run]

theorem nesting_run_do_search_messages_loop (w : Collaborators) (opt : search_options_t) :
    ∀ (l : List notmuch_message_t) (i : Int),
      nesting_run (do_search_messages_loop w opt l i) 0 = some 0 := by
  intro l
  induction l with
  | nil => intro i; simp [do_search_messages_loop, nesting_run]
  | cons m rest ih =>
    intro i
    unfold do_search_messages_loop
    split
    · rw [nesting_run_append]
      split
      · simp [nesting_run, ih]
      · rw [nesting_run_do_search_messages_body]
        simp [ih]
    · simp [nesting_run]

/-- A successful run of the message renderer obeys the stack discipline. -/
theorem stack_discipline_do_search_messages (w : Collaborators) (opt : search_options_t)
    (h : (do_search_messages w opt).ret = 0) :
    stack_discipline (do_search_messages w opt).calls := by
  rw [do_search_messages_eq] at h ⊢
  cases hs : w.notmuch_query_search_messages opt.query with
  | none => rw [hs] at h; simp at h
  | some messages =>
    simp only
    exact stack_discipline_of_nesting_run _ (nesting_run_do_search_messages_loop w _ messages 0)

/-- A successful run of the tag collector obeys the stack discipline. -/
theorem stack_discipline_do_search_tags (w : Collaborators) (opt : search_options_t)
    (h : (do_search_tags w opt).2 = 0) :
    stack_discipline (do_search_tags w opt).1 := by
  rw [do_search_tags_eq] at h ⊢
  cases ht : tag_sequence w opt with
  | none => rw [ht] at h; simp at h
  | some tags =>
    simp only
    exact stack_discipline_of_nesting_run _ (nesting_run_string_records tags)

theorem nesting_run_do_search_threads_tags (format : sprinter_t) :
    ∀ (tags : List String) (first_tag : Bool) (rest : List Call) (d : Nat),
      nesting_run (do_search_threads_tags format tags first_tag ++ rest) d
        = nesting_run rest d := by
  intro tags
  induction tags with
  | nil => intro _ rest d; simp [do_search_threads_tags]
  | cons t r ih =>
    intro b rest d
    unfold do_search_threads_tags
    cases format.is_text_printer
    · simp [nesting_run, ih]
    · cases b <;> simp [nesting_run, ih]

theorem nesting_run_do_search_threads_fields (w : Collaborators) (ver : Int)
    (opt : search_options_t) (t : notmuch_thread_t) (rest : List Call) (d : Nat) :
    nesting_run ((do_search_threads_fields w ver opt t).1 ++ rest) d = nesting_run rest d := by
  unfold do_search_threads_fields
  simp only
  cases opt.format.is_text_printer
  · simp only [Bool.false_eq_true, if_false]
    by_cases hv : ver ≥ 2
    · rw [if_pos hv]
      cases get_thread_query w t with
      | none => simp [nesting_run]
      | some q =>
        obtain ⟨q1, q2⟩ := q
        cases q1 <;> cases q2 <;> simp [nesting_run]
    · rw [if_neg hv]
      simp [nesting_run]
  · simp [nesting_run]

theorem nesting_run_do_search_threads_body (w : Collaborators) (ver : Int)
    (opt : search_options_t) (t : notmuch_thread_t)
    (h : (do_search_threads_body w ver opt t).2 = false) :
    nesting_run (do_search_threads_body w ver opt t).1 0 = some 0 := by
  unfold do_search_threads_body at h ⊢
  by_cases hout : opt.output = OUTPUT_THREADS
  · rw [if_pos hout]
    simp [nesting_run]
  · rw [if_neg hout] at h ⊢
    have hf := nesting_run_do_search_threads_fields w ver opt t
    rcases hb : do_search_threads_fields w ver opt t with ⟨calls, flag⟩
    rw [hb] at h hf
    simp only at hf
    cases flag
    · have hshape : (Call.begin_map :: calls
          ++ [Call.map_key "tags", Call.begin_list]
          ++ do_search_threads_tags opt.format t.tags true
          ++ (if opt.format.is_text_printer then [Call.stdout ")"] else [])
          ++ [Call.end_, Call.end_, Call.separator])
          = Call.begin_map :: (calls ++ (Call.map_key "tags" :: Call.begin_list ::
              (do_search_threads_tags opt.format t.tags true
                ++ ((if opt.format.is_text_printer then [Call.stdout ")"] else [])
                  ++ [Call.end_, Call.end_, Call.separator])))) := by
        simp
      show nesting_run (Call.begin_map :: calls
          ++ [Call.map_key "tags", Call.begin_list]
          ++ do_search_threads_tags opt.format t.tags true
          ++ (if opt.format.is_text_printer then [Call.stdout ")"] else [])
          ++ [Call.end_, Call.end_, Call.separator]) 0 = some 0
      rw [hshape]
      simp only [nesting_run]
      rw [hf]
      simp only [nesting_run]
      rw [nesting_run_do_search_threads_tags]
      cases opt.format.is_text_printer <;> simp [nesting_run]
    · simp at h

theorem nesting_run_do_search_threads_loop (w : Collaborators) (ver : Int)
    (opt : search_options_t) :
    ∀ (l : List notmuch_thread_t) (i : Int),
      (do_search_threads_loop w ver opt l i).2 = 0 →
      ∃ inner, (do_search_threads_loop w ver opt l i).1 = inner ++ [Call.end_]
        ∧ nesting_run inner 0 = some 0 := by
  intro l
  induction l with
  | nil =>
    intro i _
    exact ⟨[], by simp [do_search_threads_loop], rfl⟩
  | cons m rest ih =>
    intro i h
    unfold do_search_threads_loop at h ⊢
    split at h
    · rename_i hin
      rw [if_pos hin]
      split at h
      · rename_i hlt
        rw [if_pos hlt]
        exact ih _ h
      · rename_i hlt
        rw [if_neg hlt]
        have hbody := nesting_run_do_search_threads_body w ver opt m
        rcases hb : do_search_threads_body w ver opt m with ⟨calls, flag⟩
        rw [hb] at h hbody
        cases flag
        · simp only at h hbody ⊢
          obtain ⟨inner, hi1, hi2⟩ := ih _ h
          refine ⟨calls ++ inner, ?_, ?_⟩
          · rw [hi1, List.append_assoc]
          · rw [nesting_run_append, hbody trivial]
            exact hi2
        · simp at h
    · rename_i hin
      rw [if_neg hin]
      exact ⟨[], by simp, rfl⟩

/-- A successful run of the thread renderer obeys the stack discipline. -/
theorem stack_discipline_do_search_threads (w : Collaborators) (ver : Int)
    (opt : search_options_t) (h : (do_search_threads w ver opt).ret = 0) :
    stack_discipline (do_search_threads w ver opt).calls := by
  rw [do_search_threads_eq] at h ⊢
  cases hs : w.notmuch_query_search_threads opt.query with
  | none => rw [hs] at h; simp at h
  | some threads =>
    rw [hs] at h
    simp only at h ⊢
    obtain ⟨inner, hi1, hi2⟩ := nesting_run_do_search_threads_loop w ver _ threads 0 h
    rw [hi1]
    exact stack_discipline_of_nesting_run inner hi2

/-- On the mail index of the specification the two paths of the tag collector
agree when the query carries no exclude tag: the wildcard query and a query
that matches every message give the same calls. -/
theorem do_search_tags_wildcard_agrees (index : mail_index) (exclude_tags : List String)
    (opt1 opt2 : search_options_t)
    (h1 : opt1.query.query_string = "*") (h2 : opt2.query.query_string ≠ "*")
    (hall : ∀ m ∈ index.messages, index.query_matches opt2.query.query_string m = true)
    (hex : opt2.query.exclude_tags = []) :
    do_search_tags (index_world index exclude_tags) opt1
      = do_search_tags (index_world index exclude_tags) opt2 := by
  have hsearch : index.search_messages opt2.query = index.messages := by
    unfold mail_index.search_messages
    rw [List.filter_eq_self]
    intro m hm
    simp [hall m hm, mail_index.omits, hex]
  have ht1 : tag_sequence (index_world index exclude_tags) opt1 = some index.all_tags := by
    unfold tag_sequence
    rw [if_pos h1]
    rfl
  have ht2 : tag_sequence (index_world index exclude_tags) opt2 = some index.all_tags := by
    unfold tag_sequence
    rw [if_neg h2]
    show some (index.collect_tags (index.search_messages opt2.query)) = some index.all_tags
    rw [hsearch]
    rfl
  rw [do_search_tags_eq, do_search_tags_eq, ht1, ht2]

theorem selected_paths_zero (fs : List String) : selected_paths 0 fs = [] := by
  unfold selected_paths
  have : (List.enumFrom 1 fs).filter (fun p => decide ((0 : Int) < 0 ∨ (0 : Int) = (p.1 : Int)))
      = [] := by
    rw [List.filter_eq_nil_iff]
    intro a ha
    have := List.le_fst_of_mem_enumFrom ha
    simp only [decide_eq_true_eq]
    omega
  rw [this]
  rfl

theorem selected_paths_length_le (dupe : Int) (fs : List String) (h : 0 ≤ dupe) :
    (selected_paths dupe fs).length ≤ 1 := by
  by_cases h0 : dupe = 0
  · rw [h0, selected_paths_zero]
    simp
  · rw [selected_paths_of_pos dupe fs (by omega)]
    cases fs[(dupe - 1).toNat]? <;> simp
/-! ## The claims -/

/-- C1: when the engine yields a thread sequence and a message sequence, the
window arithmetic stays inside `int` and no thread body of the window fails,
the thread renderer and the message renderer run the loop body on exactly the
items of the slice selected by the resolved offset and the limit, in engine
order, between the opening and the closing of the list; the item at position
`j` of the slice is the item at position `resolved offset + j` of the
sequence, for every `j` when the limit is negative and for `j < limit`
otherwise. -/
theorem C1_rendered_items_are_the_window (w : Collaborators) (ver : Int)
    (opt : search_options_t) (threads : List notmuch_thread_t)
    (messages : List notmuch_message_t)
    (hst : w.notmuch_query_search_threads opt.query = some threads)
    (hsm : w.notmuch_query_search_messages opt.query = some messages)
    (hnt : no_overflow (do_search_threads w ver opt).opt.offset opt.limit threads.length)
    (hnm : no_overflow (do_search_messages w opt).opt.offset opt.limit messages.length)
    (hok : ∀ t ∈ window threads (do_search_threads w ver opt).opt.offset opt.limit,
      (do_search_threads_body w ver (do_search_threads w ver opt).opt t).2 = false) :
    (do_search_threads w ver opt).calls
        = Call.begin_list ::
            (window threads (do_search_threads w ver opt).opt.offset opt.limit).flatMap
              (fun t => (do_search_threads_body w ver (do_search_threads w ver opt).opt t).1)
            ++ [Call.end_]
      ∧ (do_search_messages w opt).calls
        = Call.begin_list ::
            (window messages (do_search_messages w opt).opt.offset opt.limit).flatMap
              (do_search_messages_body w (do_search_messages w opt).opt)
            ++ [Call.end_]
      ∧ (∀ j : Nat, (window threads (do_search_threads w ver opt).opt.offset opt.limit)[j]?
          = if opt.limit < 0 ∨ (j : Int) < opt.limit then
              threads[(do_search_threads w ver opt).opt.offset.toNat + j]?
            else none)
      ∧ (∀ j : Nat, (window messages (do_search_messages w opt).opt.offset opt.limit)[j]?
          = if opt.limit < 0 ∨ (j : Int) < opt.limit then
              messages[(do_search_messages w opt).opt.offset.toNat + j]?
            else none) :=
  ⟨(do_search_threads_calls w ver opt threads hst hnt hok).1,
   (do_search_messages_calls w opt messages hsm hnm).1,
   fun j => window_getElem? threads _ _ j,
   fun j => window_getElem? messages _ _ j⟩

/-- C1, at the three sample threads and messages with offset 1 and limit 1:
only the second thread is rendered in thread-id mode, and only the file names
of the second message in file-path mode. -/
theorem C1_rendered_items_are_the_window_witness :
    (do_search_threads (sample_world sample_threads sample_messages (fun _ => none)) 2
        (sample_options true OUTPUT_THREADS 1 1 (-1))).calls
        = [Call.begin_list,
           Call.set_prefix "thread", Call.string (some "t2"), Call.separator,
           Call.end_]
      ∧ (do_search_messages (sample_world sample_threads sample_messages (fun _ => none))
          (sample_options true OUTPUT_FILES 1 1 (-1))).calls
        = [Call.begin_list, Call.string (some "/a/2"), Call.separator, Call.end_] :=
  ⟨(C1_rendered_items_are_the_window
      (sample_world sample_threads sample_messages (fun _ => none)) 2
      (sample_options true OUTPUT_THREADS 1 1 (-1)) sample_threads sample_messages
      rfl rfl (by decide) (by decide) (by decide)).1.trans (by decide),
   (C1_rendered_items_are_the_window
      (sample_world sample_threads sample_messages (fun _ => none)) 2
      (sample_options true OUTPUT_FILES 1 1 (-1)) sample_threads sample_messages
      rfl rfl (by decide) (by decide) (by decide)).2.1.trans (by decide)⟩

/-- C2: when adding the match count to a negative requested offset stays
inside `int`, the offset left in the options by the thread renderer and by the
message renderer is the requested offset when that is not negative and the
larger of zero and count plus offset when it is negative; it is never
negative. -/
theorem C2_resolved_offset (w : Collaborators) (ver : Int) (opt : search_options_t)
    (hnt : opt.offset < 0 →
      isInt32 (opt.offset + (w.notmuch_query_count_threads opt.query : Int)))
    (hnm : opt.offset < 0 →
      isInt32 (opt.offset + (w.notmuch_query_count_messages opt.query : Int))) :
    (do_search_threads w ver opt).opt.offset
        = (if 0 ≤ opt.offset then opt.offset
           else max 0 ((w.notmuch_query_count_threads opt.query : Int) + opt.offset))
      ∧ (do_search_messages w opt).opt.offset
        = (if 0 ≤ opt.offset then opt.offset
           else max 0 ((w.notmuch_query_count_messages opt.query : Int) + opt.offset))
      ∧ 0 ≤ (do_search_threads w ver opt).opt.offset
      ∧ 0 ≤ (do_search_messages w opt).opt.offset := by
  refine ⟨?_, ?_, do_search_threads_offset_nonneg w ver opt,
    do_search_messages_offset_nonneg w opt⟩
  · rw [do_search_threads_offset]
    by_cases h : opt.offset < 0
    · have h0 : ¬ 0 ≤ opt.offset := by omega
      rw [if_pos h, if_neg h0, wrap32_of_isInt32 (hnt h)]
      split <;> omega
    · have h0 : 0 ≤ opt.offset := by omega
      rw [if_neg h, if_pos h0]
  · rw [do_search_messages_offset]
    by_cases h : opt.offset < 0
    · have h0 : ¬ 0 ≤ opt.offset := by omega
      rw [if_pos h, if_neg h0, wrap32_of_isInt32 (hnm h)]
      split <;> omega
    · have h0 : 0 ≤ opt.offset := by omega
      rw [if_neg h, if_pos h0]

/-- C2, at three threads and three messages with requested offset -2: the
resolved offset is 1 in both renderers. -/
theorem C2_resolved_offset_witness :
    (do_search_threads (sample_world sample_threads sample_messages (fun _ => none)) 2
        (sample_options true OUTPUT_THREADS (-2) (-1) (-1))).opt.offset = 1
      ∧ (do_search_messages (sample_world sample_threads sample_messages (fun _ => none))
        (sample_options true OUTPUT_THREADS (-2) (-1) (-1))).opt.offset = 1 :=
  ⟨(C2_resolved_offset (sample_world sample_threads sample_messages (fun _ => none)) 2
      (sample_options true OUTPUT_THREADS (-2) (-1) (-1))
      (fun _ => by decide) (fun _ => by decide)).1.trans (by decide),
   (C2_resolved_offset (sample_world sample_threads sample_messages (fun _ => none)) 2
      (sample_options true OUTPUT_THREADS (-2) (-1) (-1))
      (fun _ => by decide) (fun _ => by decide)).2.1.trans (by decide)⟩

/-- C3 as stated fails when there is no match: with a count of zero the
requested offset -1 resolves to 0, not to the count minus one. -/
theorem C3_counterexample :
    (sample_world [] [] (fun _ => none)).notmuch_query_count_messages sample_query = 0
      ∧ (do_search_messages (sample_world [] [] (fun _ => none))
          (sample_options true OUTPUT_MESSAGES (-1) 1 (-1))).opt.offset = 0
      ∧ (do_search_messages (sample_world [] [] (fun _ => none))
          (sample_options true OUTPUT_MESSAGES (-1) 1 (-1))).opt.offset
        ≠ ((sample_world [] [] (fun _ => none)).notmuch_query_count_messages sample_query : Int)
            - 1 := by
  decide

/-- C3, amended: when the engine sequence is not empty, is counted truthfully
and its length fits an `int`, the requested offset -1 resolves to the count
minus one, and with limit 1 the renderer runs the loop body on the last item
of the sequence and on nothing else; every requested `int` offset below minus
the count resolves to 0. -/
theorem C3_offset_from_the_end (w : Collaborators) (ver : Int) (opt : search_options_t)
    (ts : List notmuch_thread_t) (t : notmuch_thread_t)
    (ms : List notmuch_message_t) (m : notmuch_message_t)
    (hst : w.notmuch_query_search_threads opt.query = some (ts ++ [t]))
    (hsm : w.notmuch_query_search_messages opt.query = some (ms ++ [m]))
    (hct : w.notmuch_query_count_threads opt.query = (ts ++ [t]).length)
    (hcm : w.notmuch_query_count_messages opt.query = (ms ++ [m]).length)
    (hlt : ((ts ++ [t]).length : Int) ≤ INT_MAX)
    (hlm : ((ms ++ [m]).length : Int) ≤ INT_MAX)
    (hok : (do_search_threads_body w ver
      (do_search_threads w ver { opt with offset := -1, limit := 1 }).opt t).2 = false) :
    (do_search_threads w ver { opt with offset := -1 }).opt.offset
        = ((ts ++ [t]).length : Int) - 1
      ∧ (do_search_messages w { opt with offset := -1 }).opt.offset
        = ((ms ++ [m]).length : Int) - 1
      ∧ (do_search_threads w ver { opt with offset := -1, limit := 1 }).calls
        = Call.begin_list ::
            (do_search_threads_body w ver
              (do_search_threads w ver { opt with offset := -1, limit := 1 }).opt t).1
            ++ [Call.end_]
      ∧ (do_search_messages w { opt with offset := -1, limit := 1 }).calls
        = Call.begin_list ::
            do_search_messages_body w
              (do_search_messages w { opt with offset := -1, limit := 1 }).opt m
            ++ [Call.end_]
      ∧ (∀ o : Int, isInt32 o → o < -((ts ++ [t]).length : Int) →
          (do_search_threads w ver { opt with offset := o }).opt.offset = 0)
      ∧ (∀ o : Int, isInt32 o → o < -((ms ++ [m]).length : Int) →
          (do_search_messages w { opt with offset := o }).opt.offset = 0) := by
  have hlt' : (ts.length : Int) + 1 ≤ INT_MAX := by
    simpa using hlt
  have hlm' : (ms.length : Int) + 1 ≤ INT_MAX := by
    simpa using hlm
  have hwt : wrap32 (-1 + ((ts ++ [t]).length : Int)) = (ts.length : Int) := by
    rw [wrap32_of_isInt32]
    · simp
    · unfold isInt32 INT_MIN; unfold INT_MAX at *; simp; omega
  have hwm : wrap32 (-1 + ((ms ++ [m]).length : Int)) = (ms.length : Int) := by
    rw [wrap32_of_isInt32]
    · simp
    · unfold isInt32 INT_MIN; unfold INT_MAX at *; simp; omega
  have hrt : ∀ lim : Int,
      (do_search_threads w ver { opt with offset := -1, limit := lim }).opt.offset
        = (ts.length : Int) := by
    intro lim
    rw [do_search_threads_offset]
    simp only [hct]
    rw [hwt]
    simp
  have hrm : ∀ lim : Int,
      (do_search_messages w { opt with offset := -1, limit := lim }).opt.offset
        = (ms.length : Int) := by
    intro lim
    rw [do_search_messages_offset]
    simp only [hcm]
    rw [hwm]
    simp
  have hwin : ∀ {α : Type} (l : List α) (x : α),
      window (l ++ [x]) (l.length : Int) 1 = [x] := by
    intro α l x
    unfold window
    simp
  refine ⟨?_, ?_, ?_, ?_, ?_, ?_⟩
  · have := hrt opt.limit
    simp only [List.length_append, List.length_singleton]
    push_cast
    rw [this]; omega
  · have := hrm opt.limit
    simp only [List.length_append, List.length_singleton]
    push_cast
    rw [this]; omega
  · have h := do_search_threads_calls w ver { opt with offset := -1, limit := 1 }
      (ts ++ [t]) hst
      (by
        rw [hrt 1]
        unfold no_overflow
        constructor
        · intro _; exact hlt
        · intro _; exact hlt')
      (by
        rw [hrt 1]
        simp only [hwin]
        intro x hx
        rw [List.mem_singleton] at hx
        subst hx
        exact hok)
    rw [h.1, hrt 1]
    simp only [hwin, List.flatMap_singleton]
  · have h := do_search_messages_calls w { opt with offset := -1, limit := 1 }
      (ms ++ [m]) hsm
      (by
        rw [hrm 1]
        unfold no_overflow
        constructor
        · intro _; exact hlm
        · intro _; exact hlm')
    rw [h.1, hrm 1]
    simp only [hwin, List.flatMap_singleton]
  · intro o ho hlt2
    rw [do_search_threads_offset]
    simp only [hct]
    have hneg : o < 0 := by
      have : (0 : Int) ≤ ((ts ++ [t]).length : Int) := Int.ofNat_nonneg _
      omega
    have hw : wrap32 (o + ((ts ++ [t]).length : Int)) = o + ((ts ++ [t]).length : Int) := by
      apply wrap32_of_isInt32
      unfold isInt32 INT_MIN INT_MAX at *
      omega
    rw [if_pos hneg, hw, if_pos (by omega)]
  · intro o ho hlt2
    rw [do_search_messages_offset]
    simp only [hcm]
    have hneg : o < 0 := by
      have : (0 : Int) ≤ ((ms ++ [m]).length : Int) := Int.ofNat_nonneg _
      omega
    have hw : wrap32 (o + ((ms ++ [m]).length : Int)) = o + ((ms ++ [m]).length : Int) := by
      apply wrap32_of_isInt32
      unfold isInt32 INT_MIN INT_MAX at *
      omega
    rw [if_pos hneg, hw, if_pos (by omega)]

/-- C3 amended, at the three sample threads and messages: offset -1 with
limit 1 renders the third thread and the third message only, and the offset
-5 resolves to 0. -/
theorem C3_offset_from_the_end_witness :
    (do_search_threads (sample_world sample_threads sample_messages (fun _ => none)) 2
        (sample_options true OUTPUT_THREADS (-1) 1 (-1))).calls
        = [Call.begin_list,
           Call.set_prefix "thread", Call.string (some "t3"), Call.separator,
           Call.end_]
      ∧ (do_search_messages (sample_world sample_threads sample_messages (fun _ => none))
          (sample_options true OUTPUT_MESSAGES (-1) 1 (-1))).calls
        = [Call.begin_list,
           Call.set_prefix "id", Call.string (some "m3"), Call.separator,
           Call.end_]
      ∧ (do_search_messages (sample_world sample_threads sample_messages (fun _ => none))
          { sample_options true OUTPUT_MESSAGES 0 (-1) (-1) with offset := -5 }).opt.offset
        = 0 :=
  ⟨(C3_offset_from_the_end
      (sample_world sample_threads sample_messages (fun _ => none)) 2
      (sample_options true OUTPUT_THREADS 0 (-1) (-1))
      (sample_threads.take 2) (sample_thread "t3" ["inbox"] [sample_message "m4" true ["/a/4"]])
      (sample_messages.take 2) (sample_message "m3" true ["/a/3", "/b/3", "/c/3"])
      rfl rfl rfl rfl (by decide) (by decide) (by decide)).2.2.1.trans (by decide),
   (C3_offset_from_the_end
      (sample_world sample_threads sample_messages (fun _ => none)) 2
      (sample_options true OUTPUT_MESSAGES 0 (-1) (-1))
      (sample_threads.take 2) (sample_thread "t3" ["inbox"] [sample_message "m4" true ["/a/4"]])
      (sample_messages.take 2) (sample_message "m3" true ["/a/3", "/b/3", "/c/3"])
      rfl rfl rfl rfl (by decide) (by decide) (by decide)).2.2.2.1.trans (by decide),
   (C3_offset_from_the_end
      (sample_world sample_threads sample_messages (fun _ => none)) 2
      (sample_options true OUTPUT_MESSAGES 0 (-1) (-1))
      (sample_threads.take 2) (sample_thread "t3" ["inbox"] [sample_message "m4" true ["/a/4"]])
      (sample_messages.take 2) (sample_message "m3" true ["/a/3", "/b/3", "/c/3"])
      rfl rfl rfl rfl (by decide) (by decide) (by decide)).2.2.2.2.2 (-5)
      (by decide) (by decide)⟩

/-- C4: for a thread all of whose message ids are escaped successfully (and
with string allocation succeeding), `get_thread_query` returns success; the
matched query is the id terms of the matched messages in thread order joined
by single spaces, the unmatched query the same for the unmatched messages; an
output is NULL exactly when its category has no message, and no output is the
empty string. -/
theorem C4_thread_query (w : Collaborators) (thread : notmuch_thread_t)
    (esc : String → String)
    (hesc : ∀ m ∈ thread.messages, w.escape m.message_id = some (esc m.message_id))
    (halloc : ∀ s, w.talloc_ok s = true) :
    get_thread_query w thread
        = some (joined_terms (id_terms esc true thread.messages),
                joined_terms (id_terms esc false thread.messages))
      ∧ (joined_terms (id_terms esc true thread.messages) = none
          ↔ ∀ m ∈ thread.messages, m.flag_match = false)
      ∧ (joined_terms (id_terms esc false thread.messages) = none
          ↔ ∀ m ∈ thread.messages, m.flag_match = true)
      ∧ joined_terms (id_terms esc true thread.messages) ≠ some ""
      ∧ joined_terms (id_terms esc false thread.messages) ≠ some "" := by
  refine ⟨?_, ?_, ?_, joined_id_terms_ne_empty esc true _, joined_id_terms_ne_empty esc false _⟩
  · unfold get_thread_query
    rw [get_thread_query_loop_eq w esc halloc _ _ _ hesc, extend_joined_none,
      extend_joined_none]
  · rw [joined_terms_eq_none]
    simp [id_terms]
  · rw [joined_terms_eq_none]
    simp [id_terms]

/-- C4, at a thread of three messages of which the first and the third are
matched. -/
theorem C4_thread_query_witness :
    get_thread_query (sample_world sample_threads sample_messages (fun _ => none))
        (sample_thread "t1" ["inbox", "work"] sample_messages)
      = some (some "id:m1 id:m3", some "id:m2") :=
  (C4_thread_query (sample_world sample_threads sample_messages (fun _ => none))
    (sample_thread "t1" ["inbox", "work"] sample_messages) (fun s => s)
    (fun _ _ => rfl) (fun _ => rfl)).1.trans (by decide)

/-- C5 as stated fails for a negative selector other than -1: the command run
with file-path output and the selector -2 is not rejected and emits the only
path of the only message, although the selector is neither -1 nor 1. -/
theorem C5_counterexample :
    notmuch_search_command
        (sample_world [] [sample_message "m2" false ["/a/2"]] (fun _ => none))
        (sample_arguments OUTPUT_FILES 0 (-1) (-2))
      = { engine := ["notmuch_database_open", "notmuch_query_create",
                     "notmuch_query_set_sort", "notmuch_query_set_omit_excluded",
                     "notmuch_query_destroy", "notmuch_database_destroy"],
          calls := [Call.begin_list, Call.string (some "/a/2"), Call.separator, Call.end_],
          status := EXIT_SUCCESS }
      ∧ (sample_arguments OUTPUT_FILES 0 (-1) (-2)).dupe ≠ -1
      ∧ (sample_arguments OUTPUT_FILES 0 (-1) (-2)).dupe ≠ 1 := by
  decide

/-- C5, amended: in file-path mode, for every duplicate selector, the records
emitted for the messages of the window are, message after message, the paths
`p_j` (numbered from one) of the message for which the selector is negative
or equal to `j`, each followed by a separator call; the path numbering stays
inside `int` when the selector is not negative. -/
theorem C5_file_path_selection (w : Collaborators) (opt : search_options_t)
    (messages : List notmuch_message_t)
    (hout : opt.output = OUTPUT_FILES)
    (hs : w.notmuch_query_search_messages opt.query = some messages)
    (hno : no_overflow (do_search_messages w opt).opt.offset opt.limit messages.length)
    (hlen : 0 ≤ opt.dupe → ∀ m ∈ messages, (m.filenames.length : Int) < INT_MAX) :
    (do_search_messages w opt).calls
      = Call.begin_list ::
          (window messages (do_search_messages w opt).opt.offset opt.limit).flatMap
            (fun m => string_records
              (((List.enumFrom 1 m.filenames).filter
                (fun p => decide (opt.dupe < 0 ∨ opt.dupe = (p.1 : Int)))).map Prod.snd))
          ++ [Call.end_] := by
  rw [(do_search_messages_calls w opt messages hs hno).1]
  congr 2
  apply List.flatMap_congr
  intro m hm
  rw [do_search_messages_body_files w _ m
    (by rw [do_search_messages_opt_output]; exact hout)
    (by
      rw [do_search_messages_opt_dupe]
      intro h0
      exact hlen h0 m (mem_of_mem_window hm)),
    do_search_messages_opt_dupe]
  rfl

/-- C5 amended, at the three sample messages: the selector -2 selects every
path, the selector 2 the second path of the messages that have one. -/
theorem C5_file_path_selection_witness :
    (do_search_messages (sample_world sample_threads sample_messages (fun _ => none))
        (sample_options true OUTPUT_FILES 0 (-1) (-2))).calls
        = [Call.begin_list,
           Call.string (some "/a/1"), Call.separator,
           Call.string (some "/b/1"), Call.separator,
           Call.string (some "/a/2"), Call.separator,
           Call.string (some "/a/3"), Call.separator,
           Call.string (some "/b/3"), Call.separator,
           Call.string (some "/c/3"), Call.separator,
           Call.end_]
      ∧ (do_search_messages (sample_world sample_threads sample_messages (fun _ => none))
          (sample_options true OUTPUT_FILES 0 (-1) 2)).calls
        = [Call.begin_list,
           Call.string (some "/b/1"), Call.separator,
           Call.string (some "/b/3"), Call.separator,
           Call.end_] :=
  ⟨(C5_file_path_selection (sample_world sample_threads sample_messages (fun _ => none))
      (sample_options true OUTPUT_FILES 0 (-1) (-2)) sample_messages
      rfl rfl (by decide) (by decide)).trans (by decide),
   (C5_file_path_selection (sample_world sample_threads sample_messages (fun _ => none))
      (sample_options true OUTPUT_FILES 0 (-1) 2) sample_messages
      rfl rfl (by decide) (by decide)).trans (by decide)⟩

/-- C6: in file-path mode with a selector `k` of at least one, every message
of the window contributes the record of its `k`-th path (numbered from one,
in engine order) when it has at least `k` paths and nothing otherwise, so at
most one record per message. -/
theorem C6_kth_copy (w : Collaborators) (opt : search_options_t)
    (messages : List notmuch_message_t)
    (hout : opt.output = OUTPUT_FILES)
    (hk : 1 ≤ opt.dupe)
    (hs : w.notmuch_query_search_messages opt.query = some messages)
    (hno : no_overflow (do_search_messages w opt).opt.offset opt.limit messages.length)
    (hlen : ∀ m ∈ messages, (m.filenames.length : Int) < INT_MAX) :
    (do_search_messages w opt).calls
        = Call.begin_list ::
            (window messages (do_search_messages w opt).opt.offset opt.limit).flatMap
              (fun m =>
                match m.filenames[(opt.dupe - 1).toNat]? with
                | some p => [Call.string (some p), Call.separator]
                | none => [])
            ++ [Call.end_]
      ∧ (∀ m : notmuch_message_t, opt.dupe ≤ (m.filenames.length : Int) →
          ∃ p, m.filenames[(opt.dupe - 1).toNat]? = some p)
      ∧ (∀ m : notmuch_message_t, (m.filenames.length : Int) < opt.dupe →
          m.filenames[(opt.dupe - 1).toNat]? = none) := by
  refine ⟨?_, ?_, ?_⟩
  · rw [(do_search_messages_calls w opt messages hs hno).1]
    congr 2
    apply List.flatMap_congr
    intro m hm
    rw [do_search_messages_body_files w _ m
      (by rw [do_search_messages_opt_output]; exact hout)
      (by
        rw [do_search_messages_opt_dupe]
        intro _
        exact hlen m (mem_of_mem_window hm)),
      do_search_messages_opt_dupe, selected_paths_of_pos _ _ hk]
    cases m.filenames[(opt.dupe - 1).toNat]? <;> simp [string_records]
  · intro m hm
    have hlt : (opt.dupe - 1).toNat < m.filenames.length := by omega
    exact ⟨m.filenames[(opt.dupe - 1).toNat], List.getElem?_eq_getElem hlt⟩
  · intro m hm
    apply List.getElem?_eq_none
    omega

/-- C6, at a message with three paths and the selector 2: exactly the second
path is emitted; with the selector 4 nothing is. -/
theorem C6_kth_copy_witness :
    (do_search_messages
        (sample_world [] [sample_message "m3" true ["/a/3", "/b/3", "/c/3"]] (fun _ => none))
        (sample_options true OUTPUT_FILES 0 (-1) 2)).calls
        = [Call.begin_list, Call.string (some "/b/3"), Call.separator, Call.end_]
      ∧ (do_search_messages
          (sample_world [] [sample_message "m3" true ["/a/3", "/b/3", "/c/3"]] (fun _ => none))
          (sample_options true OUTPUT_FILES 0 (-1) 4)).calls
        = [Call.begin_list, Call.end_] :=
  ⟨(C6_kth_copy
      (sample_world [] [sample_message "m3" true ["/a/3", "/b/3", "/c/3"]] (fun _ => none))
      (sample_options true OUTPUT_FILES 0 (-1) 2)
      [sample_message "m3" true ["/a/3", "/b/3", "/c/3"]]
      rfl (by decide) rfl (by decide) (by decide)).1.trans (by decide),
   (C6_kth_copy
      (sample_world [] [sample_message "m3" true ["/a/3", "/b/3", "/c/3"]] (fun _ => none))
      (sample_options true OUTPUT_FILES 0 (-1) 4)
      [sample_message "m3" true ["/a/3", "/b/3", "/c/3"]]
      rfl (by decide) rfl (by decide) (by decide)).1.trans (by decide)⟩

/-- C7: in message-id mode the emitted records are, in order and once each,
the ids of the messages of the window for which the selector is at most one
or at most the number of file paths of the message; the count made by
`_count_filenames` is the length of the file-path sequence (for sequences
whose length fits an `int`). -/
theorem C7_message_id_filter (w : Collaborators) (opt : search_options_t)
    (messages : List notmuch_message_t)
    (hout : opt.output = OUTPUT_MESSAGES)
    (hs : w.notmuch_query_search_messages opt.query = some messages)
    (hno : no_overflow (do_search_messages w opt).opt.offset opt.limit messages.length)
    (hlen : ∀ m ∈ messages, (m.filenames.length : Int) ≤ INT_MAX) :
    (do_search_messages w opt).calls
        = Call.begin_list ::
            ((window messages (do_search_messages w opt).opt.offset opt.limit).filter
              (fun m => decide (opt.dupe ≤ 1 ∨ opt.dupe ≤ (m.filenames.length : Int)))).flatMap
              (fun m =>
                [ Call.set_prefix "id", Call.string (some m.message_id), Call.separator])
            ++ [Call.end_]
      ∧ (∀ m ∈ messages, _count_filenames m = (m.filenames.length : Int)) := by
  refine ⟨?_, fun m hm => _count_filenames_eq m (hlen m hm)⟩
  rw [(do_search_messages_calls w opt messages hs hno).1]
  congr 2
  rw [← flatMap_if_eq_filter
    (fun m : notmuch_message_t => opt.dupe ≤ 1 ∨ opt.dupe ≤ (m.filenames.length : Int))]
  apply List.flatMap_congr
  intro m hm
  rw [do_search_messages_body_messages w _ m
    (by rw [do_search_messages_opt_output]; exact hout)
    (fun _ => hlen m (mem_of_mem_window hm)),
    do_search_messages_opt_dupe]
  simp [id_records]

/-- C7, at the three sample messages with the selector 2: the message with
one file path is left out, the messages with two and three are emitted
once. -/
theorem C7_message_id_filter_witness :
    (do_search_messages (sample_world sample_threads sample_messages (fun _ => none))
        (sample_options true OUTPUT_MESSAGES 0 (-1) 2)).calls
      = [Call.begin_list,
         Call.set_prefix "id", Call.string (some "m1"), Call.separator,
         Call.set_prefix "id", Call.string (some "m3"), Call.separator,
         Call.end_] :=
  (C7_message_id_filter (sample_world sample_threads sample_messages (fun _ => none))
    (sample_options true OUTPUT_MESSAGES 0 (-1) 2) sample_messages
    rfl rfl (by decide) (by decide)).1.trans (by decide)

/-- C8: in file-path mode with the selector unset (-1), offset 0 and no
limit, the emitted records are the file paths of all messages, in message
order then path order, each followed by one separator call; the number of
separator calls is the sum of the file-path counts of the messages. -/
theorem C8_all_paths (w : Collaborators) (opt : search_options_t)
    (messages : List notmuch_message_t)
    (hout : opt.output = OUTPUT_FILES) (hdupe : opt.dupe = -1)
    (hoff : opt.offset = 0) (hlim : opt.limit = -1)
    (hs : w.notmuch_query_search_messages opt.query = some messages)
    (hlen : (messages.length : Int) ≤ INT_MAX) :
    (do_search_messages w opt).calls
        = Call.begin_list ::
            (messages.flatMap (fun m => m.filenames)).flatMap
              (fun p => [Call.string (some p), Call.separator])
            ++ [Call.end_]
      ∧ List.count Call.separator (do_search_messages w opt).calls
        = (messages.map (fun m => m.filenames.length)).sum
      ∧ (do_search_messages w opt).ret = 0 := by
  have hr : (do_search_messages w opt).opt.offset = 0 := by
    rw [do_search_messages_offset, hoff]; simp
  have hno : no_overflow (do_search_messages w opt).opt.offset opt.limit messages.length := by
    rw [hr, hlim]
    exact ⟨fun _ => hlen, fun h => absurd h (by decide)⟩
  have hcalls : (do_search_messages w opt).calls
      = Call.begin_list :: string_records (messages.flatMap (fun m => m.filenames))
          ++ [Call.end_] := by
    rw [(do_search_messages_calls w opt messages hs hno).1, hr, hlim]
    have hw : window messages 0 (-1) = messages := by simp [window]
    rw [hw]
    congr 2
    unfold string_records
    rw [List.flatMap_assoc]
    apply List.flatMap_congr
    intro m _
    rw [do_search_messages_body_files w _ m
      (by rw [do_search_messages_opt_output]; exact hout)
      (by
        rw [do_search_messages_opt_dupe, hdupe]
        intro h; exact absurd h (by decide)),
      do_search_messages_opt_dupe, hdupe, selected_paths_of_neg _ _ (by decide)]
    rfl
  refine ⟨hcalls, ?_, (do_search_messages_calls w opt messages hs hno).2⟩
  rw [hcalls, List.count_append, List.count_cons, count_separator_string_records,
    List.length_flatMap]
  simp [Function.comp_def]

/-- C8, at two messages with two paths and one path: three records. -/
theorem C8_all_paths_witness :
    (do_search_messages
        (sample_world []
          [sample_message "m1" true ["/a/1", "/b/1"], sample_message "m2" false ["/a/2"]]
          (fun _ => none))
        (sample_options true OUTPUT_FILES 0 (-1) (-1))).calls
        = [Call.begin_list,
           Call.string (some "/a/1"), Call.separator,
           Call.string (some "/b/1"), Call.separator,
           Call.string (some "/a/2"), Call.separator,
           Call.end_]
      ∧ List.count Call.separator
          (do_search_messages
            (sample_world []
              [sample_message "m1" true ["/a/1", "/b/1"], sample_message "m2" false ["/a/2"]]
              (fun _ => none))
            (sample_options true OUTPUT_FILES 0 (-1) (-1))).calls = 3 :=
  ⟨(C8_all_paths
      (sample_world []
        [sample_message "m1" true ["/a/1", "/b/1"], sample_message "m2" false ["/a/2"]]
        (fun _ => none))
      (sample_options true OUTPUT_FILES 0 (-1) (-1))
      [sample_message "m1" true ["/a/1", "/b/1"], sample_message "m2" false ["/a/2"]]
      rfl rfl rfl rfl rfl (by decide)).1.trans (by decide),
   (C8_all_paths
      (sample_world []
        [sample_message "m1" true ["/a/1", "/b/1"], sample_message "m2" false ["/a/2"]]
        (fun _ => none))
      (sample_options true OUTPUT_FILES 0 (-1) (-1))
      [sample_message "m1" true ["/a/1", "/b/1"], sample_message "m2" false ["/a/2"]]
      rfl rfl rfl rfl rfl (by decide)).2.1.trans (by decide)⟩

/-- C9: `process_address_list` is a total function of the address list; its
calls are the emissions of the mailbox leaves of the list, depth first and
from left to right, one emission (with one separator call) per leaf; a group
emits nothing for itself, and a group without members or with an empty member
list contributes nothing, so that an empty group followed by a group of two
mailboxes gives exactly the two emissions of these mailboxes. -/
theorem C9_address_flattening (w : Collaborators) (opt : search_options_t)
    (list : List InternetAddress) :
    process_address_list w opt list
        = (mailboxes_of_list list).flatMap (print_mailbox w opt)
      ∧ List.count Call.separator (process_address_list w opt list)
        = (mailboxes_of_list list).length
      ∧ (∀ (name : Option String) (rest : List InternetAddress),
          process_address_list w opt (InternetAddress.group name none :: rest)
            = process_address_list w opt rest
          ∧ process_address_list w opt (InternetAddress.group name (some []) :: rest)
            = process_address_list w opt rest)
      ∧ (∀ (g1 g2 n1 n2 : Option String) (a1 a2 : String),
          process_address_list w opt
              [InternetAddress.group g1 (some []),
               InternetAddress.group g2
                 (some [InternetAddress.mailbox n1 a1, InternetAddress.mailbox n2 a2])]
            = print_mailbox w opt { name := n1, addr := a1 }
                ++ print_mailbox w opt { name := n2, addr := a2 }) := by
  refine ⟨process_address_list_eq w opt list, ?_, ?_, ?_⟩
  · rw [process_address_list_eq, count_separator_mailboxes]
  · intro name rest
    simp [process_address_list, process_address_list_entry]
  · intro g1 g2 n1 n2 a1 a2
    simp [process_address_list, process_address_list_entry]

/-- C10: in address-extraction mode, for every non-empty choice of the sender
and recipients flags, the calls of the message renderer are the emissions of
the mailbox leaves of the headers of the messages of the window, message
after message: those of `from` when sender is set, then those of `to`, `cc`
and `bcc` in that order when recipients is set; a header that is missing or
cannot be parsed contributes nothing, the renderer returns success, and every
leaf is emitted (the number of separator calls is the number of leaves). -/
theorem C10_address_extraction (w : Collaborators) (opt : search_options_t)
    (messages : List notmuch_message_t) (sender recipients : Bool)
    (hne : sender = true ∨ recipients = true)
    (hout : opt.output = address_output sender recipients)
    (hs : w.notmuch_query_search_messages opt.query = some messages)
    (hno : no_overflow (do_search_messages w opt).opt.offset opt.limit messages.length) :
    (do_search_messages w opt).calls
        = Call.begin_list ::
            ((window messages (do_search_messages w opt).opt.offset opt.limit).flatMap
              (fun m =>
                (if sender then header_mailboxes w m "from" else [])
                  ++ (if recipients then
                        header_mailboxes w m "to" ++ header_mailboxes w m "cc"
                          ++ header_mailboxes w m "bcc"
                      else []))).flatMap (print_mailbox w opt)
            ++ [Call.end_]
      ∧ (do_search_messages w opt).ret = 0
      ∧ List.count Call.separator (do_search_messages w opt).calls
        = ((window messages (do_search_messages w opt).opt.offset opt.limit).flatMap
            (address_mailboxes w sender recipients)).length
      ∧ (∀ (m : notmuch_message_t) (hdr : String),
          m.header hdr = none → header_mailboxes w m hdr = [])
      ∧ (∀ (m : notmuch_message_t) (hdr v : String),
          m.header hdr = some v → w.internet_address_list_parse_string v = none →
            header_mailboxes w m hdr = []) := by
  have hcalls : (do_search_messages w opt).calls
      = Call.begin_list ::
          ((window messages (do_search_messages w opt).opt.offset opt.limit).flatMap
            (address_mailboxes w sender recipients)).flatMap (print_mailbox w opt)
          ++ [Call.end_] := by
    rw [(do_search_messages_calls w opt messages hs hno).1]
    congr 2
    rw [List.flatMap_assoc]
    apply List.flatMap_congr
    intro m _
    rw [do_search_messages_body_addresses w _ m sender recipients hne
      (by rw [do_search_messages_opt_output]; exact hout)]
    apply List.flatMap_congr
    intro mb _
    exact print_mailbox_congr w _ _ (do_search_messages_opt_format w opt) mb
  refine ⟨hcalls, (do_search_messages_calls w opt messages hs hno).2, ?_, ?_, ?_⟩
  · rw [hcalls, List.count_append, List.count_cons, count_separator_mailboxes]
    simp
  · intro m hdr h
    simp [header_mailboxes, h]
  · intro m hdr v h hp
    simp [header_mailboxes, h, hp]

/-- C10, at two messages, the first with a sender and two recipient headers
(one of which names an empty group and a group of two), the second with a
sender and an unparseable `to` header: sender and recipients together give
five emissions, the sender Ann twice. -/
theorem C10_address_extraction_witness :
    (do_search_messages
        (sample_world []
          [sample_message_with_headers "m1" [("from", "ann"), ("to", "team"), ("bcc", "bob")],
           sample_message_with_headers "m2" [("from", "ann"), ("to", "???")]]
          sample_parse)
        (sample_options true (address_output true true) 0 (-1) (-1))).calls
      = [Call.begin_list,
         Call.string (some "Ann <ann@example.org>"), Call.separator,
         Call.string (some "Ann <ann@example.org>"), Call.separator,
         Call.string (some "bob@example.org"), Call.separator,
         Call.string (some "bob@example.org"), Call.separator,
         Call.string (some "Ann <ann@example.org>"), Call.separator,
         Call.end_] :=
  (C10_address_extraction
    (sample_world []
      [sample_message_with_headers "m1" [("from", "ann"), ("to", "team"), ("bcc", "bob")],
       sample_message_with_headers "m2" [("from", "ann"), ("to", "???")]]
      sample_parse)
    (sample_options true (address_output true true) 0 (-1) (-1))
    [sample_message_with_headers "m1" [("from", "ann"), ("to", "team"), ("bcc", "bob")],
     sample_message_with_headers "m2" [("from", "ann"), ("to", "???")]]
    true true (Or.inl rfl) rfl rfl (by decide)).1.trans (by decide)

/-- C9, at the sample address list (an empty group, then a group of two
mailboxes) with a structured printer: exactly the two mailboxes are emitted,
in order. -/
theorem C9_address_flattening_witness :
    process_address_list (sample_world [] [] sample_parse)
        (sample_options false OUTPUT_SENDER 0 (-1) (-1)) sample_address_list
        = [Call.begin_map,
           Call.map_key "name", Call.string (some "Ann"),
           Call.map_key "address", Call.string (some "ann@example.org"),
           Call.map_key "name-addr", Call.string (some "Ann <ann@example.org>"),
           Call.end_, Call.separator,
           Call.begin_map,
           Call.map_key "name", Call.string none,
           Call.map_key "address", Call.string (some "bob@example.org"),
           Call.map_key "name-addr", Call.string (some "bob@example.org"),
           Call.end_, Call.separator]
      ∧ List.count Call.separator
          (process_address_list (sample_world [] [] sample_parse)
            (sample_options false OUTPUT_SENDER 0 (-1) (-1)) sample_address_list) = 2 :=
  ⟨(C9_address_flattening (sample_world [] [] sample_parse)
      (sample_options false OUTPUT_SENDER 0 (-1) (-1)) sample_address_list).1.trans
      (by decide),
   (C9_address_flattening (sample_world [] [] sample_parse)
      (sample_options false OUTPUT_SENDER 0 (-1) (-1)) sample_address_list).2.1.trans
      (by decide)⟩

/-- C11: when the duplicate selector is set (not -1) and the output mode,
an empty selection being defaulted to summary, is neither exactly file-path
nor exactly message-id, the command returns failure without any operation on
the mail index and without any printer call (when the arguments were parsed
its only action is the error message); when the output mode is exactly
file-path or exactly message-id, no value of the selector is rejected: once
the engine is ready the run is that of the message renderer. -/
theorem C11_duplicate_validation (w : Collaborators) (args : search_arguments) :
    (args.dupe ≠ -1 → effective_output args ≠ OUTPUT_FILES →
        effective_output args ≠ OUTPUT_MESSAGES →
        (notmuch_search_command w args).status = EXIT_FAILURE
          ∧ (notmuch_search_command w args).engine = []
          ∧ (∀ c ∈ (notmuch_search_command w args).calls, is_printer_call c = false)
          ∧ (0 ≤ args.opt_index →
              notmuch_search_command w args = rejected
                "Error: --duplicate=N is only supported with --output=files and --output=messages.\n"))
      ∧ (∀ query_str : String, engine_ready w args query_str →
          effective_output args = OUTPUT_FILES ∨ effective_output args = OUTPUT_MESSAGES →
          notmuch_search_command w args
            = { engine := command_engine w args,
                calls := command_warning args ++
                  (do_search_messages w (command_options w args query_str)).calls,
                status := exit_status
                  (do_search_messages w (command_options w args query_str)).ret }) := by
  constructor
  · intro hd hf hm
    have hcheck : effective_output args ≠ OUTPUT_FILES ∧ effective_output args ≠ OUTPUT_MESSAGES
        ∧ args.dupe ≠ -1 := ⟨hf, hm, hd⟩
    unfold effective_output at hcheck
    by_cases hp : args.opt_index < 0
    · have hres : notmuch_search_command w args
          = { engine := [], calls := [], status := EXIT_FAILURE } := by
        unfold notmuch_search_command
        rw [if_pos hp]
      rw [hres]
      refine ⟨rfl, rfl, ?_, fun h => absurd hp (by omega)⟩
      intro c hc
      simp at hc
    · have hres : notmuch_search_command w args = rejected
          "Error: --duplicate=N is only supported with --output=files and --output=messages.\n" := by
        unfold notmuch_search_command
        rw [if_neg hp]
        simp only []
        rw [if_pos hcheck]
        rfl
      rw [hres]
      refine ⟨rfl, rfl, ?_, fun _ => rfl⟩
      intro c hc
      simp only [rejected, List.mem_singleton] at hc
      rw [hc]
      rfl
  · intro query_str hready hout
    have hlt : effective_output args < 128 := by
      rcases hout with h | h <;> (rw [h]; decide)
    have hmo : message_output (effective_output args) := by
      unfold message_output
      rcases hout with h | h
      · exact Or.inr (Or.inl h)
      · exact Or.inl h
    rw [notmuch_search_command_ready w args query_str hready
      (by
        intro h
        rcases hout with h' | h'
        · exact h.1 h'
        · exact h.2.1 h')
      (by
        intro h
        rcases hout with h' | h' <;> (rw [h'] at h; exact absurd h.2 (by decide)))]
    exact (notmuch_search_command_dispatch_cases w args query_str hlt).2.1 hmo

/-- C11, at summary output with the selector 1 (rejected without any printer
call) and at file-path output with the selector 7 (not rejected: the message
renderer runs and finds no seventh path). -/
theorem C11_duplicate_validation_witness :
    notmuch_search_command (sample_world sample_threads sample_messages (fun _ => none))
        (sample_arguments OUTPUT_SUMMARY 0 (-1) 1)
      = { engine := [],
          calls := [Call.stderr
            "Error: --duplicate=N is only supported with --output=files and --output=messages.\n"],
          status := EXIT_FAILURE }
      ∧ notmuch_search_command (sample_world sample_threads sample_messages (fun _ => none))
          (sample_arguments OUTPUT_FILES 0 (-1) 7)
        = { engine := ["notmuch_database_open", "notmuch_query_create",
                       "notmuch_query_set_sort", "notmuch_query_set_omit_excluded",
                       "notmuch_query_destroy", "notmuch_database_destroy"],
            calls := [Call.begin_list, Call.end_],
            status := EXIT_SUCCESS } :=
  ⟨((C11_duplicate_validation (sample_world sample_threads sample_messages (fun _ => none))
      (sample_arguments OUTPUT_SUMMARY 0 (-1) 1)).1
      (by decide) (by decide) (by decide)).2.2.2 (by decide),
   ((C11_duplicate_validation (sample_world sample_threads sample_messages (fun _ => none))
      (sample_arguments OUTPUT_FILES 0 (-1) 7)).2 "tag:inbox"
      ⟨by decide, rfl, rfl, rfl, by decide, rfl⟩ (Or.inl rfl)).trans (by decide)⟩

/-- C12: for a run whose arguments were parsed, whose selector is unset, whose
format is accepted and whose engine is ready, and for every non-empty set of
output flags: summary and threads alone go to the thread renderer; messages
and files alone, and the non-empty subsets of sender and recipients, go to the
message renderer; tags alone goes to the tag collector; every other set makes
the command fail with an error message and without any printer call. -/
theorem C12_dispatch (w : Collaborators) (args : search_arguments) (query_str : String)
    (hready : engine_ready w args query_str)
    (hdupe : args.dupe = -1)
    (hfmt : ¬ (args.format_sel = format_sel_t.NOTMUCH_FORMAT_TEXT0
      ∧ args.output = OUTPUT_SUMMARY))
    (hne : args.output ≠ 0) (hlt : args.output < 128) :
    (thread_output args.output →
      notmuch_search_command w args
        = { engine := command_engine w args,
            calls := command_warning args ++
              (do_search_threads w args.notmuch_format_version
                (command_options w args query_str)).calls,
            status := exit_status
              (do_search_threads w args.notmuch_format_version
                (command_options w args query_str)).ret })
    ∧ (message_output args.output →
      notmuch_search_command w args
        = { engine := command_engine w args,
            calls := command_warning args ++
              (do_search_messages w (command_options w args query_str)).calls,
            status := exit_status
              (do_search_messages w (command_options w args query_str)).ret })
    ∧ (args.output = OUTPUT_TAGS →
      notmuch_search_command w args
        = { engine := command_engine w args,
            calls := command_warning args ++
              (do_search_tags w (command_options w args query_str)).1,
            status := exit_status (do_search_tags w (command_options w args query_str)).2 })
    ∧ (¬ thread_output args.output → ¬ message_output args.output →
        args.output ≠ OUTPUT_TAGS →
      notmuch_search_command w args
          = { engine := command_engine w args,
              calls := command_warning args ++
                [Call.stderr "Error: the combination of outputs is not supported.\n"],
              status := EXIT_FAILURE }
        ∧ ∀ c ∈ (notmuch_search_command w args).calls, is_printer_call c = false) := by
  have he := effective_output_of_ne_zero args hne
  have hcmd := notmuch_search_command_ready w args query_str hready
    (by intro h; exact h.2.2 hdupe) (by rw [he]; exact hfmt)
  have hcases := notmuch_search_command_dispatch_cases w args query_str (by rw [he]; exact hlt)
  rw [hcmd, ← he]
  refine ⟨hcases.1, hcases.2.1, hcases.2.2.1, ?_⟩
  intro h1 h2 h3
  have hres := hcases.2.2.2 h1 h2 h3
  refine ⟨hres, ?_⟩
  rw [hres]
  intro c hc
  simp only [command_warning, List.mem_append, List.mem_singleton] at hc
  rcases hc with hc | hc
  · split at hc
    · rw [List.mem_singleton] at hc; rw [hc]; rfl
    · simp at hc
  · rw [hc]; rfl

/-- C12, at the three sample threads: thread-id output alone reaches the
thread renderer, summary and threads together make the command fail with the
error message only. -/
theorem C12_dispatch_witness :
    notmuch_search_command (sample_world sample_threads sample_messages (fun _ => none))
        (sample_arguments OUTPUT_THREADS 2 (-1) (-1))
      = { engine := ["notmuch_database_open", "notmuch_query_create",
                     "notmuch_query_set_sort", "notmuch_query_set_omit_excluded",
                     "notmuch_query_destroy", "notmuch_database_destroy"],
          calls := [Call.begin_list,
                    Call.set_prefix "thread", Call.string (some "t3"), Call.separator,
                    Call.end_],
          status := EXIT_SUCCESS }
      ∧ notmuch_search_command (sample_world sample_threads sample_messages (fun _ => none))
          (sample_arguments (OUTPUT_SUMMARY ||| OUTPUT_THREADS) 0 (-1) (-1))
        = { engine := ["notmuch_database_open", "notmuch_query_create",
                       "notmuch_query_set_sort", "notmuch_query_set_omit_excluded",
                       "notmuch_query_destroy", "notmuch_database_destroy"],
            calls := [Call.stderr "Error: the combination of outputs is not supported.\n"],
            status := EXIT_FAILURE } :=
  ⟨((C12_dispatch (sample_world sample_threads sample_messages (fun _ => none))
      (sample_arguments OUTPUT_THREADS 2 (-1) (-1)) "tag:inbox"
      ⟨by decide, rfl, rfl, rfl, by decide, rfl⟩ rfl (by decide) (by decide) (by decide)).1
      (Or.inr rfl)).trans (by decide),
   (((C12_dispatch (sample_world sample_threads sample_messages (fun _ => none))
      (sample_arguments (OUTPUT_SUMMARY ||| OUTPUT_THREADS) 0 (-1) (-1)) "tag:inbox"
      ⟨by decide, rfl, rfl, rfl, by decide, rfl⟩ rfl (by decide) (by decide)
      (by decide)).2.2.2
      (by unfold thread_output; decide) (by unfold message_output; decide)
      (by decide)).1).trans (by decide)⟩

/-- C13 as stated fails for an incompatible combination of output modes: with
summary and threads selected together the command fails only after it has
opened the database, created the query and configured it. -/
theorem C13_counterexample :
    (notmuch_search_command (sample_world sample_threads sample_messages (fun _ => none))
        (sample_arguments (OUTPUT_SUMMARY ||| OUTPUT_THREADS) 0 (-1) (-1))).status
        = EXIT_FAILURE
      ∧ (notmuch_search_command (sample_world sample_threads sample_messages (fun _ => none))
          (sample_arguments (OUTPUT_SUMMARY ||| OUTPUT_THREADS) 0 (-1) (-1))).engine
        = ["notmuch_database_open", "notmuch_query_create",
           "notmuch_query_set_sort", "notmuch_query_set_omit_excluded",
           "notmuch_query_destroy", "notmuch_database_destroy"]
      ∧ (notmuch_search_command (sample_world sample_threads sample_messages (fun _ => none))
          (sample_arguments (OUTPUT_SUMMARY ||| OUTPUT_THREADS) 0 (-1) (-1))).engine ≠ [] := by
  decide

/-- C13, amended: for parsed arguments, a selector set outside file-path and
message-id mode, and the null-delimited text format with summary output, make
the command fail before any operation on the mail index, its only action
being the error message; an incompatible combination of output modes (with
the selector unset, an accepted format and the engine ready) makes it fail
with the error message as its only action besides the exclude warning, no
renderer being run, but after the database was opened and the query created
and configured. -/
theorem C13_configuration_errors (w : Collaborators) (args : search_arguments)
    (hparsed : 0 ≤ args.opt_index) :
    (effective_output args ≠ OUTPUT_FILES ∧ effective_output args ≠ OUTPUT_MESSAGES
        ∧ args.dupe ≠ -1 →
      notmuch_search_command w args = rejected
        "Error: --duplicate=N is only supported with --output=files and --output=messages.\n")
    ∧ (args.dupe = -1 → args.format_sel = format_sel_t.NOTMUCH_FORMAT_TEXT0 →
        effective_output args = OUTPUT_SUMMARY →
      notmuch_search_command w args = rejected
        "Error: --format=text0 is not compatible with --output=summary.\n")
    ∧ (∀ query_str : String, engine_ready w args query_str → args.dupe = -1 →
        args.output ≠ 0 → args.output < 128 →
        ¬ thread_output args.output → ¬ message_output args.output →
        args.output ≠ OUTPUT_TAGS →
      notmuch_search_command w args
        = { engine := command_engine w args,
            calls := command_warning args ++
              [Call.stderr "Error: the combination of outputs is not supported.\n"],
            status := EXIT_FAILURE }) := by
  have hp : ¬ args.opt_index < 0 := by omega
  refine ⟨?_, ?_, ?_⟩
  · intro hcheck
    unfold effective_output at hcheck
    unfold notmuch_search_command
    rw [if_neg hp]
    simp only []
    rw [if_pos hcheck]
    rfl
  · intro hd hf ho
    unfold effective_output at ho
    unfold notmuch_search_command
    rw [if_neg hp]
    simp only []
    rw [if_neg (fun h => h.2.2 hd), if_pos ⟨hf, ho⟩]
    rfl
  · intro query_str hready hd hne hlt h1 h2 h3
    have he := effective_output_of_ne_zero args hne
    have hnosum : args.output ≠ OUTPUT_SUMMARY := fun h => h1 (Or.inl h)
    rw [notmuch_search_command_ready w args query_str hready
      (by intro h; exact h.2.2 hd) (by rw [he]; exact fun h => hnosum h.2)]
    have hcases := notmuch_search_command_dispatch_cases w args query_str
      (by rw [he]; exact hlt)
    exact hcases.2.2.2 (by rw [he]; exact h1) (by rw [he]; exact h2) (by rw [he]; exact h3)

/-- C13 amended, at three runs: the selector 1 with summary output, the
null-delimited text format with summary output, and summary and threads
selected together. -/
theorem C13_configuration_errors_witness :
    notmuch_search_command (sample_world sample_threads sample_messages (fun _ => none))
        (sample_arguments OUTPUT_SUMMARY 0 (-1) 1)
      = { engine := [],
          calls := [Call.stderr
            "Error: --duplicate=N is only supported with --output=files and --output=messages.\n"],
          status := EXIT_FAILURE }
      ∧ notmuch_search_command (sample_world sample_threads sample_messages (fun _ => none))
          { sample_arguments 0 0 (-1) (-1) with
            format_sel := format_sel_t.NOTMUCH_FORMAT_TEXT0 }
        = { engine := [],
            calls := [Call.stderr
              "Error: --format=text0 is not compatible with --output=summary.\n"],
            status := EXIT_FAILURE }
      ∧ notmuch_search_command (sample_world sample_threads sample_messages (fun _ => none))
          (sample_arguments (OUTPUT_SUMMARY ||| OUTPUT_THREADS) 0 (-1) (-1))
        = { engine := ["notmuch_database_open", "notmuch_query_create",
                       "notmuch_query_set_sort", "notmuch_query_set_omit_excluded",
                       "notmuch_query_destroy", "notmuch_database_destroy"],
            calls := [Call.stderr "Error: the combination of outputs is not supported.\n"],
            status := EXIT_FAILURE } :=
  ⟨(C13_configuration_errors (sample_world sample_threads sample_messages (fun _ => none))
      (sample_arguments OUTPUT_SUMMARY 0 (-1) 1) (by decide)).1 (by decide),
   (C13_configuration_errors (sample_world sample_threads sample_messages (fun _ => none))
      { sample_arguments 0 0 (-1) (-1) with format_sel := format_sel_t.NOTMUCH_FORMAT_TEXT0 }
      (by decide)).2.1 rfl rfl (by decide),
   ((C13_configuration_errors (sample_world sample_threads sample_messages (fun _ => none))
      (sample_arguments (OUTPUT_SUMMARY ||| OUTPUT_THREADS) 0 (-1) (-1)) (by decide)).2.2
      "tag:inbox" ⟨by decide, rfl, rfl, rfl, by decide, rfl⟩ rfl (by decide) (by decide)
      (by unfold thread_output; decide) (by unfold message_output; decide)
      (by decide)).trans (by decide)⟩

/-- C14: in thread-id mode, when the engine yields a thread sequence and the
window arithmetic stays inside `int`, the renderer returns success and its
complete sequence of calls is the opening of the list, then for each thread of
the window in order the prefix `thread`, the thread id and a separator, then
the closing of the list; no other field of a thread is emitted. -/
theorem C14_thread_ids (w : Collaborators) (ver : Int) (opt : search_options_t)
    (threads : List notmuch_thread_t)
    (hout : opt.output = OUTPUT_THREADS)
    (hs : w.notmuch_query_search_threads opt.query = some threads)
    (hno : no_overflow (do_search_threads w ver opt).opt.offset opt.limit threads.length) :
    (do_search_threads w ver opt).calls
        = Call.begin_list ::
            (window threads (do_search_threads w ver opt).opt.offset opt.limit).flatMap
              (fun t =>
                [ Call.set_prefix "thread", Call.string (some t.thread_id), Call.separator])
            ++ [Call.end_]
      ∧ (do_search_threads w ver opt).ret = 0 := by
  have hbody : ∀ t, do_search_threads_body w ver (do_search_threads w ver opt).opt t
      = ([ Call.set_prefix "thread", Call.string (some t.thread_id), Call.separator], false) :=
    fun t => do_search_threads_body_threads w ver _ t
      (by rw [do_search_threads_opt_output]; exact hout)
  have h := do_search_threads_calls w ver opt threads hs hno
    (by intro t _; rw [hbody t])
  refine ⟨?_, h.2⟩
  rw [h.1]
  congr 2
  apply List.flatMap_congr
  intro t _
  rw [hbody t]

/-- C14, at the three sample threads with offset 1 and no limit. -/
theorem C14_thread_ids_witness :
    (do_search_threads (sample_world sample_threads sample_messages (fun _ => none)) 2
        (sample_options false OUTPUT_THREADS 1 (-1) (-1))).calls
      = [Call.begin_list,
         Call.set_prefix "thread", Call.string (some "t2"), Call.separator,
         Call.set_prefix "thread", Call.string (some "t3"), Call.separator,
         Call.end_] :=
  (C14_thread_ids (sample_world sample_threads sample_messages (fun _ => none)) 2
    (sample_options false OUTPUT_THREADS 1 (-1) (-1)) sample_threads
    rfl rfl (by decide)).1.trans (by decide)

/-- C15 as stated fails with the text printer: at format version 2 the summary
record of a thread whose matched and unmatched queries exist holds no query
list, only the line and the tags. -/
theorem C15_counterexample :
    get_thread_query (sample_world sample_threads sample_messages (fun _ => none))
        (sample_thread "t1" ["inbox", "work"] sample_messages)
        = some (some "id:m1 id:m3", some "id:m2")
      ∧ (do_search_threads
          (sample_world [sample_thread "t1" ["inbox", "work"] sample_messages] [] (fun _ => none))
          2 (sample_options true OUTPUT_SUMMARY 0 (-1) (-1))).calls
        = [Call.begin_list,
           Call.begin_map,
           Call.stdout "thread:t1        today [2/3] Ann, Bob; Hello (",
           Call.map_key "tags", Call.begin_list,
           Call.stdout "inbox", Call.stdout " ", Call.stdout "work", Call.stdout ")",
           Call.end_, Call.end_, Call.separator,
           Call.end_] := by
  decide

/-- C15, amended: in summary mode, when the engine yields a thread sequence
and the window arithmetic stays inside `int`: with a structured printer (and
`get_thread_query` succeeding on the threads when the format version is at
least 2) the record of every thread of the window is one map with the keys
thread, timestamp, date_relative, matched, total, authors, subject, then the
key query with the list of the matched and the unmatched query (a string or
null each, as returned by `get_thread_query`) exactly when the format version
is at least 2, then the key tags with the tags in engine order; with the text
printer the record holds no query list whatever the format version. -/
theorem C15_summary_record (w : Collaborators) (ver : Int) (opt : search_options_t)
    (threads : List notmuch_thread_t)
    (queries : notmuch_thread_t → Option String × Option String)
    (hout : opt.output ≠ OUTPUT_THREADS)
    (hs : w.notmuch_query_search_threads opt.query = some threads)
    (hno : no_overflow (do_search_threads w ver opt).opt.offset opt.limit threads.length) :
    (opt.format.is_text_printer = false →
        (2 ≤ ver → ∀ t ∈ threads, get_thread_query w t = some (queries t)) →
        (do_search_threads w ver opt).calls
          = Call.begin_list ::
              (window threads (do_search_threads w ver opt).opt.offset opt.limit).flatMap
                (fun t => structured_record w ver opt t (queries t))
              ++ [Call.end_])
      ∧ (∀ (t : notmuch_thread_t) (q : Option String × Option String),
          Call.map_key "query" ∈ structured_record w ver opt t q ↔ 2 ≤ ver)
      ∧ (opt.format.is_text_printer = true →
          (do_search_threads w ver opt).calls
            = Call.begin_list ::
                (window threads (do_search_threads w ver opt).opt.offset opt.limit).flatMap
                  (text_record w opt)
                ++ [Call.end_])
      ∧ (∀ t : notmuch_thread_t, Call.map_key "query" ∉ text_record w opt t) := by
  have hout' : (do_search_threads w ver opt).opt.output ≠ OUTPUT_THREADS := by
    rw [do_search_threads_opt_output]; exact hout
  refine ⟨?_, fun t q => query_key_mem_structured_record w ver opt t q, ?_,
    fun t => query_key_not_mem_text_record w opt t⟩
  · intro hfmt hq
    have hfmt' : (do_search_threads w ver opt).opt.format.is_text_printer = false := by
      rw [do_search_threads_opt_format]; exact hfmt
    have hbody : ∀ t ∈ window threads (do_search_threads w ver opt).opt.offset opt.limit,
        do_search_threads_body w ver (do_search_threads w ver opt).opt t
          = (structured_record w ver opt t (queries t), false) := by
      intro t ht
      rw [do_search_threads_body_structured w ver _ t (queries t) hout' hfmt'
        (fun hv => hq hv t (mem_of_mem_window ht)),
        structured_record_congr w ver _ opt (do_search_threads_opt_sort w ver opt)]
    rw [(do_search_threads_calls w ver opt threads hs hno
      (by intro t ht; rw [hbody t ht])).1]
    congr 2
    apply List.flatMap_congr
    intro t ht
    rw [hbody t ht]
  · intro hfmt
    have hfmt' : (do_search_threads w ver opt).opt.format.is_text_printer = true := by
      rw [do_search_threads_opt_format]; exact hfmt
    have hbody : ∀ t,
        do_search_threads_body w ver (do_search_threads w ver opt).opt t
          = (text_record w opt t, false) := by
      intro t
      rw [do_search_threads_body_text w ver _ t hout' hfmt',
        text_record_congr w _ opt (do_search_threads_opt_sort w ver opt)]
    rw [(do_search_threads_calls w ver opt threads hs hno
      (by intro t _; rw [hbody t])).1]
    congr 2
    apply List.flatMap_congr
    intro t _
    rw [hbody t]

/-- C15 amended, at one sample thread with a structured printer: the query
list is there at format version 2 and not at format version 1. -/
theorem C15_summary_record_witness :
    (do_search_threads
        (sample_world [sample_thread "t3" ["inbox"] [sample_message "m4" true ["/a/4"]]] []
          (fun _ => none))
        2 (sample_options false OUTPUT_SUMMARY 0 (-1) (-1))).calls
        = [Call.begin_list,
           Call.begin_map,
           Call.map_key "thread", Call.string (some "t3"),
           Call.map_key "timestamp", Call.integer 2000,
           Call.map_key "date_relative", Call.string (some "today"),
           Call.map_key "matched", Call.integer 2,
           Call.map_key "total", Call.integer 3,
           Call.map_key "authors", Call.string (some "Ann, Bob"),
           Call.map_key "subject", Call.string (some "Hello"),
           Call.map_key "query", Call.begin_list,
           Call.string (some "id:m4"), Call.null, Call.end_,
           Call.map_key "tags", Call.begin_list, Call.string (some "inbox"), Call.end_,
           Call.end_, Call.separator,
           Call.end_]
      ∧ (do_search_threads
          (sample_world [sample_thread "t3" ["inbox"] [sample_message "m4" true ["/a/4"]]] []
            (fun _ => none))
          1 (sample_options false OUTPUT_SUMMARY 0 (-1) (-1))).calls
        = [Call.begin_list,
           Call.begin_map,
           Call.map_key "thread", Call.string (some "t3"),
           Call.map_key "timestamp", Call.integer 2000,
           Call.map_key "date_relative", Call.string (some "today"),
           Call.map_key "matched", Call.integer 2,
           Call.map_key "total", Call.integer 3,
           Call.map_key "authors", Call.string (some "Ann, Bob"),
           Call.map_key "subject", Call.string (some "Hello"),
           Call.map_key "tags", Call.begin_list, Call.string (some "inbox"), Call.end_,
           Call.end_, Call.separator,
           Call.end_] :=
  ⟨((C15_summary_record
      (sample_world [sample_thread "t3" ["inbox"] [sample_message "m4" true ["/a/4"]]] []
        (fun _ => none))
      2 (sample_options false OUTPUT_SUMMARY 0 (-1) (-1))
      [sample_thread "t3" ["inbox"] [sample_message "m4" true ["/a/4"]]]
      (fun _ => (some "id:m4", none)) (by decide) rfl (by decide)).1 rfl
      (fun _ t ht => by
        rw [List.mem_singleton] at ht
        rw [ht]
        decide)).trans (by decide),
   ((C15_summary_record
      (sample_world [sample_thread "t3" ["inbox"] [sample_message "m4" true ["/a/4"]]] []
        (fun _ => none))
      1 (sample_options false OUTPUT_SUMMARY 0 (-1) (-1))
      [sample_thread "t3" ["inbox"] [sample_message "m4" true ["/a/4"]]]
      (fun _ => (none, none)) (by decide) rfl (by decide)).1 rfl
      (fun h => absurd h (by decide))).trans (by decide)⟩

/-- C16 as stated fails when the relative date is shorter than twelve bytes:
for the date string `today` the line written has seven spaces of padding
before the date, which the line of the specification does not have. -/
theorem C16_counterexample :
    text_printer_output "\n"
        (do_search_threads
          (sample_world [sample_thread "t1" ["inbox", "work"] sample_messages] [] (fun _ => none))
          2 (sample_options true OUTPUT_SUMMARY 0 (-1) (-1))).calls none
        = "thread:t1        today [2/3] Ann, Bob; Hello (inbox work)\n"
      ∧ specified_summary_line
          (sample_world [sample_thread "t1" ["inbox", "work"] sample_messages] [] (fun _ => none))
          (sample_options true OUTPUT_SUMMARY 0 (-1) (-1))
          (sample_thread "t1" ["inbox", "work"] sample_messages) ++ "\n"
        = "thread:t1 today [2/3] Ann, Bob; Hello (inbox work)\n"
      ∧ text_printer_output "\n"
          (do_search_threads
            (sample_world [sample_thread "t1" ["inbox", "work"] sample_messages] []
              (fun _ => none))
            2 (sample_options true OUTPUT_SUMMARY 0 (-1) (-1))).calls none
        ≠ specified_summary_line
            (sample_world [sample_thread "t1" ["inbox", "work"] sample_messages] []
              (fun _ => none))
            (sample_options true OUTPUT_SUMMARY 0 (-1) (-1))
            (sample_thread "t1" ["inbox", "work"] sample_messages) ++ "\n" := by
  decide

/-- C16, amended: in summary mode with the text printer, when the engine
yields a thread sequence and the window arithmetic stays inside `int`, the
text written is, for each thread of the window in order, the line made of
`thread:`, the id, a space, the relative date right-justified in a field of
twelve bytes, ` [`, the matched count, `/`, the total count, `] `, the
sanitized authors, `; `, the sanitized subject, ` (`, the tags in engine order
joined by single spaces, and `)`, followed by the record terminator; the line
is the one of the specification when the relative date is at least twelve
bytes long. -/
theorem C16_summary_line (w : Collaborators) (ver : Int) (opt : search_options_t)
    (threads : List notmuch_thread_t) (terminator : String)
    (hout : opt.output ≠ OUTPUT_THREADS)
    (hfmt : opt.format.is_text_printer = true)
    (hs : w.notmuch_query_search_threads opt.query = some threads)
    (hno : no_overflow (do_search_threads w ver opt).opt.offset opt.limit threads.length) :
    text_printer_output terminator (do_search_threads w ver opt).calls none
        = concat_texts
            ((window threads (do_search_threads w ver opt).opt.offset opt.limit).map
              (fun t => summary_line w opt t ++ terminator))
      ∧ (∀ t : notmuch_thread_t,
          summary_line w opt t
            = "thread:" ++ t.thread_id ++ " "
                ++ printf_12s (w.notmuch_time_relative_date (thread_date opt t)) ++ " ["
                ++ toString t.matched_messages ++ "/" ++ toString t.total_messages ++ "] "
                ++ w.sanitize_string t.authors ++ "; " ++ w.sanitize_string t.subject ++ " ("
                ++ " ".intercalate t.tags ++ ")")
      ∧ (∀ s : String,
          printf_12s s = String.mk (List.replicate (12 - s.utf8ByteSize) ' ') ++ s)
      ∧ (∀ t : notmuch_thread_t,
          12 ≤ (w.notmuch_time_relative_date (thread_date opt t)).utf8ByteSize →
          summary_line w opt t = specified_summary_line w opt t) := by
  refine ⟨?_, fun t => rfl, fun s => rfl, ?_⟩
  · have hout' : (do_search_threads w ver opt).opt.output ≠ OUTPUT_THREADS := by
      rw [do_search_threads_opt_output]; exact hout
    have hfmt' : (do_search_threads w ver opt).opt.format.is_text_printer = true := by
      rw [do_search_threads_opt_format]; exact hfmt
    have hbody : ∀ t,
        do_search_threads_body w ver (do_search_threads w ver opt).opt t
          = (text_record w opt t, false) := by
      intro t
      rw [do_search_threads_body_text w ver _ t hout' hfmt',
        text_record_congr w _ opt (do_search_threads_opt_sort w ver opt)]
    have hcalls : (do_search_threads w ver opt).calls
        = Call.begin_list ::
            ((window threads (do_search_threads w ver opt).opt.offset opt.limit).flatMap
              (text_record w opt) ++ [Call.end_]) := by
      rw [(do_search_threads_calls w ver opt threads hs hno
        (by intro t _; rw [hbody t])).1, List.cons_append]
      congr 2
      apply List.flatMap_congr
      intro t _
      rw [hbody t]
    rw [hcalls]
    simp only [text_printer_output]
    rw [text_printer_output_text_records]
    simp [text_printer_output]
  · intro t h
    unfold summary_line summary_line_head specified_summary_line
    rw [printf_12s_of_wide _ h]

/-- C16 amended, at one thread with two of three messages matched and the tags
inbox and work, for the date string `today` and the newline terminator. -/
theorem C16_summary_line_witness :
    text_printer_output "\n"
        (do_search_threads
          (sample_world [sample_thread "t1" ["inbox", "work"] sample_messages] [] (fun _ => none))
          2 (sample_options true OUTPUT_SUMMARY 0 (-1) (-1))).calls none
      = "thread:t1        today [2/3] Ann, Bob; Hello (inbox work)\n" :=
  (C16_summary_line
    (sample_world [sample_thread "t1" ["inbox", "work"] sample_messages] [] (fun _ => none))
    2 (sample_options true OUTPUT_SUMMARY 0 (-1) (-1))
    [sample_thread "t1" ["inbox", "work"] sample_messages] "\n"
    (by decide) rfl rfl (by decide)).1.trans (by decide)

/-- C17: `do_search_tags` returns failure exactly when the engine yields no
tag sequence (for the query string `*` the tags of the database are not
available; for another query string the message search yields nothing, or the
collection of the tags yields nothing), and then it makes no call at all;
whenever the tag sequence is available, the empty one included, it returns
success and its calls are the opening of the list, then each tag of the
sequence in order followed by a separator, then the closing of the list. -/
theorem C17_tag_collector (w : Collaborators) (opt : search_options_t) :
    ((do_search_tags w opt).2 ≠ 0 ↔ tag_sequence w opt = none)
      ∧ (tag_sequence w opt = none → do_search_tags w opt = ([], 1))
      ∧ (∀ tags : List String, tag_sequence w opt = some tags →
          do_search_tags w opt
            = (Call.begin_list ::
                tags.flatMap (fun tag => [Call.string (some tag), Call.separator])
                ++ [Call.end_], 0))
      ∧ (tag_sequence w opt = none ↔
          (opt.query.query_string = "*" ∧ w.notmuch_database_get_all_tags = none)
            ∨ (opt.query.query_string ≠ "*" ∧
                (w.notmuch_query_search_messages opt.query = none
                  ∨ ∃ messages, w.notmuch_query_search_messages opt.query = some messages
                      ∧ w.notmuch_messages_collect_tags messages = none))) := by
  refine ⟨?_, ?_, ?_, ?_⟩
  · rw [do_search_tags_eq]
    cases tag_sequence w opt <;> simp
  · intro h
    rw [do_search_tags_eq, h]
  · intro tags h
    rw [do_search_tags_eq, h]
    rfl
  · unfold tag_sequence
    by_cases hq : opt.query.query_string = "*"
    · simp [hq]
    · simp only [if_neg hq]
      cases hsm : w.notmuch_query_search_messages opt.query with
      | none => simp [hq]
      | some messages => simp [hq]

/-- C17, at a search whose collected tags are inbox and work, at a search
whose collected tags are the empty sequence, and at a wildcard query for which
the database yields no tag sequence. -/
theorem C17_tag_collector_witness :
    do_search_tags (sample_tag_world sample_messages none (some ["inbox", "work"]))
        (sample_options true OUTPUT_TAGS 0 (-1) (-1))
        = ([Call.begin_list,
            Call.string (some "inbox"), Call.separator,
            Call.string (some "work"), Call.separator,
            Call.end_], 0)
      ∧ do_search_tags (sample_tag_world sample_messages none (some []))
          (sample_options true OUTPUT_TAGS 0 (-1) (-1))
        = ([Call.begin_list, Call.end_], 0)
      ∧ do_search_tags (sample_tag_world sample_messages none (some ["inbox"]))
          { sample_options true OUTPUT_TAGS 0 (-1) (-1) with
            query := { sample_query with query_string := "*" } }
        = ([], 1) :=
  ⟨(C17_tag_collector (sample_tag_world sample_messages none (some ["inbox", "work"]))
      (sample_options true OUTPUT_TAGS 0 (-1) (-1))).2.2.1 ["inbox", "work"] rfl,
   (C17_tag_collector (sample_tag_world sample_messages none (some []))
      (sample_options true OUTPUT_TAGS 0 (-1) (-1))).2.2.1 [] rfl,
   (C17_tag_collector (sample_tag_world sample_messages none (some ["inbox"]))
      { sample_options true OUTPUT_TAGS 0 (-1) (-1) with
        query := { sample_query with query_string := "*" } }).2.1 rfl⟩

/-- C18 evaluated on an index of two messages tagged inbox and spam, with spam
configured as exclude tag and the default exclude policy: for the query
string `*` the command emits both tags, for the query string `path:**`, which
matches both messages, it emits inbox only; without a configured exclude tag
the two runs emit the same tags. -/
theorem C18_wildcard_ignores_excludes :
    (notmuch_search_command (index_world sample_index ["spam"])
        (sample_tag_arguments "*")).calls
        = [Call.begin_list,
           Call.string (some "inbox"), Call.separator,
           Call.string (some "spam"), Call.separator,
           Call.end_]
      ∧ (notmuch_search_command (index_world sample_index ["spam"])
          (sample_tag_arguments "path:**")).calls
        = [Call.begin_list, Call.string (some "inbox"), Call.separator, Call.end_]
      ∧ (∀ m ∈ sample_index.messages, sample_index.query_matches "path:**" m = true)
      ∧ (notmuch_search_command (index_world sample_index ["spam"])
          (sample_tag_arguments "*")).status = EXIT_SUCCESS
      ∧ (notmuch_search_command (index_world sample_index ["spam"])
          (sample_tag_arguments "path:**")).status = EXIT_SUCCESS
      ∧ (notmuch_search_command (index_world sample_index [])
          (sample_tag_arguments "*")).calls
        = (notmuch_search_command (index_world sample_index [])
            (sample_tag_arguments "path:**")).calls := by
  decide

/-- C19 as stated fails in file-path mode: with limit 1 and the selector unset
the renderer emits both paths of the first message, two records. -/
theorem C19_counterexample :
    (do_search_messages (sample_world sample_threads sample_messages (fun _ => none))
        (sample_options true OUTPUT_FILES 0 1 (-1))).calls
        = [Call.begin_list,
           Call.string (some "/a/1"), Call.separator,
           Call.string (some "/b/1"), Call.separator,
           Call.end_]
      ∧ (sample_options true OUTPUT_FILES 0 1 (-1)).limit
        < (List.count Call.separator
            (do_search_messages (sample_world sample_threads sample_messages (fun _ => none))
              (sample_options true OUTPUT_FILES 0 1 (-1))).calls : Int) := by
  decide

/-- C19, amended: for a limit that is not negative, when the engine yields a
thread sequence and a message sequence and the window arithmetic stays inside
`int`, the renderers run their loop body on at most `limit` items (threads or
messages); the number of records (separator calls) of the thread renderer, in
thread-id and in summary mode, and of the message renderer in message-id mode
and in file-path mode with a selector that is not negative, never exceeds
`limit`. -/
theorem C19_limit_bounds_items (w : Collaborators) (ver : Int) (opt : search_options_t)
    (threads : List notmuch_thread_t) (messages : List notmuch_message_t)
    (hlim : 0 ≤ opt.limit)
    (hst : w.notmuch_query_search_threads opt.query = some threads)
    (hsm : w.notmuch_query_search_messages opt.query = some messages)
    (hnt : no_overflow (do_search_threads w ver opt).opt.offset opt.limit threads.length)
    (hnm : no_overflow (do_search_messages w opt).opt.offset opt.limit messages.length) :
    ((window threads (do_search_threads w ver opt).opt.offset opt.limit).length : Int)
        ≤ opt.limit
      ∧ ((window messages (do_search_messages w opt).opt.offset opt.limit).length : Int)
        ≤ opt.limit
      ∧ (do_search_messages w opt).calls
        = Call.begin_list ::
            (window messages (do_search_messages w opt).opt.offset opt.limit).flatMap
              (do_search_messages_body w (do_search_messages w opt).opt)
            ++ [Call.end_]
      ∧ (List.count Call.separator (do_search_threads w ver opt).calls : Int) ≤ opt.limit
      ∧ (opt.output = OUTPUT_MESSAGES →
          (List.count Call.separator (do_search_messages w opt).calls : Int) ≤ opt.limit)
      ∧ (opt.output = OUTPUT_FILES → 0 ≤ opt.dupe →
          (∀ m ∈ messages, (m.filenames.length : Int) < INT_MAX) →
          (List.count Call.separator (do_search_messages w opt).calls : Int) ≤ opt.limit) := by
  have hwt := window_length_le threads (do_search_threads w ver opt).opt.offset opt.limit hlim
  have hwm := window_length_le messages (do_search_messages w opt).opt.offset opt.limit hlim
  have hcm := (do_search_messages_calls w opt messages hsm hnm).1
  refine ⟨hwt, hwm, hcm, ?_, ?_, ?_⟩
  · have hnn := do_search_threads_offset_nonneg w ver opt
    have hloop := count_separator_do_search_threads_loop w ver
      { opt with offset := (do_search_threads w ver opt).opt.offset } hnt.2 hnn threads 0
      (by intro h; simpa using hnt.1 h)
    rw [show ((0 : Nat) : Int) = 0 from rfl] at hloop
    simp only [window_from_zero _ _ _ hnn] at hloop
    have hcalls : (do_search_threads w ver opt).calls
        = Call.begin_list ::
            (do_search_threads_loop w ver
              { opt with offset := (do_search_threads w ver opt).opt.offset } threads 0).1 := by
      conv => lhs; rw [do_search_threads_eq]
      rw [hst]
    rw [hcalls, List.count_cons]
    simp only [beq_iff_eq, reduceCtorEq, if_false, Nat.add_zero]
    omega
  · intro hout
    rw [hcm]
    have hle := count_separator_flatMap_le
      (do_search_messages_body w (do_search_messages w opt).opt)
      (window messages (do_search_messages w opt).opt.offset opt.limit)
      (by
        intro m _
        unfold do_search_messages_body
        have h1 : (do_search_messages w opt).opt.output ≠ OUTPUT_FILES := by
          rw [do_search_messages_opt_output, hout]; decide
        have h2 : (do_search_messages w opt).opt.output = OUTPUT_MESSAGES := by
          rw [do_search_messages_opt_output, hout]
        rw [if_neg h1, if_pos h2]
        split <;> simp [List.count_cons])
    simp only [List.count_append, List.count_cons, List.count_nil, beq_iff_eq, reduceCtorEq,
      if_false, Nat.add_zero]
    omega
  · intro hout hdupe hlen
    rw [hcm]
    have hle := count_separator_flatMap_le
      (do_search_messages_body w (do_search_messages w opt).opt)
      (window messages (do_search_messages w opt).opt.offset opt.limit)
      (by
        intro m hm
        rw [do_search_messages_body_files w _ m
          (by rw [do_search_messages_opt_output]; exact hout)
          (fun _ => hlen m (mem_of_mem_window hm)),
          do_search_messages_opt_dupe, count_separator_string_records]
        exact selected_paths_length_le _ _ hdupe)
    simp only [List.count_append, List.count_cons, List.count_nil, beq_iff_eq, reduceCtorEq,
      if_false, Nat.add_zero]
    omega

/-- C19 amended, at the three sample messages in message-id mode with limit 2:
two records. -/
theorem C19_limit_bounds_items_witness :
    (List.count Call.separator
        (do_search_messages (sample_world sample_threads sample_messages (fun _ => none))
          (sample_options true OUTPUT_MESSAGES 0 2 (-1))).calls : Int)
        ≤ (sample_options true OUTPUT_MESSAGES 0 2 (-1)).limit
      ∧ (do_search_messages (sample_world sample_threads sample_messages (fun _ => none))
          (sample_options true OUTPUT_MESSAGES 0 2 (-1))).calls
        = [Call.begin_list,
           Call.set_prefix "id", Call.string (some "m1"), Call.separator,
           Call.set_prefix "id", Call.string (some "m2"), Call.separator,
           Call.end_] :=
  ⟨(C19_limit_bounds_items (sample_world sample_threads sample_messages (fun _ => none)) 2
      (sample_options true OUTPUT_MESSAGES 0 2 (-1)) sample_threads sample_messages
      (by decide) rfl rfl (by decide) (by decide)).2.2.2.2.1 rfl,
   (C19_limit_bounds_items (sample_world sample_threads sample_messages (fun _ => none)) 2
      (sample_options true OUTPUT_MESSAGES 0 2 (-1)) sample_threads sample_messages
      (by decide) rfl rfl (by decide) (by decide)).2.2.1.trans (by decide)⟩

/-- C20: whenever the thread renderer, the message renderer or the tag
collector returns success, whatever the output mode, the printer family, the
format version and the window, its sequence of calls obeys the stack
discipline: the first call opens the outer list and the last call closes it,
no prefix holds more closing than opening calls, the whole sequence holds as
many of both, and at every separator call only the outer list is open, so
that the map of a record is closed before the separator of the record. -/
theorem C20_stack_discipline (w : Collaborators) (ver : Int) (opt : search_options_t) :
    ((do_search_threads w ver opt).ret = 0 →
        stack_discipline (do_search_threads w ver opt).calls)
      ∧ ((do_search_messages w opt).ret = 0 →
          stack_discipline (do_search_messages w opt).calls)
      ∧ ((do_search_tags w opt).2 = 0 → stack_discipline (do_search_tags w opt).1) :=
  ⟨stack_discipline_do_search_threads w ver opt,
   stack_discipline_do_search_messages w opt,
   stack_discipline_do_search_tags w opt⟩

/-- C20, at the three sample threads in summary mode with a structured printer
and format version 2, and at two messages with address headers in sender and
recipients mode with a structured printer. -/
theorem C20_stack_discipline_witness :
    stack_discipline
        (do_search_threads (sample_world sample_threads sample_messages (fun _ => none)) 2
          (sample_options false OUTPUT_SUMMARY 0 (-1) (-1))).calls
      ∧ stack_discipline
          (do_search_messages
            (sample_world []
              [sample_message_with_headers "m1" [("from", "ann"), ("to", "team")],
               sample_message_with_headers "m2" [("from", "ann"), ("to", "???")]]
              sample_parse)
            (sample_options false (address_output true true) 0 (-1) (-1))).calls :=
  ⟨(C20_stack_discipline (sample_world sample_threads sample_messages (fun _ => none)) 2
      (sample_options false OUTPUT_SUMMARY 0 (-1) (-1))).1 (by decide),
   (C20_stack_discipline
      (sample_world []
        [sample_message_with_headers "m1" [("from", "ann"), ("to", "team")],
         sample_message_with_headers "m2" [("from", "ann"), ("to", "???")]]
        sample_parse)
      2 (sample_options false (address_output true true) 0 (-1) (-1))).2.1 (by decide)⟩
end NotmuchSearch
